import Mathlib

/-! C1001 mmWave sensor driver: frame codec, initialization and polling scheduler.

A shallow embedding of `src/components/c1001/c1001.cpp` and `c1001.h`.

Conventions of the embedding

* A byte (`uint8_t`) is a `Nat` below 256; `uint8_t` and `uint16_t` arithmetic
  that can wrap is written with an explicit `% 256` or `% 65536`.
* A C buffer is a `List Nat` of the declared size; `buf[i] = v` is
  `List.set`, `buf[i]` is `List.getD _ i 0`.
* The serial transport is modelled by the byte stream it delivers to one
  `send_command` call before the 2000 ms timeout expires, in arrival order.
* `float` values are modelled by exact rationals.
* The log strings `send_command` builds in its local `char` buffers are
  embedded by `debug_str`, `resp_str` and `resp_str_timeout`. A call whose
  strings do not fit their buffers writes past them in C; `SendResult.strings_fit`
  records whether they fit, and the other fields of the result stand for the
  C call only when it is true.
-/

namespace C1001

/-! ## Constants (c1001.cpp lines 11-26, 72-111) -/

def MAX_CONSECUTIVE_ERRORS : Nat := 20
def SENSOR_TIMEOUT_MS : Nat := 120000

def INIT_NONE : Int := 0
def INIT_CREATED : Int := 1
def INIT_BEGIN_DONE : Int := 2
def INIT_SLEEP_MODE_DONE : Int := 3
def INIT_LED_DONE : Int := 4
def INIT_RESET_DONE : Int := 5
def INIT_COMPLETE : Int := 6

def REG_CONFIG : Nat := 0x01
def REG_WORK_MODE : Nat := 0x02
def REG_BASIC_HUMAN : Nat := 0x80
def REG_BREATH : Nat := 0x81
def REG_SLEEP : Nat := 0x84
def REG_HEART : Nat := 0x85

def CMD_SET_LED : Nat := 0x03
def CMD_GET_LED : Nat := 0x83
def CMD_RESET : Nat := 0x02
def CMD_SET_WORK_MODE : Nat := 0xA8
def CMD_GET_WORK_MODE : Nat := 0xA8

def MODE_FALL : Nat := 0x01
def MODE_SLEEP : Nat := 0x02

def CMD_GET_PRESENCE : Nat := 0x81
def CMD_GET_MOVEMENT : Nat := 0x82
def CMD_GET_BREATHING : Nat := 0x82
def CMD_GET_HEART_RATE : Nat := 0x82

def CMD_GET_IN_BED : Nat := 0x81
def CMD_GET_SLEEP_STATE : Nat := 0x82
def CMD_GET_WAKE_DURATION : Nat := 0x83
def CMD_GET_LIGHT_SLEEP : Nat := 0x84
def CMD_GET_DEEP_SLEEP : Nat := 0x85
def CMD_GET_SLEEP_QUALITY : Nat := 0x86
def CMD_GET_SLEEP_DISTURBANCE : Nat := 0x8E
def CMD_GET_SLEEP_COMPOSITE : Nat := 0x8D
def CMD_GET_SLEEP_STATISTICS : Nat := 0x8F
def CMD_GET_SLEEP_QUALITY_RATING : Nat := 0x90
def CMD_GET_ABNORMAL_STRUGGLE : Nat := 0x91

/-! ## Frame codec (c1001.cpp lines 125-274) -/

/-- Embedding of `calculate_checksum(len, buf)`: a `uint16_t` accumulator summed
over `buf[0 .. len-1]`, of which the low 8 bits are returned. -/
def calculate_checksum (len : Nat) (buf : List Nat) : Nat :=
  ((List.range len).foldl (fun sum i => (sum + buf.getD i 0) % 65536) 0) % 256

/-- Embedding of `memcpy(&dst[off], src, n)`. -/
def memcpyAt (dst : List Nat) (off : Nat) (src : List Nat) (n : Nat) : List Nat :=
  (List.range n).foldl (fun b i => b.set (off + i) (src.getD i 0)) dst

/-- Embedding of the filler loop `for (i < data_len) cmd_buffer[6 + i] = 0x0F`. -/
def fillAt (dst : List Nat) (off : Nat) (n : Nat) : List Nat :=
  (List.range n).foldl (fun b i => b.set (off + i) 0x0F) dst

/-- The `cmd_buffer[20]` of `send_command` after the frame has been built
(lines 144-174). `data = none` is the null pointer. The C code writes past the
buffer when `data_len > 11`; the embedding is meant for `data_len ≤ 11`. -/
def cmd_buffer (con cmd data_len : Nat) (data : Option (List Nat)) : List Nat :=
  let b0 := List.replicate 20 0
  let b1 := (b0.set 0 0x53).set 1 0x59
  let b2 := (b1.set 2 con).set 3 cmd
  let b3 := (b2.set 4 ((data_len >>> 8) &&& 0xFF)).set 5 (data_len &&& 0xFF)
  let b4 :=
    match data with
    | some d => if data_len > 0 then memcpyAt b3 6 d data_len else b3
    | none => if data_len > 0 then fillAt b3 6 data_len else b3
  let b5 := b4.set (6 + data_len) (calculate_checksum ((6 + data_len) % 256) b4)
  (b5.set (7 + data_len) 0x54).set (8 + data_len) 0x43

/-- The `uint8_t cmd_len = 6 + data_len + 3` of `send_command`. -/
def cmd_len (data_len : Nat) : Nat := (6 + data_len + 3) % 256

/-- The bytes `send_command` writes to the transport (lines 189-193):
`cmd_buffer[0 .. cmd_len-1]` as built. Between the build and the write the
code fills `debug_str[64]` (lines 177-185, embedded by `debug_str`); when that
string does not fit (`debug_str_fits` false, which is `data_len ≥ 10`) the C
code writes past `debug_str` and these bytes do not stand for what is sent. -/
def sentFrame (con cmd data_len : Nat) (data : Option (List Nat)) : List Nat :=
  (List.range (cmd_len data_len)).map (fun i => (cmd_buffer con cmd data_len data).getD i 0)

/-- The local variables of the receive loop of `send_command` (lines 199-203). -/
structure RecvState where
  recv_buffer : List Nat
  recv_pos : Nat
  found_start : Bool
  found_end : Bool
deriving DecidableEq, Repr

/-- The receive state before the first byte: `recv_buffer[64] = {0}`,
`recv_pos = 0`, both flags false. -/
def recvInit : RecvState :=
  { recv_buffer := List.replicate 64 0, recv_pos := 0, found_start := false, found_end := false }

/-- One pass of the loop body for a byte that was read (lines 208-223): store
it while `recv_pos < sizeof(recv_buffer) - 1`, then update the two flags. -/
def recvStep (st : RecvState) (byte : Nat) : RecvState :=
  let st1 : RecvState :=
    if st.recv_pos < 64 - 1 then
      { st with recv_buffer := st.recv_buffer.set st.recv_pos byte,
                recv_pos := (st.recv_pos + 1) % 256 }
    else st
  let st2 : RecvState := if byte = 0x53 then { st1 with found_start := true } else st1
  if byte = 0x43 ∧ st2.recv_pos > 1 ∧ st2.recv_buffer.getD (st2.recv_pos - 2) 0 = 0x54 then
    { st2 with found_end := true }
  else st2

/-- The receive loop (lines 206-255) over the bytes that arrive before the
timeout: `some st` is the state at `return true`, `none` is the timeout. -/
def recvLoop : RecvState → List Nat → Option RecvState
  | _, [] => none
  | st, byte :: rest =>
    let st1 := recvStep st byte
    if st1.found_start && st1.found_end then some st1 else recvLoop st1 rest

/-- Embedding of `memcpy(response_buffer, recv_buffer, recv_pos)` (line 247):
the first `n` bytes of the destination are replaced. A copy longer than the
destination shows as a result longer than the destination. -/
def memcpyInto (dst src : List Nat) (n : Nat) : List Nat :=
  src.take n ++ dst.drop n

/-! ## Log strings of `send_command` (lines 176-185, 235-242, 259-266) -/

/-- The upper-case hexadecimal digits of the `%02X` conversion. -/
def hexDigits : List Char := "0123456789ABCDEF".toList

/-- The characters `sprintf(hex, "%02X:", byte)` writes to `hex[5]` before the
terminating NUL: two upper-case hexadecimal digits and a colon. -/
def hex (byte : Nat) : List Char :=
  [hexDigits.getD (byte / 16 % 16) '0', hexDigits.getD (byte % 16) '0', ':']

/-- The string in `debug_str[64]` after `strcpy(debug_str, "Sending: ")` and the
`strcat` loop over `cmd_buffer[0 .. cmd_len-1]` (lines 177-182), the
terminating NUL not counted. -/
def debug_str (con cmd data_len : Nat) (data : Option (List Nat)) : List Char :=
  (List.range (cmd_len data_len)).foldl
    (fun s i => s ++ hex ((cmd_buffer con cmd data_len data).getD i 0)) "Sending: ".toList

/-- The string in `resp_str[128]` after the `strcat` loop over
`recv_buffer[0 .. recv_pos-1]` when the receive loop returns true (lines
235-240), the terminating NUL not counted. -/
def resp_str (st : RecvState) : List Char :=
  (List.range st.recv_pos).foldl
    (fun s i => s ++ hex (st.recv_buffer.getD i 0)) "Received: ".toList

/-- The string in the `resp_str[128]` of the timeout path after its `strcat`
loop (lines 259-264), the terminating NUL not counted. -/
def resp_str_timeout (st : RecvState) : List Char :=
  (List.range st.recv_pos).foldl
    (fun s i => s ++ hex (st.recv_buffer.getD i 0)) "Partial response: ".toList

/-- The string built in `debug_str[64]` and its terminating NUL fit the buffer. -/
def debug_str_fits (con cmd data_len : Nat) (data : Option (List Nat)) : Bool :=
  decide ((debug_str con cmd data_len data).length + 1 ≤ 64)

/-- The string built in `resp_str[128]` for the stream `rx` and its terminating
NUL fit the buffer: the "Received" string when the loop returns true, the
"Partial response" string when it times out with `recv_pos > 0`; a timeout with
`recv_pos = 0` builds no string. -/
def resp_str_fits (rx : List Nat) : Bool :=
  match recvLoop recvInit rx with
  | some st => decide ((resp_str st).length + 1 ≤ 128)
  | none =>
    let st := rx.foldl recvStep recvInit
    if st.recv_pos > 0 then decide ((resp_str_timeout st).length + 1 ≤ 128) else true

/-- What one `send_command` call returns and does. `strings_fit` tells whether
the log strings built during the call fit `debug_str[64]` and `resp_str[128]`;
when it is false the C call writes past one of them. -/
structure SendResult where
  ok : Bool
  written : List Nat
  response_buffer : Option (List Nat)
  strings_fit : Bool
deriving DecidableEq, Repr

/-- Embedding of `send_command(con, cmd, data_len, data, response_buffer)`; `rx`
is the byte stream the transport delivers before the timeout. The frame build,
the write, the receive loop and the copy to the caller's buffer give `ok`,
`written` and `response_buffer`; the three log-string builds give
`strings_fit`. -/
def send_command (con cmd data_len : Nat) (data : Option (List Nat))
    (response_buffer : Option (List Nat)) (rx : List Nat) : SendResult :=
  let written := sentFrame con cmd data_len data
  let strings_fit := debug_str_fits con cmd data_len data && resp_str_fits rx
  match recvLoop recvInit rx with
  | some st =>
    { ok := true, written := written,
      response_buffer :=
        match response_buffer with
        | some rb => if st.recv_pos > 0 then some (memcpyInto rb st.recv_buffer st.recv_pos) else some rb
        | none => none,
      strings_fit := strings_fit }
  | none =>
    { ok := false, written := written, response_buffer := response_buffer,
      strings_fit := strings_fit }

/-- The bytes captured by a successful receive: `recv_buffer[0 .. recv_pos-1]`. -/
def captured (st : RecvState) : List Nat := st.recv_buffer.take st.recv_pos

/-- The captured response of the receive loop on `rx`, when it returns true. -/
def receive (rx : List Nat) : Option (List Nat) :=
  (recvLoop recvInit rx).map captured

/-! ## Driver state (c1001.h lines 95-139, statics of `update`) -/

/-- The sinks a metric can be published to (the `*_sensor_` pointers). -/
inductive Sink
  | respiration_sensor_ | heart_rate_sensor_ | presence_sensor_ | movement_sensor_
  | person_detected_ | sleep_state_sensor_ | in_bed_sensor_ | sleep_quality_sensor_
  | sleep_quality_rating_sensor_ | awakening_count_sensor_ | deep_sleep_duration_sensor_
  | light_sleep_duration_sensor_ | awake_duration_sensor_ | turnover_count_sensor_
  | average_respiration_sensor_ | average_heart_rate_sensor_ | apnea_events_sensor_
  | large_body_movement_sensor_ | minor_body_movement_sensor_ | sleep_score_sensor_
  | abnormal_struggle_sensor_ | sleep_disturbance_sensor_
deriving DecidableEq, Repr

/-- The `ESP_LOGW` and `ESP_LOGE` call sites of `reset_initialization`,
`on_uart_error` and `update`. The timeout warnings inside `send_command` are
not traced: a timeout shows as a transaction with `ok = false`. -/
inductive Warning
  | resetting_initialization
  | uart_error_detected
  | too_many_consecutive_uart_errors
  | no_response_from_sensor
  | work_mode_query_failed
  | sleep_mode_command_failed
  | led_command_failed
  | reset_command_failed
  | unknown_initialization_state
  | sensor_not_initialized
  | sensor_timeout
  | respiration_outside_range
  | heart_rate_outside_range
  | average_respiration_out_of_range
  | average_heart_rate_out_of_range
  | large_body_movement_out_of_range
  | minor_body_movement_out_of_range
  | failed_to_read_sensor_data
  | too_many_consecutive_errors
deriving DecidableEq, Repr

/-- What a tick does that is visible outside the driver, in program order. -/
inductive Event
  | transaction (frame : List Nat) (ok : Bool)
  | publish_state (sink : Sink) (value : ℚ)
  | publish_bool (sink : Sink) (value : Bool)
  | log (w : Warning)
deriving DecidableEq

/-- The fields of `C1001Component`, with the defaults of the header. A sink
pointer is `true` when it is not null. The last three fields are the
function-local statics of `update` (`retry_count`, `read_step`, `vital_count`). -/
structure C1001Component where
  sensor_initialized_ : Bool := false
  init_state_ : Int := 0
  last_successful_read_ : Nat := 0
  consecutive_errors_ : Nat := 0
  respiration_sensor_ : Bool := false
  heart_rate_sensor_ : Bool := false
  presence_sensor_ : Bool := false
  movement_sensor_ : Bool := false
  person_detected_ : Bool := false
  sleep_state_sensor_ : Bool := false
  in_bed_sensor_ : Bool := false
  sleep_quality_sensor_ : Bool := false
  sleep_quality_rating_sensor_ : Bool := false
  awakening_count_sensor_ : Bool := false
  deep_sleep_duration_sensor_ : Bool := false
  light_sleep_duration_sensor_ : Bool := false
  awake_duration_sensor_ : Bool := false
  turnover_count_sensor_ : Bool := false
  average_respiration_sensor_ : Bool := false
  average_heart_rate_sensor_ : Bool := false
  apnea_events_sensor_ : Bool := false
  large_body_movement_sensor_ : Bool := false
  minor_body_movement_sensor_ : Bool := false
  sleep_score_sensor_ : Bool := false
  abnormal_struggle_sensor_ : Bool := false
  sleep_disturbance_sensor_ : Bool := false
  sleep_state_ : Nat := 3
  in_bed_ : Nat := 0
  average_respiration_ : ℚ := 0
  average_heartbeat_ : ℚ := 0
  turnover_count_ : Nat := 0
  large_body_movement_ : Nat := 0
  minor_body_movement_ : Nat := 0
  apnea_events_ : Nat := 0
  sleep_quality_score_ : Nat := 0
  sleep_quality_rating_ : Nat := 0
  retry_count : Nat := 0
  read_step : Nat := 0
  vital_count : Nat := 0

/-- What the environment supplies to one tick: `rx` holds, for the successive
`send_command` calls of the tick, the byte stream delivered to each; `now` is
`millis()` at the staleness check; `done` is `millis()` read after a successful
transaction. -/
structure TickEnv where
  rx : List (List Nat)
  now : Nat
  done : Nat

/-- Embedding of `setup()` (lines 28-49); `now` is `millis()`. -/
def setup (now : Nat) (c : C1001Component) : C1001Component :=
  { c with init_state_ := INIT_CREATED, consecutive_errors_ := 0, last_successful_read_ := now }

/-- Embedding of `reset_initialization()` (lines 51-56). -/
def reset_initialization (c : C1001Component) : C1001Component × List Event :=
  ({ c with init_state_ := INIT_CREATED, sensor_initialized_ := false, consecutive_errors_ := 0 },
   [Event.log Warning.resetting_initialization])

/-- Embedding of `on_uart_error()` (lines 58-68). -/
def on_uart_error (c : C1001Component) : C1001Component × List Event :=
  let c1 := { c with consecutive_errors_ := (c.consecutive_errors_ + 1) % 256 }
  if c1.consecutive_errors_ ≥ MAX_CONSECUTIVE_ERRORS then
    let r := reset_initialization c1
    (r.1, Event.log Warning.uart_error_detected
            :: Event.log Warning.too_many_consecutive_uart_errors :: r.2)
  else (c1, [Event.log Warning.uart_error_detected])

/-- The zero-initialised `uint8_t response[20]` of `update`. -/
def response0 : List Nat := List.replicate 20 0

/-- The `dummy_byte = 0x0F` payload of `update`. -/
def dummy_byte : Nat := 0x0F

/-- The response buffer after a `send_command` call of `update`. -/
def responseOf (r : SendResult) : List Nat := r.response_buffer.getD response0

/-- The event a `send_command` call leaves in the trace. -/
def txEvent (r : SendResult) : Event := Event.transaction r.written r.ok

/-! ## Initialization switch of `update` (lines 280-398) -/

/-- Embedding of the branch `init_state_ != INIT_COMPLETE` of `update`. -/
def updateInit (env : TickEnv) (c : C1001Component) : C1001Component × List Event :=
  if c.init_state_ = INIT_CREATED then
    let r := send_command REG_CONFIG CMD_GET_LED 1 (some [dummy_byte]) (some response0) (env.rx.getD 0 [])
    if r.ok then
      ({ c with init_state_ := INIT_BEGIN_DONE, retry_count := 0 }, [txEvent r])
    else
      ({ c with retry_count := (c.retry_count + 1) % 256 },
       [txEvent r, Event.log Warning.no_response_from_sensor])
  else if c.init_state_ = INIT_BEGIN_DONE then
    let r := send_command REG_WORK_MODE CMD_GET_WORK_MODE 1 (some [dummy_byte]) (some response0)
      (env.rx.getD 0 [])
    if !r.ok then
      ({ c with retry_count := (c.retry_count + 1) % 256 },
       [txEvent r, Event.log Warning.work_mode_query_failed])
    else if (responseOf r).getD 6 0 ≠ MODE_SLEEP then
      let sleep_mode := MODE_SLEEP
      let r2 := send_command REG_WORK_MODE CMD_SET_WORK_MODE 1 (some [sleep_mode])
        (some (responseOf r)) (env.rx.getD 1 [])
      if !r2.ok then
        ({ c with retry_count := (c.retry_count + 1) % 256 },
         [txEvent r, txEvent r2, Event.log Warning.sleep_mode_command_failed])
      else
        ({ c with init_state_ := INIT_SLEEP_MODE_DONE, retry_count := 0 }, [txEvent r, txEvent r2])
    else
      ({ c with init_state_ := INIT_SLEEP_MODE_DONE, retry_count := 0 }, [txEvent r])
  else if c.init_state_ = INIT_SLEEP_MODE_DONE then
    let r := send_command REG_CONFIG CMD_SET_LED 1 (some [0x01]) (some response0) (env.rx.getD 0 [])
    if !r.ok then
      ({ c with retry_count := (c.retry_count + 1) % 256 },
       [txEvent r, Event.log Warning.led_command_failed])
    else
      ({ c with init_state_ := INIT_LED_DONE, retry_count := 0 }, [txEvent r])
  else if c.init_state_ = INIT_LED_DONE then
    let r := send_command REG_CONFIG CMD_RESET 1 (some [dummy_byte]) (some response0) (env.rx.getD 0 [])
    if !r.ok then
      ({ c with retry_count := (c.retry_count + 1) % 256 },
       [txEvent r, Event.log Warning.reset_command_failed])
    else
      ({ c with init_state_ := INIT_COMPLETE, sensor_initialized_ := true,
                consecutive_errors_ := 0, last_successful_read_ := env.done, retry_count := 0 },
       [txEvent r])
  else
    ({ c with init_state_ := INIT_CREATED, retry_count := 0 },
     [Event.log Warning.unknown_initialization_state])

/-! ## Step selection of `update` (lines 417-450) -/

/-- The new `(current_step, vital_count, read_step)` computed from the statics
`vital_count` and `read_step`. -/
def selectStep (vital_count read_step : Nat) : Nat × Nat × Nat :=
  if vital_count < 2 then
    let vc := (vital_count + 1) % 256
    (if vc % 2 = 1 then 2 else 3, vc, read_step)
  else
    let current_step := read_step
    let rs := (read_step + 1) % 14
    (if current_step = 2 ∨ current_step = 3 then (current_step + 1) % 14 else current_step, 0, rs)

/-! ## Metric scaling (lines 513-530, 561-582, 706-750) -/

/-- The `breathing` value of case 2 computed from `raw_breathing`. -/
def breathing (raw_breathing : Nat) : ℚ :=
  if raw_breathing < 8 then 10 + ((raw_breathing : ℚ) / 10) * 5
  else if raw_breathing > 25 ∧ raw_breathing < 100 then
    10 + ((((raw_breathing : Int) - 25 : Int) : ℚ) / 75) * 15
  else if raw_breathing ≥ 100 then 10 + ((raw_breathing : ℚ) / 255) * 15
  else (raw_breathing : ℚ)

/-- The `heart` value of case 3 computed from `raw_heart`. -/
def heart (raw_heart : Nat) : ℚ :=
  if raw_heart < 30 then 60 + ((raw_heart : ℚ) / 30) * 15
  else if raw_heart > 100 ∧ raw_heart < 150 then
    60 + ((((raw_heart : Int) - 30 : Int) : ℚ) / 120) * 40
  else if raw_heart ≥ 150 then 60 + ((raw_heart : ℚ) / 255) * 40
  else if raw_heart ≥ 30 ∧ raw_heart < 60 then 60 - (60 - (raw_heart : ℚ)) * (1 / 2)
  else (raw_heart : ℚ)

/-- The `average_respiration_` value of case 9 computed from
`raw_avg_respiration`. -/
def average_respiration (raw_avg_respiration : Nat) : ℚ :=
  if raw_avg_respiration < 8 then 10 + ((raw_avg_respiration : ℚ) / 10) * 5
  else if raw_avg_respiration > 25 ∧ raw_avg_respiration < 100 then
    10 + ((((raw_avg_respiration : Int) - 25 : Int) : ℚ) / 75) * 15
  else if raw_avg_respiration ≥ 100 then 10 + ((raw_avg_respiration : ℚ) / 255) * 15
  else (raw_avg_respiration : ℚ)

/-- The `average_heartbeat_` value of case 9 computed from `raw_avg_heartbeat`. -/
def average_heartbeat (raw_avg_heartbeat : Nat) : ℚ :=
  if raw_avg_heartbeat < 30 then 60 + ((raw_avg_heartbeat : ℚ) / 30) * 15
  else if raw_avg_heartbeat > 100 ∧ raw_avg_heartbeat < 150 then
    60 + ((((raw_avg_heartbeat : Int) - 30 : Int) : ℚ) / 120) * 40
  else if raw_avg_heartbeat ≥ 150 then 60 + ((raw_avg_heartbeat : ℚ) / 255) * 40
  else if raw_avg_heartbeat ≥ 30 ∧ raw_avg_heartbeat < 60 then
    60 - (60 - (raw_avg_heartbeat : ℚ)) * (1 / 2)
  else (raw_avg_heartbeat : ℚ)

/-! ## The metric switch of `update` (lines 453-877) -/

/-- The query `send_command(con, cmd, 1, &dummy_byte, response)` every case of
the switch starts with. -/
def query (con cmd : Nat) (env : TickEnv) : SendResult :=
  send_command con cmd 1 (some [dummy_byte]) (some response0) (env.rx.getD 0 [])

/-- The `uint16_t` value `(response[6] << 8) | response[7]` of cases 10-12. -/
def duration16 (response : List Nat) : Nat :=
  ((response.getD 6 0 <<< 8) ||| response.getD 7 0) % 65536

/-- Embedding of `switch (current_step)`: the value of `success`, the driver
after the case, and the events of the case. -/
def pollStep (current_step : Nat) (env : TickEnv) (c : C1001Component) :
    Bool × C1001Component × List Event :=
  match current_step with
  | 0 =>
    let r := query REG_BASIC_HUMAN CMD_GET_PRESENCE env
    if r.ok then
      let raw_presence := (responseOf r).getD 6 0
      let is_present : Bool := decide (raw_presence < 50)
      (true, c, [txEvent r]
        ++ (if c.presence_sensor_ then [Event.publish_state Sink.presence_sensor_ raw_presence] else [])
        ++ (if c.person_detected_ then [Event.publish_bool Sink.person_detected_ is_present] else []))
    else (false, c, [txEvent r])
  | 1 =>
    let r := query REG_BASIC_HUMAN CMD_GET_MOVEMENT env
    if r.ok then
      let movement := (responseOf r).getD 6 0
      (true, c, [txEvent r]
        ++ (if movement ≥ 0 ∧ movement ≤ 2 ∧ c.movement_sensor_ = true then
              [Event.publish_state Sink.movement_sensor_ movement] else []))
    else (false, c, [txEvent r])
  | 2 =>
    let r := query REG_BREATH CMD_GET_BREATHING env
    if r.ok then
      let raw_breathing := (responseOf r).getD 6 0
      let b := breathing raw_breathing
      (true, c, [txEvent r]
        ++ (if b ≥ 10 ∧ b ≤ 25 ∧ c.respiration_sensor_ = true then
              [Event.publish_state Sink.respiration_sensor_ b]
            else
              [Event.log Warning.respiration_outside_range]
                ++ (if b ≥ 8 ∧ b ≤ 30 ∧ c.respiration_sensor_ = true then
                      [Event.publish_state Sink.respiration_sensor_ b] else [])))
    else (false, c, [txEvent r])
  | 3 =>
    let r := query REG_HEART CMD_GET_HEART_RATE env
    if r.ok then
      let raw_heart := (responseOf r).getD 6 0
      let h := heart raw_heart
      (true, c, [txEvent r]
        ++ (if h ≥ 60 ∧ h ≤ 100 ∧ c.heart_rate_sensor_ = true then
              [Event.publish_state Sink.heart_rate_sensor_ h]
            else
              [Event.log Warning.heart_rate_outside_range]
                ++ (if h ≥ 40 ∧ h ≤ 120 ∧ c.heart_rate_sensor_ = true then
                      [Event.publish_state Sink.heart_rate_sensor_ h] else [])))
    else (false, c, [txEvent r])
  | 4 =>
    let r := query REG_SLEEP CMD_GET_IN_BED env
    if r.ok then
      let in_bed := (responseOf r).getD 6 0
      (true, { c with in_bed_ := in_bed % 256 }, [txEvent r]
        ++ (if c.in_bed_sensor_ then [Event.publish_state Sink.in_bed_sensor_ in_bed] else []))
    else (false, c, [txEvent r])
  | 5 =>
    let r := query REG_SLEEP CMD_GET_SLEEP_STATE env
    if r.ok then
      let sleep_state := (responseOf r).getD 6 0
      (true, { c with sleep_state_ := sleep_state % 256 }, [txEvent r]
        ++ (if c.sleep_state_sensor_ then
              [Event.publish_state Sink.sleep_state_sensor_ sleep_state] else []))
    else (false, c, [txEvent r])
  | 6 =>
    let r := query REG_SLEEP CMD_GET_SLEEP_QUALITY env
    if r.ok then
      let sleep_quality := (responseOf r).getD 6 0
      (true, { c with sleep_quality_score_ := sleep_quality % 256 }, [txEvent r]
        ++ (if c.sleep_quality_sensor_ then
              [Event.publish_state Sink.sleep_quality_sensor_ sleep_quality] else []))
    else (false, c, [txEvent r])
  | 7 =>
    let r := query REG_SLEEP CMD_GET_SLEEP_QUALITY_RATING env
    if r.ok then
      let rating := (responseOf r).getD 6 0
      (true, { c with sleep_quality_rating_ := rating % 256 }, [txEvent r]
        ++ (if c.sleep_quality_rating_sensor_ then
              [Event.publish_state Sink.sleep_quality_rating_sensor_ rating] else []))
    else (false, c, [txEvent r])
  | 8 =>
    let r := query REG_SLEEP CMD_GET_ABNORMAL_STRUGGLE env
    if r.ok then
      let struggle := (responseOf r).getD 6 0
      (true, c, [txEvent r]
        ++ (if c.abnormal_struggle_sensor_ then
              [Event.publish_bool Sink.abnormal_struggle_sensor_ (decide (struggle = 2))] else []))
    else (false, c, [txEvent r])
  | 9 =>
    let r := query REG_SLEEP CMD_GET_SLEEP_COMPOSITE env
    if r.ok then
      let response := responseOf r
      let raw_avg_respiration := response.getD 8 0
      let raw_avg_heartbeat := response.getD 9 0
      let c1 : C1001Component :=
        { c with turnover_count_ := response.getD 10 0,
                 large_body_movement_ := response.getD 11 0,
                 minor_body_movement_ := response.getD 12 0,
                 apnea_events_ := response.getD 13 0,
                 average_respiration_ := average_respiration raw_avg_respiration,
                 average_heartbeat_ := average_heartbeat raw_avg_heartbeat }
      (true, c1, [txEvent r]
        ++ (if c1.average_respiration_sensor_ then
              (if c1.average_respiration_ ≥ 0 ∧ c1.average_respiration_ ≤ 40 then
                 [Event.publish_state Sink.average_respiration_sensor_ c1.average_respiration_]
               else [Event.log Warning.average_respiration_out_of_range])
            else [])
        ++ (if c1.average_heart_rate_sensor_ then
              (if c1.average_heartbeat_ ≥ 40 ∧ c1.average_heartbeat_ ≤ 150 then
                 [Event.publish_state Sink.average_heart_rate_sensor_ c1.average_heartbeat_]
               else [Event.log Warning.average_heart_rate_out_of_range])
            else [])
        ++ (if c1.turnover_count_sensor_ then
              [Event.publish_state Sink.turnover_count_sensor_ c1.turnover_count_] else [])
        ++ (if c1.large_body_movement_sensor_ then
              (if c1.large_body_movement_ ≤ 100 then
                 [Event.publish_state Sink.large_body_movement_sensor_ c1.large_body_movement_]
               else [Event.log Warning.large_body_movement_out_of_range])
            else [])
        ++ (if c1.minor_body_movement_sensor_ then
              (if c1.minor_body_movement_ ≤ 100 then
                 [Event.publish_state Sink.minor_body_movement_sensor_ c1.minor_body_movement_]
               else [Event.log Warning.minor_body_movement_out_of_range])
            else [])
        ++ (if c1.apnea_events_sensor_ then
              [Event.publish_state Sink.apnea_events_sensor_ c1.apnea_events_] else []))
    else (false, c, [txEvent r])
  | 10 =>
    let r := query REG_SLEEP CMD_GET_WAKE_DURATION env
    if r.ok then
      let wake_duration := duration16 (responseOf r)
      (true, c, [txEvent r]
        ++ (if c.awake_duration_sensor_ then
              [Event.publish_state Sink.awake_duration_sensor_ wake_duration] else []))
    else (false, c, [txEvent r])
  | 11 =>
    let r := query REG_SLEEP CMD_GET_LIGHT_SLEEP env
    if r.ok then
      let light_sleep := duration16 (responseOf r)
      (true, c, [txEvent r]
        ++ (if c.light_sleep_duration_sensor_ then
              [Event.publish_state Sink.light_sleep_duration_sensor_ light_sleep] else []))
    else (false, c, [txEvent r])
  | 12 =>
    let r := query REG_SLEEP CMD_GET_DEEP_SLEEP env
    if r.ok then
      let deep_sleep := duration16 (responseOf r)
      (true, c, [txEvent r]
        ++ (if c.deep_sleep_duration_sensor_ then
              [Event.publish_state Sink.deep_sleep_duration_sensor_ deep_sleep] else []))
    else (false, c, [txEvent r])
  | 13 =>
    let r := query REG_SLEEP CMD_GET_SLEEP_DISTURBANCE env
    if r.ok then
      let disturbance := (responseOf r).getD 6 0
      (true, c, [txEvent r]
        ++ (if c.sleep_disturbance_sensor_ then
              [Event.publish_bool Sink.sleep_disturbance_sensor_ (decide (disturbance ≠ 3))] else []))
    else (false, c, [txEvent r])
  | _ => (false, c, [])

/-! ## `update` (lines 276-899) -/

/-- The `uint32_t` difference `a - b`. -/
def sub32 (a b : Nat) : Nat := (a % 4294967296 + 4294967296 - b % 4294967296) % 4294967296

/-- Embedding of the polling part of `update` (lines 415-899), entered once the
initialization and staleness checks have passed. -/
def updatePoll (env : TickEnv) (c : C1001Component) : C1001Component × List Event :=
  let sel := selectStep c.vital_count c.read_step
  let current_step := sel.1
  let c1 : C1001Component := { c with vital_count := sel.2.1, read_step := sel.2.2 }
  let res := pollStep current_step env c1
  let success := res.1
  let c2 := res.2.1
  if success then
    ({ c2 with last_successful_read_ := env.done, consecutive_errors_ := 0 }, res.2.2)
  else
    let c3 : C1001Component := { c2 with consecutive_errors_ := (c2.consecutive_errors_ + 1) % 256 }
    if c3.consecutive_errors_ ≥ MAX_CONSECUTIVE_ERRORS then
      let rr := reset_initialization c3
      (rr.1, res.2.2 ++ [Event.log Warning.failed_to_read_sensor_data,
                         Event.log Warning.too_many_consecutive_errors] ++ rr.2)
    else
      (c3, res.2.2 ++ [Event.log Warning.failed_to_read_sensor_data])

/-- Embedding of `update()`: one tick. -/
def update (env : TickEnv) (c : C1001Component) : C1001Component × List Event :=
  if c.init_state_ ≠ INIT_COMPLETE then updateInit env c
  else if !c.sensor_initialized_ then (c, [Event.log Warning.sensor_not_initialized])
  else if sub32 env.now c.last_successful_read_ > SENSOR_TIMEOUT_MS then
    let rr := reset_initialization c
    (rr.1, Event.log Warning.sensor_timeout :: rr.2)
  else updatePoll env c

/-- The driver after a run of ticks, one environment per tick. -/
def run (envs : List TickEnv) (c : C1001Component) : C1001Component :=
  envs.foldl (fun s env => (update env s).1) c

/-! ## Definitions used to state the properties -/

/-- The bytes `send_command` writes for `(con, cmd, payload)` when the payload
is supplied: the encoded command frame. -/
def encode (con cmd : Nat) (payload : List Nat) : List Nat :=
  sentFrame con cmd payload.length (some payload)

/-- The frame the build produces, written out: header, payload, checksum over
the first `6 + n` bytes, end marker. -/
def frameOf (con cmd : Nat) (payload : List Nat) : List Nat :=
  [0x53, 0x59, con, cmd, 0, payload.length] ++ payload
    ++ [(0x53 + 0x59 + con + cmd + 0 + payload.length + payload.sum) % 256, 0x54, 0x43]

/-- The receive state `st` is the one reached from `recvInit` after reading
the bytes `pre`, all of which were stored. -/
def Tracks (st : RecvState) (pre : List Nat) : Prop :=
  st.recv_pos = pre.length
  ∧ st.recv_buffer = pre ++ List.replicate (64 - pre.length) 0
  ∧ (st.found_start = true ↔ 0x53 ∈ pre)
  ∧ (st.found_end = true ↔ [0x54, 0x43] <:+: pre)

/-- Both markers have been seen in `l`: a byte 0x53 and an adjacent pair
0x54 0x43. -/
def Complete (l : List Nat) : Prop := 0x53 ∈ l ∧ [0x54, 0x43] <:+: l

instance (l : List Nat) : Decidable (Complete l) := by
  unfold Complete
  infer_instance

/-- A byte with bit `k` flipped. -/
def flipBit (byte k : Nat) : Nat := byte ^^^ (2 ^ k)

/-- The frame `f` with bit `k` of the byte at offset `i` flipped. -/
def corrupt (f : List Nat) (i k : Nat) : List Nat := f.set i (flipBit (f.getD i 0) k)

/-- The statics `(vital_count, read_step)` after `m` scheduler ticks, starting
from `(0, 0)`: `selectStep` iterated. -/
def schedAfter : Nat → Nat × Nat
  | 0 => (0, 0)
  | m + 1 => ((selectStep (schedAfter m).1 (schedAfter m).2).2.1,
              (selectStep (schedAfter m).1 (schedAfter m).2).2.2)

/-- The `current_step` chosen by scheduler tick number `m + 1` (counting from
the statics `(0, 0)`). -/
def stepAt (m : Nat) : Nat := (selectStep (schedAfter m).1 (schedAfter m).2).1

/-- The slot the round-robin branch queries for index `i`: 2 is moved to 3 and
3 to 4. -/
def g (i : Nat) : Nat := if i = 2 then 3 else if i = 3 then 4 else i

/-- The `(control, command)` pairs of the transactions in a trace, in order. -/
def queried (evs : List Event) : List (Nat × Nat) :=
  evs.filterMap (fun e =>
    match e with
    | Event.transaction frame _ => some (frame.getD 2 0, frame.getD 3 0)
    | _ => none)

/-- The `(control, command)` pair case `current_step` of the switch of `update`
sends (lines 457, 485, 502, 550, 602, 620, 638, 656, 674, 692, 812, 829, 846,
863). -/
def stepQuery (current_step : Nat) : Nat × Nat :=
  match current_step with
  | 0 => (REG_BASIC_HUMAN, CMD_GET_PRESENCE)
  | 1 => (REG_BASIC_HUMAN, CMD_GET_MOVEMENT)
  | 2 => (REG_BREATH, CMD_GET_BREATHING)
  | 3 => (REG_HEART, CMD_GET_HEART_RATE)
  | 4 => (REG_SLEEP, CMD_GET_IN_BED)
  | 5 => (REG_SLEEP, CMD_GET_SLEEP_STATE)
  | 6 => (REG_SLEEP, CMD_GET_SLEEP_QUALITY)
  | 7 => (REG_SLEEP, CMD_GET_SLEEP_QUALITY_RATING)
  | 8 => (REG_SLEEP, CMD_GET_ABNORMAL_STRUGGLE)
  | 9 => (REG_SLEEP, CMD_GET_SLEEP_COMPOSITE)
  | 10 => (REG_SLEEP, CMD_GET_WAKE_DURATION)
  | 11 => (REG_SLEEP, CMD_GET_LIGHT_SLEEP)
  | 12 => (REG_SLEEP, CMD_GET_DEEP_SLEEP)
  | _ => (REG_SLEEP, CMD_GET_SLEEP_DISTURBANCE)

/-- A `(control, command)` pair that queries respiration or heart rate. -/
def isVitalQuery (q : Nat × Nat) : Bool :=
  q == (REG_BREATH, CMD_GET_BREATHING) || q == (REG_HEART, CMD_GET_HEART_RATE)

/-- A driver that has completed initialization, with no sink attached, whose
scheduler statics are `vital_count = 0`, `read_step = 2`. -/
def polling2 : C1001Component :=
  { init_state_ := INIT_COMPLETE, sensor_initialized_ := true, vital_count := 0, read_step := 2 }

/-- A tick at time `t` in which the device answers the first query with the
well-formed frame for `(con, cmd)` carrying the single payload byte `v`. -/
def replyEnv (t con cmd v : Nat) : TickEnv :=
  { rx := [encode con cmd [v]], now := t, done := t + 1 }

/-- Every transaction of the trace succeeded. -/
def allOk (evs : List Event) : Bool :=
  evs.all (fun e =>
    match e with
    | Event.transaction _ ok => ok
    | _ => true)

/-- Some transaction of the trace failed. -/
def someFailed (evs : List Event) : Bool :=
  evs.any (fun e =>
    match e with
    | Event.transaction _ ok => !ok
    | _ => false)

/-- The event publishes a value to a sink. -/
def isPublish (e : Event) : Bool :=
  match e with
  | Event.publish_state _ _ => true
  | Event.publish_bool _ _ => true
  | _ => false

/-- A `(control, command)` pair addressed to one of the four metric registers
the switch of `update` queries. -/
def isMetricQuery (q : Nat × Nat) : Bool :=
  q.1 == REG_BASIC_HUMAN || q.1 == REG_BREATH || q.1 == REG_SLEEP || q.1 == REG_HEART

/-- The `(control, command)` pair of the commands an initialization phase
issues (lines 297, 316, 328, 348, 366). -/
def phaseCommand (init_state : Int) : Nat × Nat :=
  if init_state = INIT_CREATED then (REG_CONFIG, CMD_GET_LED)
  else if init_state = INIT_BEGIN_DONE then (REG_WORK_MODE, CMD_GET_WORK_MODE)
  else if init_state = INIT_SLEEP_MODE_DONE then (REG_CONFIG, CMD_SET_LED)
  else (REG_CONFIG, CMD_RESET)

/-- The events of a run of ticks, one environment per tick, in order. -/
def runTrace : List TickEnv → C1001Component → List Event
  | [], _ => []
  | env :: rest, c => (update env c).2 ++ runTrace rest (update env c).1

/-- A driver on which `setup` has run and nothing else: phase CREATED. -/
def created : C1001Component := { init_state_ := INIT_CREATED }

/-- A driver in phase PROBED (`INIT_BEGIN_DONE`). -/
def probed : C1001Component := { init_state_ := INIT_BEGIN_DONE }

/-- A tick in which nothing arrives from the device. -/
def silentEnv : TickEnv := { rx := [], now := 0, done := 0 }

/-- The values published to the sink `sk` in a trace, in order. -/
def publishes (sk : Sink) (evs : List Event) : List ℚ :=
  evs.filterMap (fun e =>
    match e with
    | Event.publish_state s v => if s = sk then some v else none
    | _ => none)

/-- The booleans published to the sink `sk` in a trace, in order. -/
def publishesBool (sk : Sink) (evs : List Event) : List Bool :=
  evs.filterMap (fun e =>
    match e with
    | Event.publish_bool s v => if s = sk then some v else none
    | _ => none)

/-- The warnings logged in a trace, in order. -/
def warnings (evs : List Event) : List Warning :=
  evs.filterMap (fun e =>
    match e with
    | Event.log w => some w
    | _ => none)

/-- The response buffer `response` of `update` after the query
`send_command(con, cmd, 1, &dummy_byte, response)` of a tick. -/
def responseTo (con cmd : Nat) (env : TickEnv) : List Nat := responseOf (query con cmd env)

/-- The respiration value a respiration tick computes: `breathing` of
`response[6]`. -/
def respirationOf (env : TickEnv) : ℚ :=
  breathing ((responseTo REG_BREATH CMD_GET_BREATHING env).getD 6 0)

/-! The branch formulas of the two scaling maps, as the specification writes
them, over the rationals. -/

/-- Respiration, branch `raw < 8`. -/
def breathing_low (r : ℚ) : ℚ := 10 + (r / 10) * 5

/-- Respiration, branch `25 < raw < 100`. -/
def breathing_mid (r : ℚ) : ℚ := 10 + ((r - 25) / 75) * 15

/-- Respiration, branch `raw ≥ 100`. -/
def breathing_high (r : ℚ) : ℚ := 10 + (r / 255) * 15

/-- Heart rate, branch `raw < 30`. -/
def heart_low (r : ℚ) : ℚ := 60 + (r / 30) * 15

/-- Heart rate, branch `100 < raw < 150`. -/
def heart_mid (r : ℚ) : ℚ := 60 + ((r - 30) / 120) * 40

/-- Heart rate, branch `raw ≥ 150`. -/
def heart_high (r : ℚ) : ℚ := 60 + (r / 255) * 40

/-- Heart rate, branch `30 ≤ raw < 60`. -/
def heart_below (r : ℚ) : ℚ := 60 - (60 - r) * (1 / 2)

/-- An initialized driver with the respiration sink attached, about to take a
respiration tick (`vital_count = 0`). -/
def respirationReady : C1001Component :=
  { init_state_ := INIT_COMPLETE, sensor_initialized_ := true, respiration_sensor_ := true }

/-- An initialized driver with the presence and person-detected sinks
attached, about to take the round-robin tick of slot 0. -/
def presenceReady : C1001Component :=
  { init_state_ := INIT_COMPLETE, sensor_initialized_ := true, presence_sensor_ := true,
    person_detected_ := true, vital_count := 2, read_step := 0 }

/-- An initialized driver with no sink attached, about to take the
round-robin tick of slot 9 (sleep composite). -/
def compositeReady : C1001Component :=
  { init_state_ := INIT_COMPLETE, sensor_initialized_ := true, vital_count := 2, read_step := 9 }

/-- A driver in phase INDICATOR_SET (`INIT_LED_DONE`). -/
def indicatorSet : C1001Component := { init_state_ := INIT_LED_DONE }

/-- A tick at time `t` in which the device answers the first query with the
well-formed frame for `(con, cmd)` carrying `payload`. -/
def replyEnvN (t con cmd : Nat) (payload : List Nat) : TickEnv :=
  { rx := [encode con cmd payload], now := t, done := t + 1 }

/-- The driver right after construction (`C1001Component() = default`): every
field has the default of the header. -/
def constructed : C1001Component := {}

/-- The acceptance condition of the receive scan at index `i` of the stream
`s`, in index form: some byte at or before `i` is 0x53, and some `k` with
`1 ≤ k ≤ i` has `s[k-1] = 0x54` and `s[k] = 0x43`. -/
def AcceptAt (s : List Nat) (i : Nat) : Prop :=
  (∃ j, j ≤ i ∧ s.getD j 0 = 0x53)
  ∧ (∃ k, 1 ≤ k ∧ k ≤ i ∧ s.getD (k - 1) 0 = 0x54 ∧ s.getD k 0 = 0x43)

/-- The receive state after the bytes of `rx` have all been read by the loop
body, without the return test: `recvStep` folded over the stream. -/
def recvAfter (rx : List Nat) : RecvState := rx.foldl recvStep recvInit

/-- A 64-byte stream: 0x53, 60 zero bytes, then 0x54, 0x00, 0x43. The 0x43 at
index 63 follows a 0x00. -/
def staleEndStream : List Nat := [0x53] ++ List.replicate 60 0 ++ [0x54, 0x00, 0x43]

/-- A 64-byte stream: 0x53, 61 zero bytes, then 0x54, 0x43. The 0x43 at index
63 follows a 0x54. -/
def lateEndStream : List Nat := [0x53] ++ List.replicate 61 0 ++ [0x54, 0x43]

/-- The calls that can be made on the driver after `setup`. -/
inductive Action
  | update (env : TickEnv)
  | on_uart_error
  | reset_initialization

/-- The driver after one call. -/
def applyAction (c : C1001Component) (a : Action) : C1001Component :=
  match a with
  | Action.update env => (update env c).1
  | Action.on_uart_error => (on_uart_error c).1
  | Action.reset_initialization => (reset_initialization c).1

/-- The driver reached from construction by `setup` at time `now` followed by
the calls `actions`, in order. -/
def reached (now : Nat) (actions : List Action) : C1001Component :=
  actions.foldl applyAction (setup now constructed)

/-- An initialized driver with no sink attached, about to take the
round-robin tick with `read_step = 2` (`vital_count = 2`). -/
def roundRobin2 : C1001Component :=
  { init_state_ := INIT_COMPLETE, sensor_initialized_ := true, vital_count := 2, read_step := 2 }

/-- A 22-byte stream: the first 12 bytes of a sleep-composite reply whose tail
was lost, followed by a complete 10-byte reply. -/
def overlongStream : List Nat :=
  (encode 0x84 0x8D [1, 2, 16, 70, 5, 6, 7, 8]).take 12 ++ encode 0x81 0x82 [0x10]

/-- A 40-byte stream: 0x53, 37 zero bytes, then 0x54, 0x43. The receive loop
accepts it at its last byte with `recv_pos = 40`. -/
def longAcceptStream : List Nat := [0x53] ++ List.replicate 37 0 ++ [0x54, 0x43]

/-- A stream of 37 zero bytes: the receive loop times out with `recv_pos = 37`. -/
def longTimeoutStream : List Nat := List.replicate 37 0

/-! ## Lemmas on the checksum and the frame build -/

theorem checksum_fold_eq (buf : List Nat) (len : Nat) :
    (List.range len).foldl (fun sum i => (sum + buf.getD i 0) % 65536) 0
      = (buf.take len).sum % 65536 := by
  induction len with
  | zero => simp
  | succ k ih =>
    rw [List.range_succ, List.foldl_append, ih]
    simp only [List.foldl_cons, List.foldl_nil]
    rw [List.take_succ, List.sum_append]
    cases hk : buf[k]? with
    | none => simp [List.getD, hk]
    | some v => simp [List.getD, hk]

theorem calculate_checksum_eq (buf : List Nat) (len : Nat) :
    calculate_checksum len buf = (buf.take len).sum % 256 := by
  unfold calculate_checksum
  rw [checksum_fold_eq]
  omega

theorem writeLoop_eq (f : Nat → Nat) (pre t : List Nat) (k : Nat) (hk : k ≤ t.length) :
    (List.range k).foldl (fun b i => b.set (pre.length + i) (f i)) (pre ++ t)
      = pre ++ (List.range k).map f ++ t.drop k := by
  induction k with
  | zero => simp
  | succ k ih =>
    have hk1 : k < t.length := hk
    rw [List.range_succ, List.foldl_append, ih (Nat.le_of_lt hk1)]
    simp only [List.foldl_cons, List.foldl_nil, List.map_append, List.map_cons, List.map_nil]
    have hidx : pre.length + k - (pre ++ List.map f (List.range k)).length = 0 := by simp
    rw [List.set_append_right _ _ (by simp), hidx, List.drop_eq_getElem_cons hk1,
      List.set_cons_zero]
    simp only [List.append_assoc, List.singleton_append]

theorem map_getD_range (l : List Nat) (m : Nat) (hm : m ≤ l.length) :
    (List.range m).map (fun i => l.getD i 0) = l.take m := by
  apply List.ext_getElem?
  intro i
  by_cases hi : i < m
  · have hil : i < l.length := Nat.lt_of_lt_of_le hi hm
    simp [List.getElem?_range hi, List.getElem?_take, hi, hil]
  · have h1 : ((List.range m).map (fun i => l.getD i 0)).length ≤ i := by simp; omega
    have h2 : (l.take m).length ≤ i := by simp; omega
    rw [List.getElem?_eq_none h1, List.getElem?_eq_none h2]

theorem length_bytes (n : Nat) (h : n ≤ 11) :
    (n >>> 8) &&& 0xFF = 0 ∧ n &&& 0xFF = n := by
  interval_cases n <;> exact ⟨rfl, rfl⟩

theorem payload_written (hdr : List Nat) (hlen : hdr.length = 6) (data : List Nat)
    (h : data.length ≤ 11) :
    memcpyAt (hdr ++ List.replicate 14 0) 6 data data.length
      = hdr ++ data ++ List.replicate (14 - data.length) 0 := by
  unfold memcpyAt
  have hw := writeLoop_eq (fun i => data.getD i 0) hdr (List.replicate 14 0) data.length
    (by simp; omega)
  rw [hlen] at hw
  rw [hw, map_getD_range data data.length (Nat.le_refl _), List.drop_replicate, List.take_length]

theorem filler_written (hdr : List Nat) (hlen : hdr.length = 6) (n : Nat) (h : n ≤ 11) :
    fillAt (hdr ++ List.replicate 14 0) 6 n
      = hdr ++ List.replicate n 0x0F ++ List.replicate (14 - n) 0 := by
  unfold fillAt
  have hw := writeLoop_eq (fun _ => 0x0F) hdr (List.replicate 14 0) n (by simp; omega)
  rw [hlen] at hw
  rw [hw, List.drop_replicate, List.map_const', List.length_range]

theorem trailer_written (body : List Nat) (n ck : Nat) (hb : body.length = 6 + n) (h : n ≤ 11) :
    (((body ++ List.replicate (14 - n) 0).set (6 + n) ck).set (7 + n) 0x54).set (8 + n) 0x43
      = body ++ [ck, 0x54, 0x43] ++ List.replicate (11 - n) 0 := by
  have ht : List.replicate (14 - n) 0 = 0 :: 0 :: 0 :: List.replicate (11 - n) 0 := by
    have : 14 - n = (11 - n) + 1 + 1 + 1 := by omega
    rw [this]
    rfl
  rw [ht]
  rw [List.set_append_right _ _ (by omega)]
  rw [List.set_append_right _ _ (by omega)]
  rw [List.set_append_right _ _ (by omega)]
  have h0 : 6 + n - body.length = 0 := by omega
  have h1 : 7 + n - body.length = 1 := by omega
  have h2 : 8 + n - body.length = 2 := by omega
  rw [h0, h1, h2]
  simp

theorem header_written (con cmd hi lo : Nat) :
    ((((((List.replicate 20 0).set 0 0x53).set 1 0x59).set 2 con).set 3 cmd).set 4 hi).set 5 lo
      = [0x53, 0x59, con, cmd, hi, lo] ++ List.replicate 14 0 := rfl

theorem checksum_of_body (con cmd : Nat) (payload : List Nat) (n : Nat) (hn : n = payload.length)
    (h : n ≤ 11) (tail : List Nat) :
    calculate_checksum ((6 + n) % 256) ([0x53, 0x59, con, cmd, 0, n] ++ payload ++ tail)
      = (0x53 + 0x59 + con + cmd + 0 + payload.length + payload.sum) % 256 := by
  subst hn
  rw [Nat.mod_eq_of_lt (show 6 + payload.length < 256 by omega), calculate_checksum_eq]
  have ht : List.take (6 + payload.length)
      ([0x53, 0x59, con, cmd, 0, payload.length] ++ payload ++ tail)
        = [0x53, 0x59, con, cmd, 0, payload.length] ++ payload := by
    rw [List.take_append_of_le_length (by simp; omega)]
    rw [List.take_of_length_le (by simp; omega)]
  rw [ht]
  simp
  omega

theorem cmd_buffer_some (con cmd : Nat) (data : List Nat) (h : data.length ≤ 11) :
    cmd_buffer con cmd data.length (some data)
      = frameOf con cmd data ++ List.replicate (11 - data.length) 0 := by
  obtain ⟨hhi, hlo⟩ := length_bytes data.length h
  unfold cmd_buffer
  simp only [hhi, hlo, header_written]
  have hb4 : (if data.length > 0 then
        memcpyAt ([0x53, 0x59, con, cmd, 0, data.length] ++ List.replicate 14 0) 6 data data.length
      else [0x53, 0x59, con, cmd, 0, data.length] ++ List.replicate 14 0)
      = [0x53, 0x59, con, cmd, 0, data.length] ++ data ++ List.replicate (14 - data.length) 0 := by
    split
    · exact payload_written [0x53, 0x59, con, cmd, 0, data.length] rfl data h
    · have : data = [] := by
        cases data with
        | nil => rfl
        | cons a t => simp at *
      subst this
      rfl
  rw [hb4, checksum_of_body con cmd data data.length rfl h,
    trailer_written _ data.length _ (by simp; omega) h]
  rfl

theorem cmd_buffer_none (con cmd n : Nat) (h : n ≤ 11) :
    cmd_buffer con cmd n none
      = frameOf con cmd (List.replicate n 0x0F) ++ List.replicate (11 - n) 0 := by
  obtain ⟨hhi, hlo⟩ := length_bytes n h
  unfold cmd_buffer
  simp only [hhi, hlo, header_written]
  have hb4 : (if n > 0 then
        fillAt ([0x53, 0x59, con, cmd, 0, n] ++ List.replicate 14 0) 6 n
      else [0x53, 0x59, con, cmd, 0, n] ++ List.replicate 14 0)
      = [0x53, 0x59, con, cmd, 0, n] ++ List.replicate n 0x0F ++ List.replicate (14 - n) 0 := by
    split
    · exact filler_written [0x53, 0x59, con, cmd, 0, n] rfl n h
    · have : n = 0 := by omega
      subst this
      rfl
  rw [hb4, checksum_of_body con cmd (List.replicate n 0x0F) n (by simp) h,
    trailer_written _ n _ (by simp; omega) h]
  simp [frameOf]

theorem frameOf_length (con cmd : Nat) (payload : List Nat) :
    (frameOf con cmd payload).length = 9 + payload.length := by
  simp [frameOf]
  omega

theorem sentFrame_some (con cmd : Nat) (data : List Nat) (h : data.length ≤ 11) :
    sentFrame con cmd data.length (some data) = frameOf con cmd data := by
  unfold sentFrame cmd_len
  rw [cmd_buffer_some con cmd data h, map_getD_range _ _ (by simp [frameOf_length]; omega)]
  rw [Nat.mod_eq_of_lt (by omega)]
  rw [List.take_append_of_le_length (by rw [frameOf_length]; omega)]
  rw [List.take_of_length_le (by rw [frameOf_length]; omega)]

theorem sentFrame_none (con cmd n : Nat) (h : n ≤ 11) :
    sentFrame con cmd n none = frameOf con cmd (List.replicate n 0x0F) := by
  unfold sentFrame cmd_len
  rw [cmd_buffer_none con cmd n h, map_getD_range _ _ (by simp [frameOf_length]; omega)]
  rw [Nat.mod_eq_of_lt (by omega)]
  rw [List.take_append_of_le_length (by rw [frameOf_length]; simp; omega)]
  rw [List.take_of_length_le (by rw [frameOf_length]; simp; omega)]

theorem encode_eq (con cmd : Nat) (payload : List Nat) (hn : payload.length ≤ 11) :
    encode con cmd payload = frameOf con cmd payload :=
  sentFrame_some con cmd payload hn

theorem encode_control (con cmd d : Nat) : (encode con cmd [d]).getD 2 0 = con := by
  rw [encode_eq con cmd [d] (by simp)]
  rfl

theorem encode_command (con cmd d : Nat) : (encode con cmd [d]).getD 3 0 = cmd := by
  rw [encode_eq con cmd [d] (by simp)]
  rfl

theorem encode_control_get (con cmd d : Nat) : (encode con cmd [d])[2]?.getD 0 = con := by
  rw [← List.getD_eq_getElem?_getD]
  exact encode_control con cmd d

theorem encode_command_get (con cmd d : Nat) : (encode con cmd [d])[3]?.getD 0 = cmd := by
  rw [← List.getD_eq_getElem?_getD]
  exact encode_command con cmd d

/-! ## Lemmas on the receive loop -/

theorem tracks_init : Tracks recvInit [] := by
  refine ⟨rfl, rfl, ?_, ?_⟩
  · simp [recvInit]
  · simp [recvInit]

theorem pair_suffix_concat (pre : List Nat) (b : Nat) :
    [0x54, 0x43] <:+ pre ++ [b] ↔ b = 0x43 ∧ pre.getLast? = some 0x54 := by
  rw [List.suffix_concat_iff, List.getLast?_eq_some_iff]
  constructor
  · rintro (h | ⟨t, ht, ⟨u, hu⟩⟩)
    · simp at h
    · have h2 : [0x54, 0x43] = [0x54] ++ [0x43] := rfl
      rw [h2] at ht
      have := List.append_inj' ht rfl
      obtain ⟨h3, h4⟩ := this
      subst h3
      simp at h4
      exact ⟨h4.symm, u, hu.symm⟩
  · rintro ⟨rfl, u, rfl⟩
    right
    exact ⟨[0x54], rfl, u, rfl⟩

theorem buffer_last (pre : List Nat) (b : Nat) (k : Nat) (hne : pre.length > 0) :
    (pre ++ [b] ++ List.replicate k 0).getD (pre.length + 1 - 2) 0 = pre.getLast?.getD 0 := by
  rw [List.getD_eq_getElem?_getD, List.getLast?_eq_getElem?]
  have h1 : pre.length + 1 - 2 = pre.length - 1 := by omega
  rw [h1, List.append_assoc, List.getElem?_append_left (by omega)]

theorem recvStep_pos (st : RecvState) (b : Nat) :
    (recvStep st b).recv_pos
      = if st.recv_pos < 63 then (st.recv_pos + 1) % 256 else st.recv_pos := by
  unfold recvStep
  simp only [show (64 - 1) = 63 from rfl]
  split_ifs <;> rfl

theorem recvStep_buffer (st : RecvState) (b : Nat) :
    (recvStep st b).recv_buffer
      = if st.recv_pos < 63 then st.recv_buffer.set st.recv_pos b else st.recv_buffer := by
  unfold recvStep
  simp only [show (64 - 1) = 63 from rfl]
  split_ifs <;> rfl

theorem recvStep_found_start (st : RecvState) (b : Nat) :
    (recvStep st b).found_start = (decide (b = 0x53) || st.found_start) := by
  unfold recvStep
  simp only [show (64 - 1) = 63 from rfl]
  split_ifs <;> simp_all

theorem recvStep_found_end (st : RecvState) (b : Nat) :
    (recvStep st b).found_end
      = (decide (b = 0x43
          ∧ (if st.recv_pos < 63 then (st.recv_pos + 1) % 256 else st.recv_pos) > 1
          ∧ (if st.recv_pos < 63 then st.recv_buffer.set st.recv_pos b
              else st.recv_buffer).getD
              ((if st.recv_pos < 63 then (st.recv_pos + 1) % 256 else st.recv_pos) - 2) 0 = 0x54)
         || st.found_end) := by
  have key : ∀ (s : RecvState) (C : Prop) [Decidable C],
      (if C then { s with found_end := true } else s).found_end = (decide C || s.found_end) := by
    intro s C _
    split <;> simp [*]
  unfold recvStep
  rw [key]
  by_cases h63 : st.recv_pos < 63 <;> by_cases hb : b = 0x53 <;>
    simp only [h63, hb, if_true, if_false, show (64 - 1) = 63 from rfl]

theorem tracks_step (st : RecvState) (pre : List Nat) (b : Nat) (h : Tracks st pre)
    (hlen : pre.length < 63) : Tracks (recvStep st b) (pre ++ [b]) := by
  obtain ⟨hpos, hbuf, hs, he⟩ := h
  have hstore : (pre ++ List.replicate (64 - pre.length) 0).set pre.length b
      = pre ++ [b] ++ List.replicate (64 - (pre.length + 1)) 0 := by
    have : 64 - pre.length = (64 - (pre.length + 1)) + 1 := by omega
    rw [this, List.replicate_succ, List.set_append_right _ _ (Nat.le_refl _), Nat.sub_self,
      List.set_cons_zero]
    simp
  have hmod : (pre.length + 1) % 256 = pre.length + 1 := Nat.mod_eq_of_lt (by omega)
  have hP : (recvStep st b).recv_pos = pre.length + 1 := by
    rw [recvStep_pos, hpos, if_pos hlen, hmod]
  have hB : (recvStep st b).recv_buffer
      = pre ++ [b] ++ List.replicate (64 - (pre.length + 1)) 0 := by
    rw [recvStep_buffer, hpos, if_pos hlen, hbuf, hstore]
  refine ⟨?_, ?_, ?_, ?_⟩
  · rw [hP]; simp
  · rw [hB]; simp
  · rw [recvStep_found_start]
    simp only [Bool.or_eq_true, decide_eq_true_eq, hs, List.mem_append, List.mem_singleton]
    constructor
    · rintro (h | h)
      · exact Or.inr h.symm
      · exact Or.inl h
    · rintro (h | h)
      · exact Or.inr h
      · exact Or.inl h.symm
  · rw [recvStep_found_end, hpos, if_pos hlen, if_pos hlen, hbuf, hstore, hmod,
      List.infix_concat_iff, pair_suffix_concat]
    simp only [Bool.or_eq_true, decide_eq_true_eq, he]
    by_cases hp : pre.length > 0
    · rw [buffer_last pre b _ hp]
      have hne : pre ≠ [] := by
        intro h0
        rw [h0] at hp
        simp at hp
      obtain ⟨v, hv⟩ : ∃ v, pre.getLast? = some v := by
        rw [List.getLast?_eq_getLast pre hne]
        exact ⟨_, rfl⟩
      rw [hv]
      simp only [Option.getD_some, Option.some.injEq]
      constructor
      · rintro (⟨h1, _, h3⟩ | h)
        · exact Or.inl ⟨h1, h3⟩
        · exact Or.inr h
      · rintro (⟨h1, h3⟩ | h)
        · exact Or.inl ⟨h1, by omega, h3⟩
        · exact Or.inr h
    · have h0 : pre = [] := by
        cases pre with
        | nil => rfl
        | cons a t => simp at hp
      subst h0
      simp

theorem tracks_flags (st : RecvState) (pre : List Nat) (h : Tracks st pre) :
    (st.found_start && st.found_end) = true ↔ Complete pre := by
  obtain ⟨_, _, hs, he⟩ := h
  simp only [Bool.and_eq_true, hs, he, Complete]

theorem recvLoop_sound (rest : List Nat) :
    ∀ (st : RecvState) (pre : List Nat) (st1 : RecvState), Tracks st pre →
      pre.length + rest.length ≤ 63 → recvLoop st rest = some st1 →
      ∃ k, k < rest.length ∧ Tracks st1 (pre ++ rest.take (k + 1))
        ∧ Complete (pre ++ rest.take (k + 1))
        ∧ ∀ j, j < k → ¬ Complete (pre ++ rest.take (j + 1)) := by
  induction rest with
  | nil =>
    intro st pre st1 _ _ h
    simp [recvLoop] at h
  | cons b r ih =>
    intro st pre st1 ht hlen h
    simp only [List.length_cons] at hlen
    have ht1 := tracks_step st pre b ht (by omega)
    have hfl := tracks_flags _ _ ht1
    simp only [recvLoop] at h
    by_cases hc : Complete (pre ++ [b])
    · rw [if_pos (hfl.mpr hc)] at h
      injection h with h
      subst h
      exact ⟨0, by simp, by simpa using ht1, by simpa using hc, by intro j hj; omega⟩
    · have hnf : ¬ ((recvStep st b).found_start && (recvStep st b).found_end) = true :=
        fun hx => hc (hfl.mp hx)
      rw [if_neg hnf] at h
      obtain ⟨k, hk, hT, hC, hmin⟩ := ih (recvStep st b) (pre ++ [b]) st1 ht1
        (by simp; omega) h
      refine ⟨k + 1, by simp; omega, by simpa using hT, by simpa using hC, ?_⟩
      intro j hj
      cases j with
      | zero => simpa using hc
      | succ i =>
        have := hmin i (by omega)
        simpa using this

theorem recvLoop_complete (rest : List Nat) :
    ∀ (st : RecvState) (pre : List Nat), Tracks st pre →
      pre.length + rest.length ≤ 63 →
      (∃ k, k < rest.length ∧ Complete (pre ++ rest.take (k + 1))) →
      ∃ st1, recvLoop st rest = some st1 := by
  induction rest with
  | nil =>
    intro st pre _ _ h
    obtain ⟨k, hk, _⟩ := h
    simp at hk
  | cons b r ih =>
    intro st pre ht hlen h
    simp only [List.length_cons] at hlen
    have ht1 := tracks_step st pre b ht (by omega)
    have hfl := tracks_flags _ _ ht1
    simp only [recvLoop]
    by_cases hc : Complete (pre ++ [b])
    · rw [if_pos (hfl.mpr hc)]
      exact ⟨_, rfl⟩
    · have hnf : ¬ ((recvStep st b).found_start && (recvStep st b).found_end) = true :=
        fun hx => hc (hfl.mp hx)
      rw [if_neg hnf]
      apply ih (recvStep st b) (pre ++ [b]) ht1 (by simp; omega)
      obtain ⟨k, hk, hC⟩ := h
      cases k with
      | zero => exact absurd (by simpa using hC) hc
      | succ i =>
        refine ⟨i, by simp at hk; omega, ?_⟩
        simpa using hC

theorem captured_of_tracks (st : RecvState) (pre : List Nat) (h : Tracks st pre) :
    captured st = pre := by
  obtain ⟨hpos, hbuf, _, _⟩ := h
  unfold captured
  rw [hpos, hbuf, List.take_append_of_le_length (Nat.le_refl _), List.take_length]

theorem complete_mono (l1 l2 : List Nat) (hp : l1 <+: l2) (h : Complete l1) : Complete l2 :=
  ⟨hp.subset h.1, List.IsInfix.trans h.2 hp.isInfix⟩

/-- On a stream of at most 63 bytes the receive loop returns true exactly at
the first byte that makes the bytes read so far `Complete`, and the state then
tracks that prefix. -/
theorem recvLoop_spec (rx : List Nat) (st1 : RecvState) (hlen : rx.length ≤ 63)
    (h : recvLoop recvInit rx = some st1) :
    ∃ k, k < rx.length ∧ Tracks st1 (rx.take (k + 1)) ∧ Complete (rx.take (k + 1))
      ∧ ∀ j, j < k → ¬ Complete (rx.take (j + 1)) := by
  have := recvLoop_sound rx recvInit [] st1 tracks_init (by simpa using hlen) h
  simpa using this

theorem receive_spec (rx cap : List Nat) (hlen : rx.length ≤ 63) (h : receive rx = some cap) :
    ∃ k, k < rx.length ∧ cap = rx.take (k + 1) ∧ Complete cap
      ∧ ∀ j, j < k → ¬ Complete (rx.take (j + 1)) := by
  unfold receive at h
  cases hr : recvLoop recvInit rx with
  | none => simp [hr] at h
  | some st1 =>
    rw [hr] at h
    simp only [Option.map_some', Option.some.injEq] at h
    obtain ⟨k, hk, hT, hC, hmin⟩ := recvLoop_spec rx st1 hlen hr
    have hcap := captured_of_tracks _ _ hT
    rw [h] at hcap
    exact ⟨k, hk, hcap, hcap ▸ hC, hmin⟩

theorem receive_isSome_of_complete (rx : List Nat) (hlen : rx.length ≤ 63) (hc : Complete rx) :
    ∃ cap, receive rx = some cap := by
  have hne : rx ≠ [] := by
    intro h0
    rw [h0] at hc
    simp [Complete] at hc
  have hpos : 0 < rx.length := List.length_pos.mpr hne
  obtain ⟨st1, hst⟩ := recvLoop_complete rx recvInit [] tracks_init (by simpa using hlen)
    ⟨rx.length - 1, by omega, by
      have : rx.length - 1 + 1 = rx.length := by omega
      rw [this, List.take_length]
      simpa using hc⟩
  exact ⟨captured st1, by simp [receive, hst]⟩

theorem receive_whole (rx : List Nat) (hlen : rx.length ≤ 63) (hc : Complete rx)
    (hmin : ¬ Complete rx.dropLast) : receive rx = some rx := by
  obtain ⟨cap, hcap⟩ := receive_isSome_of_complete rx hlen hc
  obtain ⟨k, hk, hk2, hC, _⟩ := receive_spec rx cap hlen hcap
  by_cases hlast : k + 1 = rx.length
  · rw [hcap, hk2, hlast, List.take_length]
  · exfalso
    apply hmin
    apply complete_mono cap _ _ hC
    rw [hk2, List.dropLast_eq_take]
    exact List.take_prefix_take_left rx (show k + 1 ≤ rx.length - 1 by omega)

theorem send_command_ok (con cmd n : Nat) (d rb : Option (List Nat)) (rx : List Nat) :
    (send_command con cmd n d rb rx).ok = (receive rx).isSome := by
  unfold send_command receive
  cases recvLoop recvInit rx <;> rfl

theorem send_command_written (con cmd n : Nat) (d rb : Option (List Nat)) (rx : List Nat) :
    (send_command con cmd n d rb rx).written = sentFrame con cmd n d := by
  unfold send_command
  cases recvLoop recvInit rx <;> rfl

theorem complete_shape (m : List Nat) : Complete (0x53 :: 0x59 :: (m ++ [0x54, 0x43])) := by
  refine ⟨by simp, ⟨0x53 :: 0x59 :: m, [], by simp⟩⟩

theorem frameOf_shape (con cmd : Nat) (payload : List Nat) :
    frameOf con cmd payload
      = 0x53 :: 0x59 :: (([con, cmd, 0, payload.length] ++ payload
          ++ [(0x53 + 0x59 + con + cmd + 0 + payload.length + payload.sum) % 256])
          ++ [0x54, 0x43]) := by
  simp [frameOf]

theorem frameOf_complete (con cmd : Nat) (payload : List Nat) :
    Complete (frameOf con cmd payload) := by
  rw [frameOf_shape]
  exact complete_shape _

theorem receive_whole_iff (rx : List Nat) (hlen : rx.length ≤ 63) (hc : Complete rx) :
    receive rx = some rx ↔ ¬ Complete rx.dropLast := by
  constructor
  · intro h hd
    obtain ⟨k, hk, hk2, _, hmin⟩ := receive_spec rx rx hlen h
    have hkl : k + 1 = rx.length := by
      have := congrArg List.length hk2
      simp at this
      omega
    have hk0 : 0 < k := by
      rcases Nat.eq_zero_or_pos k with h0 | h0
      · exfalso
        have h1 : rx.length = 1 := by omega
        have h2 : rx.dropLast = [] := by
          apply List.eq_nil_of_length_eq_zero
          simp [h1]
        rw [h2] at hd
        simp [Complete] at hd
      · exact h0
    apply hmin (k - 1) (by omega)
    have : k - 1 + 1 = rx.length - 1 := by omega
    rw [this, ← List.dropLast_eq_take]
    exact hd
  · exact receive_whole rx hlen hc

theorem corrupt_complete (con cmd : Nat) (payload : List Nat) (i k : Nat) (hi : 2 ≤ i)
    (hi2 : i < 7 + payload.length) : Complete (corrupt (frameOf con cmd payload) i k) := by
  obtain ⟨i1, rfl⟩ : ∃ i1, i = i1 + 2 := ⟨i - 2, by omega⟩
  unfold corrupt
  generalize flipBit ((frameOf con cmd payload).getD (i1 + 2) 0) k = v
  rw [frameOf_shape]
  simp only [List.set_cons_succ]
  rw [List.set_append_left _ _ (by simp; omega)]
  exact complete_shape _

theorem not_complete_iff_no_pair (con cmd : Nat) (payload : List Nat) :
    ¬ Complete (frameOf con cmd payload).dropLast
      ↔ ¬ [0x54, 0x43] <:+: (frameOf con cmd payload).dropLast := by
  have hmem : 0x53 ∈ (frameOf con cmd payload).dropLast := by
    rw [frameOf_shape]
    simp [List.dropLast]
  simp only [Complete, hmem, true_and]

/-! ## Lemmas on traces -/

theorem queried_transaction (f : List Nat) (ok : Bool) (evs : List Event) :
    queried (Event.transaction f ok :: evs) = (f.getD 2 0, f.getD 3 0) :: queried evs := rfl

theorem queried_log (w : Warning) (evs : List Event) :
    queried (Event.log w :: evs) = queried evs := rfl

theorem queried_nil : queried [] = [] := rfl

theorem queried_append (a b : List Event) : queried (a ++ b) = queried a ++ queried b := by
  simp [queried, List.filterMap_append]

theorem allOk_append (a b : List Event) : allOk (a ++ b) = (allOk a && allOk b) := by
  simp [allOk, List.all_append]

theorem phaseCommand_not_metric (p : Int) : isMetricQuery (phaseCommand p) = false := by
  unfold phaseCommand
  split_ifs <;> decide

theorem query_written (con cmd : Nat) (env : TickEnv) :
    (query con cmd env).written = encode con cmd [dummy_byte] := by
  unfold query
  rw [send_command_written]
  rfl

theorem queried_tx (r : SendResult) (evs : List Event) :
    queried (txEvent r :: evs) = (r.written.getD 2 0, r.written.getD 3 0) :: queried evs := rfl

theorem queried_ite (b : Bool) (e : Event) (he : queried [e] = []) :
    queried (if b = true then [e] else []) = [] := by
  cases b
  · rfl
  · simpa using he

theorem queried_not_transaction (evs : List Event)
    (h : ∀ e ∈ evs, ∀ f ok, e ≠ Event.transaction f ok) : queried evs = [] := by
  induction evs with
  | nil => rfl
  | cons e t ih =>
    have ht := ih (fun e1 he1 => h e1 (List.mem_cons_of_mem _ he1))
    cases e with
    | transaction f ok => exact absurd rfl (h _ (List.mem_cons_self _ _) f ok)
    | publish_state sk v => simpa [queried] using ht
    | publish_bool sk v => simpa [queried] using ht
    | log w => simpa [queried] using ht

/-! ## Lemmas on the polling part of `update` -/

theorem schedAfter_eq (m : Nat) : schedAfter m = (m % 3, (m / 3) % 14) := by
  induction m with
  | zero => rfl
  | succ k ih =>
    simp only [schedAfter, ih, selectStep]
    by_cases h : k % 3 < 2
    · simp only [h, if_true]
      refine Prod.ext ?_ ?_ <;> simp <;> omega
    · simp only [h, if_false]
      refine Prod.ext ?_ ?_ <;> simp <;> omega

theorem stepAt_eq (m : Nat) :
    stepAt m = if m % 3 = 0 then 2 else if m % 3 = 1 then 3 else g ((m / 3) % 14) := by
  unfold stepAt
  rw [schedAfter_eq]
  simp only [selectStep, g]
  have h3 : m % 3 = 0 ∨ m % 3 = 1 ∨ m % 3 = 2 := by omega
  rcases h3 with h | h | h
  · simp [h]
  · simp [h]
  · simp only [h]
    have h14 : (m / 3) % 14 < 14 := Nat.mod_lt _ (by decide)
    generalize (m / 3) % 14 = r at h14
    interval_cases r <;> simp

theorem pollStep_statics (k : Nat) (env : TickEnv) (c : C1001Component) :
    (pollStep k env c).2.1.vital_count = c.vital_count
    ∧ (pollStep k env c).2.1.read_step = c.read_step := by
  unfold pollStep
  split <;>
    simp only [apply_ite Prod.snd, apply_ite Prod.fst, apply_ite C1001Component.vital_count,
      apply_ite C1001Component.read_step, ite_self, and_self]

theorem queried_publish_state (sk : Sink) (v : ℚ) (evs : List Event) :
    queried (Event.publish_state sk v :: evs) = queried evs := rfl

theorem queried_publish_bool (sk : Sink) (v : Bool) (evs : List Event) :
    queried (Event.publish_bool sk v :: evs) = queried evs := rfl

theorem queried_query (con cmd : Nat) (env : TickEnv) (evs : List Event) :
    queried (txEvent (query con cmd env) :: evs) = (con, cmd) :: queried evs := by
  rw [queried_tx, query_written, encode_control, encode_command]

theorem pollStep_queried (k : Nat) (hk : k < 14) (env : TickEnv) (c : C1001Component) :
    queried (pollStep k env c).2.2 = [stepQuery k] := by
  interval_cases k
  all_goals
    unfold pollStep stepQuery
    simp only [apply_ite Prod.snd, apply_ite queried, queried_append, queried_query, queried_nil,
      queried_publish_state, queried_publish_bool, queried_log, ite_self, List.append_nil]

theorem selectStep_lt (vc rs : Nat) (hr : rs < 14) : (selectStep vc rs).1 < 14 := by
  unfold selectStep
  split
  · dsimp only
    split <;> omega
  · dsimp only
    split <;> omega

theorem update_polling (env : TickEnv) (c : C1001Component)
    (hi : c.init_state_ = INIT_COMPLETE) (hs : c.sensor_initialized_ = true)
    (ht : sub32 env.now c.last_successful_read_ ≤ SENSOR_TIMEOUT_MS) :
    update env c = updatePoll env c := by
  unfold update
  rw [if_neg (not_not.mpr hi), hs, if_neg (by simp), if_neg (by omega)]

/-- A scheduler tick (driver initialized, not stale) queries the metric of the
step `selectStep` chooses, once, and leaves the statics `selectStep` computes,
whether or not the transaction succeeds. -/
theorem update_scheduler_tick (env : TickEnv) (c : C1001Component)
    (hi : c.init_state_ = INIT_COMPLETE) (hs : c.sensor_initialized_ = true)
    (ht : sub32 env.now c.last_successful_read_ ≤ SENSOR_TIMEOUT_MS) (hr : c.read_step < 14) :
    queried (update env c).2 = [stepQuery (selectStep c.vital_count c.read_step).1]
    ∧ (update env c).1.vital_count = (selectStep c.vital_count c.read_step).2.1
    ∧ (update env c).1.read_step = (selectStep c.vital_count c.read_step).2.2 := by
  rw [update_polling env c hi hs ht]
  have hq := pollStep_queried (selectStep c.vital_count c.read_step).1
    (selectStep_lt _ _ hr) env
    { c with vital_count := (selectStep c.vital_count c.read_step).2.1,
             read_step := (selectStep c.vital_count c.read_step).2.2 }
  have hst := pollStep_statics (selectStep c.vital_count c.read_step).1 env
    { c with vital_count := (selectStep c.vital_count c.read_step).2.1,
             read_step := (selectStep c.vital_count c.read_step).2.2 }
  unfold updatePoll
  dsimp only
  split
  · exact ⟨hq, hst.1, hst.2⟩
  · split
    · refine ⟨?_, hst.1, hst.2⟩
      simp only [reset_initialization, queried_append, hq, queried_log, queried_nil,
        List.append_nil]
    · refine ⟨?_, hst.1, hst.2⟩
      simp only [queried_append, hq, queried_log, queried_nil, List.append_nil]

/-! ## Lemmas on the initialization switch -/

theorem update_created (env : TickEnv) (c : C1001Component) (h : c.init_state_ = INIT_CREATED) :
    update env c =
      if (send_command REG_CONFIG CMD_GET_LED 1 (some [dummy_byte]) (some response0)
            (env.rx.getD 0 [])).ok = true then
        ({ c with init_state_ := INIT_BEGIN_DONE, retry_count := 0 },
         [Event.transaction (encode REG_CONFIG CMD_GET_LED [dummy_byte]) true])
      else
        ({ c with retry_count := (c.retry_count + 1) % 256 },
         [Event.transaction (encode REG_CONFIG CMD_GET_LED [dummy_byte]) false,
          Event.log Warning.no_response_from_sensor]) := by
  have hne : c.init_state_ ≠ INIT_COMPLETE := by rw [h]; decide
  unfold update updateInit
  rw [if_pos hne, if_pos h]
  simp only [txEvent, send_command_written, encode, List.length_singleton]
  cases (send_command REG_CONFIG CMD_GET_LED 1 (some [dummy_byte]) (some response0)
    (env.rx.getD 0 [])).ok <;> simp

theorem update_begin_done (env : TickEnv) (c : C1001Component)
    (h : c.init_state_ = INIT_BEGIN_DONE) :
    update env c =
      if (send_command REG_WORK_MODE CMD_GET_WORK_MODE 1 (some [dummy_byte]) (some response0)
            (env.rx.getD 0 [])).ok = true then
        if (responseOf (send_command REG_WORK_MODE CMD_GET_WORK_MODE 1 (some [dummy_byte])
              (some response0) (env.rx.getD 0 []))).getD 6 0 ≠ MODE_SLEEP then
          if (send_command REG_WORK_MODE CMD_SET_WORK_MODE 1 (some (MODE_SLEEP :: []))
                (some (responseOf (send_command REG_WORK_MODE CMD_GET_WORK_MODE 1
                  (some [dummy_byte]) (some response0) (env.rx.getD 0 []))))
                (env.rx.getD 1 [])).ok = true then
            ({ c with init_state_ := INIT_SLEEP_MODE_DONE, retry_count := 0 },
             [Event.transaction (encode REG_WORK_MODE CMD_GET_WORK_MODE [dummy_byte]) true,
              Event.transaction (encode REG_WORK_MODE CMD_SET_WORK_MODE (MODE_SLEEP :: [])) true])
          else
            ({ c with retry_count := (c.retry_count + 1) % 256 },
             [Event.transaction (encode REG_WORK_MODE CMD_GET_WORK_MODE [dummy_byte]) true,
              Event.transaction (encode REG_WORK_MODE CMD_SET_WORK_MODE (MODE_SLEEP :: [])) false,
              Event.log Warning.sleep_mode_command_failed])
        else
          ({ c with init_state_ := INIT_SLEEP_MODE_DONE, retry_count := 0 },
           [Event.transaction (encode REG_WORK_MODE CMD_GET_WORK_MODE [dummy_byte]) true])
      else
        ({ c with retry_count := (c.retry_count + 1) % 256 },
         [Event.transaction (encode REG_WORK_MODE CMD_GET_WORK_MODE [dummy_byte]) false,
          Event.log Warning.work_mode_query_failed]) := by
  have hne : c.init_state_ ≠ INIT_COMPLETE := by rw [h]; decide
  have h1 : ¬ c.init_state_ = INIT_CREATED := by rw [h]; decide
  unfold update updateInit
  rw [if_pos hne, if_neg h1, if_pos h]
  simp only [txEvent, send_command_written, encode, List.length_singleton]
  cases (send_command REG_WORK_MODE CMD_GET_WORK_MODE 1 (some [dummy_byte]) (some response0)
    (env.rx.getD 0 [])).ok
  · simp
  · cases (send_command REG_WORK_MODE CMD_SET_WORK_MODE 1 (some (MODE_SLEEP :: []))
      (some (responseOf (send_command REG_WORK_MODE CMD_GET_WORK_MODE 1
        (some [dummy_byte]) (some response0) (env.rx.getD 0 []))))
      (env.rx.getD 1 [])).ok <;> simp

theorem update_sleep_mode_done (env : TickEnv) (c : C1001Component)
    (h : c.init_state_ = INIT_SLEEP_MODE_DONE) :
    update env c =
      if (send_command REG_CONFIG CMD_SET_LED 1 (some [0x01]) (some response0)
            (env.rx.getD 0 [])).ok = true then
        ({ c with init_state_ := INIT_LED_DONE, retry_count := 0 },
         [Event.transaction (encode REG_CONFIG CMD_SET_LED [0x01]) true])
      else
        ({ c with retry_count := (c.retry_count + 1) % 256 },
         [Event.transaction (encode REG_CONFIG CMD_SET_LED [0x01]) false,
          Event.log Warning.led_command_failed]) := by
  have hne : c.init_state_ ≠ INIT_COMPLETE := by rw [h]; decide
  have h1 : ¬ c.init_state_ = INIT_CREATED := by rw [h]; decide
  have h2 : ¬ c.init_state_ = INIT_BEGIN_DONE := by rw [h]; decide
  unfold update updateInit
  rw [if_pos hne, if_neg h1, if_neg h2, if_pos h]
  simp only [txEvent, send_command_written, encode, List.length_singleton]
  cases (send_command REG_CONFIG CMD_SET_LED 1 (some [0x01]) (some response0)
    (env.rx.getD 0 [])).ok <;> simp

theorem update_led_done (env : TickEnv) (c : C1001Component) (h : c.init_state_ = INIT_LED_DONE) :
    update env c =
      if (send_command REG_CONFIG CMD_RESET 1 (some [dummy_byte]) (some response0)
            (env.rx.getD 0 [])).ok = true then
        ({ c with init_state_ := INIT_COMPLETE, sensor_initialized_ := true,
                  consecutive_errors_ := 0, last_successful_read_ := env.done, retry_count := 0 },
         [Event.transaction (encode REG_CONFIG CMD_RESET [dummy_byte]) true])
      else
        ({ c with retry_count := (c.retry_count + 1) % 256 },
         [Event.transaction (encode REG_CONFIG CMD_RESET [dummy_byte]) false,
          Event.log Warning.reset_command_failed]) := by
  have hne : c.init_state_ ≠ INIT_COMPLETE := by rw [h]; decide
  have h1 : ¬ c.init_state_ = INIT_CREATED := by rw [h]; decide
  have h2 : ¬ c.init_state_ = INIT_BEGIN_DONE := by rw [h]; decide
  have h3 : ¬ c.init_state_ = INIT_SLEEP_MODE_DONE := by rw [h]; decide
  unfold update updateInit
  rw [if_pos hne, if_neg h1, if_neg h2, if_neg h3, if_pos h]
  simp only [txEvent, send_command_written, encode, List.length_singleton]
  cases (send_command REG_CONFIG CMD_RESET 1 (some [dummy_byte]) (some response0)
    (env.rx.getD 0 [])).ok <;> simp

/-- The outcome of a tick in one of the four initialization phases when every
transaction of the tick succeeds: the next phase is entered, only commands of
the phase are sent, and nothing is published. -/
theorem init_tick_ok (env : TickEnv) (c : C1001Component)
    (hphase : c.init_state_ = INIT_CREATED ∨ c.init_state_ = INIT_BEGIN_DONE
      ∨ c.init_state_ = INIT_SLEEP_MODE_DONE ∨ c.init_state_ = INIT_LED_DONE)
    (hok : allOk (update env c).2 = true) :
    (update env c).1.init_state_
        = (if c.init_state_ = INIT_LED_DONE then INIT_COMPLETE else c.init_state_ + 1)
    ∧ (∀ q ∈ queried (update env c).2, q = phaseCommand c.init_state_)
    ∧ (∀ e ∈ (update env c).2, isPublish e = false) := by
  rcases hphase with h | h | h | h
  · rw [update_created env c h] at hok ⊢
    split at hok
    · rw [if_pos (by assumption)]
      simp [h, queried_transaction, queried_nil, encode_control_get, encode_command_get, phaseCommand,
        isPublish, INIT_CREATED, INIT_BEGIN_DONE, INIT_LED_DONE]
    · simp [allOk] at hok
  · rw [update_begin_done env c h] at hok ⊢
    split at hok
    · rw [if_pos (by assumption)]
      split at hok
      · rw [if_pos (by assumption)]
        split at hok
        · rw [if_pos (by assumption)]
          simp [h, queried_transaction, queried_nil, encode_control_get, encode_command_get, phaseCommand,
            isPublish, INIT_CREATED, INIT_BEGIN_DONE, INIT_LED_DONE, INIT_SLEEP_MODE_DONE,
            CMD_GET_WORK_MODE, CMD_SET_WORK_MODE]
        · simp [allOk] at hok
      · rw [if_neg (by assumption)]
        simp [h, queried_transaction, queried_nil, encode_control_get, encode_command_get, phaseCommand,
          isPublish, INIT_CREATED, INIT_BEGIN_DONE, INIT_LED_DONE, INIT_SLEEP_MODE_DONE]
    · simp [allOk] at hok
  · rw [update_sleep_mode_done env c h] at hok ⊢
    split at hok
    · rw [if_pos (by assumption)]
      simp [h, queried_transaction, queried_nil, encode_control_get, encode_command_get, phaseCommand,
        isPublish, INIT_CREATED, INIT_BEGIN_DONE, INIT_LED_DONE, INIT_SLEEP_MODE_DONE]
    · simp [allOk] at hok
  · rw [update_led_done env c h] at hok ⊢
    split at hok
    · rw [if_pos (by assumption)]
      simp [h, queried_transaction, queried_nil, encode_control_get, encode_command_get, phaseCommand,
        isPublish, INIT_CREATED, INIT_BEGIN_DONE, INIT_LED_DONE, INIT_SLEEP_MODE_DONE]
    · simp [allOk] at hok

/-! ## Lemmas on failed scheduler ticks -/

theorem query_fail (env : TickEnv) (h : receive (env.rx.getD 0 []) = none) (con cmd : Nat) :
    (query con cmd env).ok = false := by
  unfold query
  rw [send_command_ok, h]
  rfl

theorem pollStep_fail (k : Nat) (env : TickEnv) (c : C1001Component)
    (h : receive (env.rx.getD 0 []) = none) :
    (pollStep k env c).1 = false ∧ (pollStep k env c).2.1 = c := by
  have hq := query_fail env h
  unfold pollStep
  split <;> simp only [hq, Bool.false_eq_true, if_false, and_self]

/-- A scheduler tick whose transaction fails: the error counter goes up by
one, or the driver is reset when the counter reaches 20. -/
theorem failed_tick (env : TickEnv) (c : C1001Component)
    (hi : c.init_state_ = INIT_COMPLETE) (hs : c.sensor_initialized_ = true)
    (ht : sub32 env.now c.last_successful_read_ ≤ SENSOR_TIMEOUT_MS)
    (hfail : receive (env.rx.getD 0 []) = none) (hlt : c.consecutive_errors_ < 20) :
    (c.consecutive_errors_ + 1 < 20 →
      (update env c).1.init_state_ = INIT_COMPLETE
      ∧ (update env c).1.sensor_initialized_ = true
      ∧ (update env c).1.consecutive_errors_ = c.consecutive_errors_ + 1
      ∧ (update env c).1.last_successful_read_ = c.last_successful_read_)
    ∧ (c.consecutive_errors_ + 1 = 20 →
      (update env c).1.init_state_ = INIT_CREATED
      ∧ (update env c).1.sensor_initialized_ = false
      ∧ (update env c).1.consecutive_errors_ = 0) := by
  rw [update_polling env c hi hs ht]
  obtain ⟨hf1, hf2⟩ := pollStep_fail (selectStep c.vital_count c.read_step).1 env
    { c with vital_count := (selectStep c.vital_count c.read_step).2.1,
             read_step := (selectStep c.vital_count c.read_step).2.2 } hfail
  have hmod : (c.consecutive_errors_ + 1) % 256 = c.consecutive_errors_ + 1 :=
    Nat.mod_eq_of_lt (by omega)
  unfold updatePoll
  simp only [hf1, hf2, Bool.false_eq_true, if_false, hmod, MAX_CONSECUTIVE_ERRORS,
    reset_initialization]
  constructor
  · intro h
    rw [if_neg (by omega)]
    exact ⟨hi, hs, rfl, rfl⟩
  · intro h
    rw [if_pos (by omega)]
    exact ⟨rfl, rfl, rfl⟩

theorem run_cons (env : TickEnv) (envs : List TickEnv) (c : C1001Component) :
    run (env :: envs) c = run envs (update env c).1 := rfl

theorem failed_run_below (envs : List TickEnv) :
    ∀ (c : C1001Component), c.init_state_ = INIT_COMPLETE → c.sensor_initialized_ = true →
      c.consecutive_errors_ + envs.length < 20 →
      (∀ env ∈ envs, receive (env.rx.getD 0 []) = none) →
      (∀ env ∈ envs, sub32 env.now c.last_successful_read_ ≤ SENSOR_TIMEOUT_MS) →
      (run envs c).init_state_ = INIT_COMPLETE
      ∧ (run envs c).sensor_initialized_ = true
      ∧ (run envs c).consecutive_errors_ = c.consecutive_errors_ + envs.length
      ∧ (run envs c).last_successful_read_ = c.last_successful_read_ := by
  induction envs with
  | nil =>
    intro c hi hs _ _ _
    exact ⟨hi, hs, rfl, rfl⟩
  | cons e rest ih =>
    intro c hi hs hlen hfail hfresh
    simp only [List.length_cons] at hlen
    obtain ⟨h1, h2, h3, h4⟩ := (failed_tick e c hi hs (hfresh e (List.mem_cons_self _ _))
      (hfail e (List.mem_cons_self _ _)) (by omega)).1 (by omega)
    rw [run_cons]
    obtain ⟨g1, g2, g3, g4⟩ := ih (update e c).1 h1 h2 (by rw [h3]; omega)
      (fun env he => hfail env (List.mem_cons_of_mem _ he))
      (fun env he => by rw [h4]; exact hfresh env (List.mem_cons_of_mem _ he))
    refine ⟨g1, g2, ?_, ?_⟩
    · rw [g3, h3, List.length_cons]
      omega
    · rw [g4, h4]

theorem failed_run_reset (envs : List TickEnv) :
    ∀ (c : C1001Component), c.init_state_ = INIT_COMPLETE → c.sensor_initialized_ = true →
      c.consecutive_errors_ + envs.length = 20 → envs ≠ [] →
      (∀ env ∈ envs, receive (env.rx.getD 0 []) = none) →
      (∀ env ∈ envs, sub32 env.now c.last_successful_read_ ≤ SENSOR_TIMEOUT_MS) →
      (run envs c).init_state_ = INIT_CREATED
      ∧ (run envs c).sensor_initialized_ = false
      ∧ (run envs c).consecutive_errors_ = 0 := by
  induction envs with
  | nil =>
    intro c _ _ _ hne
    exact absurd rfl hne
  | cons e rest ih =>
    intro c hi hs hlen _ hfail hfresh
    simp only [List.length_cons] at hlen
    have hft := failed_tick e c hi hs (hfresh e (List.mem_cons_self _ _))
      (hfail e (List.mem_cons_self _ _)) (by omega)
    rw [run_cons]
    cases rest with
    | nil =>
      simp only [List.length_nil] at hlen
      exact hft.2 (by omega)
    | cons e2 rest2 =>
      simp only [List.length_cons] at hlen
      obtain ⟨h1, h2, h3, h4⟩ := hft.1 (by omega)
      exact ih (update e c).1 h1 h2 (by rw [h3]; simp only [List.length_cons]; omega)
        (by simp)
        (fun env he => hfail env (List.mem_cons_of_mem _ he))
        (fun env he => by rw [h4]; exact hfresh env (List.mem_cons_of_mem _ he))

/-! ## Lemmas on successful scheduler ticks -/

theorem update_poll_ok (env : TickEnv) (c : C1001Component)
    (hi : c.init_state_ = INIT_COMPLETE) (hs : c.sensor_initialized_ = true)
    (ht : sub32 env.now c.last_successful_read_ ≤ SENSOR_TIMEOUT_MS)
    (k vc rs : Nat) (hsel : selectStep c.vital_count c.read_step = (k, vc, rs))
    (c2 : C1001Component) (evs : List Event)
    (hps : pollStep k env { c with vital_count := vc, read_step := rs } = (true, c2, evs)) :
    update env c
      = ({ c2 with last_successful_read_ := env.done, consecutive_errors_ := 0 }, evs) := by
  rw [update_polling env c hi hs ht]
  unfold updatePoll
  simp only [hsel, hps, if_true]

theorem selectStep_vital_first (rs : Nat) : selectStep 0 rs = (2, 1, rs) := rfl

theorem selectStep_round_robin (vc rs : Nat) (hvc : 2 ≤ vc) (hrs : rs ≠ 2) (hrs3 : rs ≠ 3) :
    selectStep vc rs = (rs, 0, (rs + 1) % 14) := by
  unfold selectStep
  rw [if_neg (by omega)]
  simp only [hrs, hrs3, or_self, if_false]

/-- The respiration tick: the tick of an initialized, non-stale driver with
`vital_count = 0` whose query succeeds. -/
theorem respiration_tick (env : TickEnv) (c : C1001Component)
    (hi : c.init_state_ = INIT_COMPLETE) (hs : c.sensor_initialized_ = true)
    (ht : sub32 env.now c.last_successful_read_ ≤ SENSOR_TIMEOUT_MS)
    (hv : c.vital_count = 0) (hok : (query REG_BREATH CMD_GET_BREATHING env).ok = true) :
    (update env c).2
      = txEvent (query REG_BREATH CMD_GET_BREATHING env)
        :: (if breathing ((responseTo REG_BREATH CMD_GET_BREATHING env).getD 6 0) ≥ 10
              ∧ breathing ((responseTo REG_BREATH CMD_GET_BREATHING env).getD 6 0) ≤ 25
              ∧ c.respiration_sensor_ = true then
            [Event.publish_state Sink.respiration_sensor_
              (breathing ((responseTo REG_BREATH CMD_GET_BREATHING env).getD 6 0))]
          else
            Event.log Warning.respiration_outside_range
              :: (if breathing ((responseTo REG_BREATH CMD_GET_BREATHING env).getD 6 0) ≥ 8
                    ∧ breathing ((responseTo REG_BREATH CMD_GET_BREATHING env).getD 6 0) ≤ 30
                    ∧ c.respiration_sensor_ = true then
                  [Event.publish_state Sink.respiration_sensor_
                    (breathing ((responseTo REG_BREATH CMD_GET_BREATHING env).getD 6 0))]
                else [])) := by
  have hsel : selectStep c.vital_count c.read_step = (2, 1, c.read_step) := by
    rw [hv]
    rfl
  have hps : pollStep 2 env { c with vital_count := 1, read_step := c.read_step }
      = (true, { c with vital_count := 1, read_step := c.read_step },
         txEvent (query REG_BREATH CMD_GET_BREATHING env)
        :: (if breathing ((responseTo REG_BREATH CMD_GET_BREATHING env).getD 6 0) ≥ 10
              ∧ breathing ((responseTo REG_BREATH CMD_GET_BREATHING env).getD 6 0) ≤ 25
              ∧ c.respiration_sensor_ = true then
            [Event.publish_state Sink.respiration_sensor_
              (breathing ((responseTo REG_BREATH CMD_GET_BREATHING env).getD 6 0))]
          else
            Event.log Warning.respiration_outside_range
              :: (if breathing ((responseTo REG_BREATH CMD_GET_BREATHING env).getD 6 0) ≥ 8
                    ∧ breathing ((responseTo REG_BREATH CMD_GET_BREATHING env).getD 6 0) ≤ 30
                    ∧ c.respiration_sensor_ = true then
                  [Event.publish_state Sink.respiration_sensor_
                    (breathing ((responseTo REG_BREATH CMD_GET_BREATHING env).getD 6 0))]
                else []))) := by
    show (if (query REG_BREATH CMD_GET_BREATHING env).ok = true then _ else _) = _
    rw [if_pos hok]
    rfl
  rw [update_poll_ok env c hi hs ht 2 1 c.read_step hsel _ _ hps]

/-- The presence tick: the round-robin tick of slot 0 of an initialized,
non-stale driver whose query succeeds. -/
theorem presence_tick (env : TickEnv) (c : C1001Component)
    (hi : c.init_state_ = INIT_COMPLETE) (hs : c.sensor_initialized_ = true)
    (ht : sub32 env.now c.last_successful_read_ ≤ SENSOR_TIMEOUT_MS)
    (hv : 2 ≤ c.vital_count) (hr : c.read_step = 0)
    (hok : (query REG_BASIC_HUMAN CMD_GET_PRESENCE env).ok = true) :
    (update env c).2
      = [txEvent (query REG_BASIC_HUMAN CMD_GET_PRESENCE env)]
        ++ (if c.presence_sensor_ = true then
              [Event.publish_state Sink.presence_sensor_
                (((responseTo REG_BASIC_HUMAN CMD_GET_PRESENCE env).getD 6 0 : Nat) : ℚ)]
            else [])
        ++ (if c.person_detected_ = true then
              [Event.publish_bool Sink.person_detected_
                (decide ((responseTo REG_BASIC_HUMAN CMD_GET_PRESENCE env).getD 6 0 < 50))]
            else []) := by
  have hsel : selectStep c.vital_count c.read_step = (0, 0, 1) := by
    rw [selectStep_round_robin _ _ hv (by omega) (by omega), hr]
  have hps : pollStep 0 env { c with vital_count := 0, read_step := 1 }
      = (true, { c with vital_count := 0, read_step := 1 },
         [txEvent (query REG_BASIC_HUMAN CMD_GET_PRESENCE env)]
        ++ (if c.presence_sensor_ = true then
              [Event.publish_state Sink.presence_sensor_
                (((responseTo REG_BASIC_HUMAN CMD_GET_PRESENCE env).getD 6 0 : Nat) : ℚ)]
            else [])
        ++ (if c.person_detected_ = true then
              [Event.publish_bool Sink.person_detected_
                (decide ((responseTo REG_BASIC_HUMAN CMD_GET_PRESENCE env).getD 6 0 < 50))]
            else [])) := by
    show (if (query REG_BASIC_HUMAN CMD_GET_PRESENCE env).ok = true then _ else _) = _
    rw [if_pos hok]
    rfl
  rw [update_poll_ok env c hi hs ht 0 0 1 hsel _ _ hps]

theorem update_poll_ok_parts (env : TickEnv) (c : C1001Component)
    (hi : c.init_state_ = INIT_COMPLETE) (hs : c.sensor_initialized_ = true)
    (ht : sub32 env.now c.last_successful_read_ ≤ SENSOR_TIMEOUT_MS)
    (k vc rs : Nat) (hsel : selectStep c.vital_count c.read_step = (k, vc, rs))
    (hps : (pollStep k env { c with vital_count := vc, read_step := rs }).1 = true) :
    (update env c).1
        = { (pollStep k env { c with vital_count := vc, read_step := rs }).2.1 with
            last_successful_read_ := env.done, consecutive_errors_ := 0 }
    ∧ (update env c).2 = (pollStep k env { c with vital_count := vc, read_step := rs }).2.2 := by
  rw [update_polling env c hi hs ht]
  unfold updatePoll
  simp only [hsel, hps, if_true, and_self]

/-- The sleep-composite tick: the round-robin tick of slot 9 of an
initialized, non-stale driver whose query succeeds; the driver after it. -/
theorem composite_tick (env : TickEnv) (c : C1001Component)
    (hi : c.init_state_ = INIT_COMPLETE) (hs : c.sensor_initialized_ = true)
    (ht : sub32 env.now c.last_successful_read_ ≤ SENSOR_TIMEOUT_MS)
    (hv : 2 ≤ c.vital_count) (hr : c.read_step = 9)
    (hok : (query REG_SLEEP CMD_GET_SLEEP_COMPOSITE env).ok = true) :
    (update env c).1
      = { c with
          vital_count := 0, read_step := 10,
          turnover_count_ := (responseTo REG_SLEEP CMD_GET_SLEEP_COMPOSITE env).getD 10 0,
          large_body_movement_ := (responseTo REG_SLEEP CMD_GET_SLEEP_COMPOSITE env).getD 11 0,
          minor_body_movement_ := (responseTo REG_SLEEP CMD_GET_SLEEP_COMPOSITE env).getD 12 0,
          apnea_events_ := (responseTo REG_SLEEP CMD_GET_SLEEP_COMPOSITE env).getD 13 0,
          average_respiration_ :=
            average_respiration ((responseTo REG_SLEEP CMD_GET_SLEEP_COMPOSITE env).getD 8 0),
          average_heartbeat_ :=
            average_heartbeat ((responseTo REG_SLEEP CMD_GET_SLEEP_COMPOSITE env).getD 9 0),
          last_successful_read_ := env.done, consecutive_errors_ := 0 } := by
  have hsel : selectStep c.vital_count c.read_step = (9, 0, 10) := by
    rw [selectStep_round_robin _ _ hv (by omega) (by omega), hr]
  have h1 : (pollStep 9 env { c with vital_count := 0, read_step := 10 }).1 = true := by
    show ((if (query REG_SLEEP CMD_GET_SLEEP_COMPOSITE env).ok = true then _ else _ :
      Bool × C1001Component × List Event)).1 = true
    rw [if_pos hok]
  have h2 : (pollStep 9 env { c with vital_count := 0, read_step := 10 }).2.1
      = { c with
          vital_count := 0, read_step := 10,
          turnover_count_ := (responseTo REG_SLEEP CMD_GET_SLEEP_COMPOSITE env).getD 10 0,
          large_body_movement_ := (responseTo REG_SLEEP CMD_GET_SLEEP_COMPOSITE env).getD 11 0,
          minor_body_movement_ := (responseTo REG_SLEEP CMD_GET_SLEEP_COMPOSITE env).getD 12 0,
          apnea_events_ := (responseTo REG_SLEEP CMD_GET_SLEEP_COMPOSITE env).getD 13 0,
          average_respiration_ :=
            average_respiration ((responseTo REG_SLEEP CMD_GET_SLEEP_COMPOSITE env).getD 8 0),
          average_heartbeat_ :=
            average_heartbeat ((responseTo REG_SLEEP CMD_GET_SLEEP_COMPOSITE env).getD 9 0) } := by
    show ((if (query REG_SLEEP CMD_GET_SLEEP_COMPOSITE env).ok = true then _ else _ :
      Bool × C1001Component × List Event)).2.1 = _
    rw [if_pos hok]
    rfl
  rw [(update_poll_ok_parts env c hi hs ht 9 0 10 hsel h1).1, h2]

/-! ## Lemmas for the accumulator of `calculate_checksum` -/

theorem getD_take (l : List Nat) (n k : Nat) :
    (l.take n).getD k 0 = if k < n then l.getD k 0 else 0 := by
  rw [List.getD_eq_getElem?_getD, List.getD_eq_getElem?_getD, List.getElem?_take]
  split <;> rfl

theorem lt_length_of_getD_ne (l : List Nat) (k v : Nat) (hv : v ≠ 0) (h : l.getD k 0 = v) :
    k < l.length := by
  by_contra hk
  rw [List.getD_eq_getElem?_getD, List.getElem?_eq_none (by omega)] at h
  exact hv h.symm

theorem mem_iff_getD (l : List Nat) (v : Nat) (hv : v ≠ 0) :
    v ∈ l ↔ ∃ j, l.getD j 0 = v := by
  constructor
  · intro h
    obtain ⟨j, hj, hjv⟩ := List.mem_iff_getElem.mp h
    refine ⟨j, ?_⟩
    rw [List.getD_eq_getElem?_getD, List.getElem?_eq_getElem hj, hjv]
    rfl
  · rintro ⟨j, hj⟩
    have hlt := lt_length_of_getD_ne l j v hv hj
    rw [List.getD_eq_getElem?_getD, List.getElem?_eq_getElem hlt] at hj
    exact List.mem_iff_getElem.mpr ⟨j, hlt, hj⟩

theorem pair_infix_iff (l : List Nat) :
    [0x54, 0x43] <:+: l ↔ ∃ k, 1 ≤ k ∧ l.getD (k - 1) 0 = 0x54 ∧ l.getD k 0 = 0x43 := by
  constructor
  · rintro ⟨a, b, rfl⟩
    refine ⟨a.length + 1, by omega, ?_, ?_⟩
    · rw [Nat.add_sub_cancel, List.getD_eq_getElem?_getD, List.append_assoc,
        List.getElem?_append_right (Nat.le_refl _), Nat.sub_self]
      rfl
    · rw [List.getD_eq_getElem?_getD, List.append_assoc,
        List.getElem?_append_right (Nat.le_succ _)]
      have h1 : a.length.succ - a.length = 1 := by omega
      rw [h1]
      simp
  · rintro ⟨k, hk1, h54, h43⟩
    obtain ⟨m, rfl⟩ : ∃ m, k = m + 1 := ⟨k - 1, by omega⟩
    simp only [Nat.add_sub_cancel] at h54
    have hlt1 : m + 1 < l.length := lt_length_of_getD_ne l (m + 1) 0x43 (by decide) h43
    have hlt0 : m < l.length := by omega
    rw [List.getD_eq_getElem?_getD, List.getElem?_eq_getElem hlt0] at h54
    rw [List.getD_eq_getElem?_getD, List.getElem?_eq_getElem hlt1] at h43
    simp only [Option.getD_some] at h54 h43
    refine ⟨l.take m, l.drop (m + 2), ?_⟩
    have h1 : l.drop m = l[m] :: l.drop (m + 1) := List.drop_eq_getElem_cons hlt0
    have h2 : l.drop (m + 1) = l[m + 1] :: l.drop (m + 2) := List.drop_eq_getElem_cons hlt1
    calc l.take m ++ [0x54, 0x43] ++ l.drop (m + 2)
        = l.take m ++ (l[m] :: l[m + 1] :: l.drop (m + 2)) := by
          rw [h54, h43]
          simp
      _ = l.take m ++ l.drop m := by rw [h1, h2]
      _ = l := List.take_append_drop m l

theorem complete_take_iff (s : List Nat) (i : Nat) :
    Complete (s.take (i + 1)) ↔ AcceptAt s i := by
  unfold Complete AcceptAt
  rw [mem_iff_getD _ 0x53 (by decide), pair_infix_iff]
  constructor
  · rintro ⟨⟨j, hj⟩, ⟨k, hk1, h54, h43⟩⟩
    rw [getD_take] at hj h54 h43
    have hji : j < i + 1 := by
      by_contra hc
      rw [if_neg hc] at hj
      exact absurd hj (by decide)
    have hki : k < i + 1 := by
      by_contra hc
      rw [if_neg hc] at h43
      exact absurd h43 (by decide)
    rw [if_pos hji] at hj
    rw [if_pos (by omega)] at h54
    rw [if_pos hki] at h43
    exact ⟨⟨j, by omega, hj⟩, ⟨k, hk1, by omega, h54, h43⟩⟩
  · rintro ⟨⟨j, hji, hj⟩, ⟨k, hk1, hki, h54, h43⟩⟩
    refine ⟨⟨j, ?_⟩, ⟨k, hk1, ?_, ?_⟩⟩
    · rw [getD_take, if_pos (by omega)]
      exact hj
    · rw [getD_take, if_pos (by omega)]
      exact h54
    · rw [getD_take, if_pos (by omega)]
      exact h43

/-! ## Lemmas on the receive state after a whole stream -/

theorem recvAfter_concat (l : List Nat) (b : Nat) :
    recvAfter (l ++ [b]) = recvStep (recvAfter l) b := by
  unfold recvAfter
  rw [List.foldl_append]
  rfl

theorem tracks_recvAfter (rx : List Nat) : rx.length ≤ 63 → Tracks (recvAfter rx) rx := by
  induction rx using List.reverseRecOn with
  | nil =>
    intro _
    exact tracks_init
  | append_singleton l b ih =>
    intro h
    rw [List.length_append, List.length_singleton] at h
    rw [recvAfter_concat]
    exact tracks_step _ l b (ih (by omega)) (by omega)

theorem recvStep_pos_le (st : RecvState) (b : Nat) (h : st.recv_pos ≤ 63) :
    (recvStep st b).recv_pos ≤ 63 := by
  rw [recvStep_pos]
  split
  · rw [Nat.mod_eq_of_lt (by omega)]
    omega
  · exact h

theorem recvLoop_pos_le (rx : List Nat) :
    ∀ (st st1 : RecvState), st.recv_pos ≤ 63 → recvLoop st rx = some st1 →
      st1.recv_pos ≤ 63 := by
  induction rx with
  | nil =>
    intro st st1 _ h
    simp [recvLoop] at h
  | cons b r ih =>
    intro st st1 hst h
    have h1 := recvStep_pos_le st b hst
    simp only [recvLoop] at h
    split at h
    · injection h with h
      rw [← h]
      exact h1
    · exact ih _ _ h1 h

/-! ## Lemmas on the ranges of the scaling maps -/

theorem breathing_range (r : Nat) (hr : r < 256) : 8 ≤ breathing r ∧ breathing r ≤ 25 := by
  have h0 : (0 : ℚ) ≤ (r : ℚ) := Nat.cast_nonneg r
  have h255 : (r : ℚ) ≤ 255 := by exact_mod_cast (show r ≤ 255 by omega)
  unfold breathing
  split
  · rename_i h
    have hq : (r : ℚ) < 8 := by exact_mod_cast h
    constructor <;> linarith
  · split
    · rename_i h1 h2
      have hq1 : (25 : ℚ) < (r : ℚ) := by exact_mod_cast h2.1
      have hq2 : (r : ℚ) < 100 := by exact_mod_cast h2.2
      push_cast
      constructor <;> linarith
    · split
      · rename_i h1 h2 h3
        have hq : (100 : ℚ) ≤ (r : ℚ) := by exact_mod_cast h3
        constructor <;> linarith
      · rename_i h1 h2 h3
        have hq1 : (8 : ℚ) ≤ (r : ℚ) := by exact_mod_cast (show 8 ≤ r by omega)
        have hq2 : (r : ℚ) ≤ 25 := by exact_mod_cast (show r ≤ 25 by omega)
        exact ⟨hq1, hq2⟩

theorem breathing_warn_iff (r : Nat) (hr : r < 256) :
    ¬ (10 ≤ breathing r ∧ breathing r ≤ 25) ↔ r = 8 ∨ r = 9 := by
  have hup := (breathing_range r hr).2
  constructor
  · intro h
    by_contra hne
    apply h
    refine ⟨?_, hup⟩
    have h0 : (0 : ℚ) ≤ (r : ℚ) := Nat.cast_nonneg r
    unfold breathing
    split
    · linarith
    · split
      · rename_i h1 h2
        have hq1 : (25 : ℚ) < (r : ℚ) := by exact_mod_cast h2.1
        push_cast
        linarith
      · split
        · linarith
        · rename_i h1 h2 h3
          exact_mod_cast (show 10 ≤ r by omega)
  · rintro (h | h) hc
    · rw [h] at hc
      have : breathing 8 = 8 := by norm_num [breathing]
      rw [this] at hc
      norm_num at hc
    · rw [h] at hc
      have : breathing 9 = 9 := by norm_num [breathing]
      rw [this] at hc
      norm_num at hc

theorem heart_range (r : Nat) (hr : r < 256) : 45 ≤ heart r ∧ heart r ≤ 100 := by
  have h0 : (0 : ℚ) ≤ (r : ℚ) := Nat.cast_nonneg r
  have h255 : (r : ℚ) ≤ 255 := by exact_mod_cast (show r ≤ 255 by omega)
  unfold heart
  split
  · rename_i h
    have hq : (r : ℚ) < 30 := by exact_mod_cast h
    constructor <;> linarith
  · split
    · rename_i h1 h2
      have hq1 : (100 : ℚ) < (r : ℚ) := by exact_mod_cast h2.1
      have hq2 : (r : ℚ) < 150 := by exact_mod_cast h2.2
      push_cast
      constructor <;> linarith
    · split
      · rename_i h1 h2 h3
        have hq : (150 : ℚ) ≤ (r : ℚ) := by exact_mod_cast h3
        constructor <;> linarith
      · split
        · rename_i h1 h2 h3 h4
          have hq1 : (30 : ℚ) ≤ (r : ℚ) := by exact_mod_cast h4.1
          have hq2 : (r : ℚ) < 60 := by exact_mod_cast h4.2
          constructor <;> linarith
        · rename_i h1 h2 h3 h4
          have hq1 : (60 : ℚ) ≤ (r : ℚ) := by exact_mod_cast (show 60 ≤ r by omega)
          have hq2 : (r : ℚ) ≤ 100 := by exact_mod_cast (show r ≤ 100 by omega)
          constructor <;> linarith

theorem heart_warn_iff (r : Nat) (hr : r < 256) :
    ¬ (60 ≤ heart r ∧ heart r ≤ 100) ↔ 30 ≤ r ∧ r < 60 := by
  have hup := (heart_range r hr).2
  have h0 : (0 : ℚ) ≤ (r : ℚ) := Nat.cast_nonneg r
  constructor
  · intro h
    by_contra hne
    apply h
    refine ⟨?_, hup⟩
    unfold heart
    split
    · linarith
    · split
      · rename_i h1 h2
        have hq1 : (100 : ℚ) < (r : ℚ) := by exact_mod_cast h2.1
        push_cast
        linarith
      · split
        · linarith
        · rename_i h1 h2 h3
          exact_mod_cast (show 60 ≤ r by omega)
  · rintro ⟨h1, h2⟩ hc
    have hq2 : (r : ℚ) < 60 := by exact_mod_cast h2
    have hv : heart r = 60 - (60 - (r : ℚ)) * (1 / 2) := by
      unfold heart
      rw [if_neg (by omega), if_neg (by omega), if_neg (by omega), if_pos ⟨h1, h2⟩]
    rw [hv] at hc
    linarith [hc.1]

/-! ## Lemmas on what a trace publishes -/

theorem publishes_append (sk : Sink) (a b : List Event) :
    publishes sk (a ++ b) = publishes sk a ++ publishes sk b := by
  simp [publishes, List.filterMap_append]

theorem publishes_nil (sk : Sink) : publishes sk [] = [] := rfl

theorem publishes_tx (sk : Sink) (r : SendResult) (evs : List Event) :
    publishes sk (txEvent r :: evs) = publishes sk evs := rfl

theorem publishes_log (sk : Sink) (w : Warning) (evs : List Event) :
    publishes sk (Event.log w :: evs) = publishes sk evs := rfl

theorem publishes_bool (sk s : Sink) (v : Bool) (evs : List Event) :
    publishes sk (Event.publish_bool s v :: evs) = publishes sk evs := rfl

theorem publishes_state (sk s : Sink) (v : ℚ) (evs : List Event) :
    publishes sk (Event.publish_state s v :: evs)
      = if s = sk then v :: publishes sk evs else publishes sk evs := by
  unfold publishes
  rw [List.filterMap_cons]
  split <;> simp_all

/-- The heart-rate tick: the tick of an initialized, non-stale driver with
`vital_count = 1` whose query succeeds. -/
theorem heart_tick (env : TickEnv) (c : C1001Component)
    (hi : c.init_state_ = INIT_COMPLETE) (hs : c.sensor_initialized_ = true)
    (ht : sub32 env.now c.last_successful_read_ ≤ SENSOR_TIMEOUT_MS)
    (hv : c.vital_count = 1) (hok : (query REG_HEART CMD_GET_HEART_RATE env).ok = true) :
    (update env c).2
      = txEvent (query REG_HEART CMD_GET_HEART_RATE env)
        :: (if heart ((responseTo REG_HEART CMD_GET_HEART_RATE env).getD 6 0) ≥ 60
              ∧ heart ((responseTo REG_HEART CMD_GET_HEART_RATE env).getD 6 0) ≤ 100
              ∧ c.heart_rate_sensor_ = true then
            [Event.publish_state Sink.heart_rate_sensor_
              (heart ((responseTo REG_HEART CMD_GET_HEART_RATE env).getD 6 0))]
          else
            Event.log Warning.heart_rate_outside_range
              :: (if heart ((responseTo REG_HEART CMD_GET_HEART_RATE env).getD 6 0) ≥ 40
                    ∧ heart ((responseTo REG_HEART CMD_GET_HEART_RATE env).getD 6 0) ≤ 120
                    ∧ c.heart_rate_sensor_ = true then
                  [Event.publish_state Sink.heart_rate_sensor_
                    (heart ((responseTo REG_HEART CMD_GET_HEART_RATE env).getD 6 0))]
                else [])) := by
  have hsel : selectStep c.vital_count c.read_step = (3, 2, c.read_step) := by
    rw [hv]
    rfl
  have h1 : (pollStep 3 env { c with vital_count := 2, read_step := c.read_step }).1 = true := by
    show ((if (query REG_HEART CMD_GET_HEART_RATE env).ok = true then _ else _ :
      Bool × C1001Component × List Event)).1 = true
    rw [if_pos hok]
  rw [(update_poll_ok_parts env c hi hs ht 3 2 c.read_step hsel h1).2]
  show ((if (query REG_HEART CMD_GET_HEART_RATE env).ok = true then _ else _ :
    Bool × C1001Component × List Event)).2.2 = _
  rw [if_pos hok]
  rfl

/-- What the sleep-composite tick publishes to the two average sinks. -/
theorem composite_publishes (env : TickEnv) (c : C1001Component)
    (hi : c.init_state_ = INIT_COMPLETE) (hs : c.sensor_initialized_ = true)
    (ht : sub32 env.now c.last_successful_read_ ≤ SENSOR_TIMEOUT_MS)
    (hv : 2 ≤ c.vital_count) (hr : c.read_step = 9)
    (hok : (query REG_SLEEP CMD_GET_SLEEP_COMPOSITE env).ok = true) :
    publishes Sink.average_respiration_sensor_ (update env c).2
        = (if c.average_respiration_sensor_ = true then
            (if average_respiration ((responseTo REG_SLEEP CMD_GET_SLEEP_COMPOSITE env).getD 8 0)
                  ≥ 0
                ∧ average_respiration ((responseTo REG_SLEEP CMD_GET_SLEEP_COMPOSITE env).getD 8 0)
                  ≤ 40 then
              [average_respiration ((responseTo REG_SLEEP CMD_GET_SLEEP_COMPOSITE env).getD 8 0)]
             else [])
           else [])
    ∧ publishes Sink.average_heart_rate_sensor_ (update env c).2
        = (if c.average_heart_rate_sensor_ = true then
            (if average_heartbeat ((responseTo REG_SLEEP CMD_GET_SLEEP_COMPOSITE env).getD 9 0)
                  ≥ 40
                ∧ average_heartbeat ((responseTo REG_SLEEP CMD_GET_SLEEP_COMPOSITE env).getD 9 0)
                  ≤ 150 then
              [average_heartbeat ((responseTo REG_SLEEP CMD_GET_SLEEP_COMPOSITE env).getD 9 0)]
             else [])
           else []) := by
  have hsel : selectStep c.vital_count c.read_step = (9, 0, 10) := by
    rw [selectStep_round_robin _ _ hv (by omega) (by omega), hr]
  have h1 : (pollStep 9 env { c with vital_count := 0, read_step := 10 }).1 = true := by
    show ((if (query REG_SLEEP CMD_GET_SLEEP_COMPOSITE env).ok = true then _ else _ :
      Bool × C1001Component × List Event)).1 = true
    rw [if_pos hok]
  rw [(update_poll_ok_parts env c hi hs ht 9 0 10 hsel h1).2]
  have hev : (pollStep 9 env { c with vital_count := 0, read_step := 10 }).2.2
      = ((if (query REG_SLEEP CMD_GET_SLEEP_COMPOSITE env).ok = true then _ else _ :
          Bool × C1001Component × List Event)).2.2 := rfl
  rw [hev, if_pos hok]
  simp only [responseTo]
  constructor
  · simp only [publishes_append, publishes_tx, publishes_nil, apply_ite (publishes _),
      publishes_state, publishes_log, List.nil_append, List.append_nil, reduceCtorEq, if_false,
      if_true, ite_self]
  · simp only [publishes_append, publishes_tx, publishes_nil, apply_ite (publishes _),
      publishes_state, publishes_log, List.nil_append, List.append_nil, reduceCtorEq, if_false,
      if_true, ite_self]

/-! ## Lemmas on the initialization flag -/

theorem pollStep_init (k : Nat) (env : TickEnv) (c : C1001Component) :
    (pollStep k env c).2.1.init_state_ = c.init_state_
    ∧ (pollStep k env c).2.1.sensor_initialized_ = c.sensor_initialized_ := by
  unfold pollStep
  split <;>
    simp only [apply_ite Prod.snd, apply_ite Prod.fst, apply_ite C1001Component.init_state_,
      apply_ite C1001Component.sensor_initialized_, ite_self, and_self]

theorem reset_initialization_flag (c : C1001Component) :
    (reset_initialization c).1.sensor_initialized_ = true
      ↔ (reset_initialization c).1.init_state_ = INIT_COMPLETE := by
  simp [reset_initialization, INIT_CREATED, INIT_COMPLETE]

theorem on_uart_error_flag (c : C1001Component)
    (h : c.sensor_initialized_ = true ↔ c.init_state_ = INIT_COMPLETE) :
    (on_uart_error c).1.sensor_initialized_ = true
      ↔ (on_uart_error c).1.init_state_ = INIT_COMPLETE := by
  unfold on_uart_error
  dsimp only
  split
  · exact reset_initialization_flag _
  · exact h

theorem updateInit_flag (env : TickEnv) (c : C1001Component)
    (h : c.sensor_initialized_ = true ↔ c.init_state_ = INIT_COMPLETE)
    (hn : c.init_state_ ≠ INIT_COMPLETE) :
    (updateInit env c).1.sensor_initialized_ = true
      ↔ (updateInit env c).1.init_state_ = INIT_COMPLETE := by
  have hf : c.sensor_initialized_ = false := by
    cases hc : c.sensor_initialized_
    · rfl
    · exact absurd (h.mp hc) hn
  have hn6 : ¬ c.init_state_ = 6 := hn
  unfold updateInit
  dsimp only
  repeat' split
  all_goals
    simp [hf, hn6, INIT_CREATED, INIT_BEGIN_DONE, INIT_SLEEP_MODE_DONE, INIT_LED_DONE,
      INIT_COMPLETE]

theorem updatePoll_flag (env : TickEnv) (c : C1001Component)
    (h : c.sensor_initialized_ = true ↔ c.init_state_ = INIT_COMPLETE) :
    (updatePoll env c).1.sensor_initialized_ = true
      ↔ (updatePoll env c).1.init_state_ = INIT_COMPLETE := by
  unfold updatePoll
  dsimp only
  split
  · show (pollStep _ env _).2.1.sensor_initialized_ = true
      ↔ (pollStep _ env _).2.1.init_state_ = INIT_COMPLETE
    rw [(pollStep_init _ env _).1, (pollStep_init _ env _).2]
    exact h
  · split
    · exact reset_initialization_flag _
    · show (pollStep _ env _).2.1.sensor_initialized_ = true
        ↔ (pollStep _ env _).2.1.init_state_ = INIT_COMPLETE
      rw [(pollStep_init _ env _).1, (pollStep_init _ env _).2]
      exact h

theorem update_flag (env : TickEnv) (c : C1001Component)
    (h : c.sensor_initialized_ = true ↔ c.init_state_ = INIT_COMPLETE) :
    (update env c).1.sensor_initialized_ = true
      ↔ (update env c).1.init_state_ = INIT_COMPLETE := by
  unfold update
  split
  · exact updateInit_flag env c h (by assumption)
  · split
    · exact h
    · split
      · exact reset_initialization_flag _
      · exact updatePoll_flag env c h

theorem applyAction_flag (c : C1001Component) (a : Action)
    (h : c.sensor_initialized_ = true ↔ c.init_state_ = INIT_COMPLETE) :
    (applyAction c a).sensor_initialized_ = true
      ↔ (applyAction c a).init_state_ = INIT_COMPLETE := by
  cases a with
  | update env => exact update_flag env c h
  | on_uart_error => exact on_uart_error_flag c h
  | reset_initialization => exact reset_initialization_flag c

theorem foldl_applyAction_flag (actions : List Action) (c : C1001Component)
    (h : c.sensor_initialized_ = true ↔ c.init_state_ = INIT_COMPLETE) :
    (actions.foldl applyAction c).sensor_initialized_ = true
      ↔ (actions.foldl applyAction c).init_state_ = INIT_COMPLETE := by
  induction actions generalizing c with
  | nil => exact h
  | cons a rest ih => exact ih (applyAction c a) (applyAction_flag c a h)

theorem reached_flag (now : Nat) (actions : List Action) :
    (reached now actions).sensor_initialized_ = true
      ↔ (reached now actions).init_state_ = INIT_COMPLETE := by
  unfold reached
  apply foldl_applyAction_flag
  simp [setup, constructed, INIT_CREATED, INIT_COMPLETE]

theorem not_mem_ite {α : Type} (w : α) (p : Prop) [Decidable p] (a b : List α)
    (ha : w ∉ a) (hb : w ∉ b) : w ∉ (if p then a else b) := by
  split <;> assumption

theorem not_mem_append {α : Type} (w : α) (a b : List α) (ha : w ∉ a) (hb : w ∉ b) :
    w ∉ a ++ b := by
  simp [ha, hb]

theorem pollStep_no_skip (k : Nat) (env : TickEnv) (c : C1001Component) :
    Event.log Warning.sensor_not_initialized ∉ (pollStep k env c).2.2 := by
  unfold pollStep
  split
  all_goals
    simp only [apply_ite Prod.snd]
    repeat' (first
      | apply not_mem_append
      | apply not_mem_ite
      | simp [txEvent])

theorem updateInit_no_skip (env : TickEnv) (c : C1001Component) :
    Event.log Warning.sensor_not_initialized ∉ (updateInit env c).2 := by
  unfold updateInit
  dsimp only
  repeat' split
  all_goals simp [txEvent]

theorem updatePoll_no_skip (env : TickEnv) (c : C1001Component) :
    Event.log Warning.sensor_not_initialized ∉ (updatePoll env c).2 := by
  unfold updatePoll
  dsimp only
  split
  · exact pollStep_no_skip _ env _
  · split
    · exact not_mem_append _ _ _
        (not_mem_append _ _ _ (pollStep_no_skip _ env _) (by simp))
        (by simp [reset_initialization])
    · exact not_mem_append _ _ _ (pollStep_no_skip _ env _) (by simp)

theorem update_no_skip (env : TickEnv) (c : C1001Component)
    (h : c.sensor_initialized_ = true ↔ c.init_state_ = INIT_COMPLETE) :
    Event.log Warning.sensor_not_initialized ∉ (update env c).2 := by
  unfold update
  split
  · exact updateInit_no_skip env c
  · rename_i hc
    have hs : c.sensor_initialized_ = true := h.mpr (not_not.mp hc)
    rw [hs]
    simp only [Bool.not_true, Bool.false_eq_true, if_false]
    split
    · simp [reset_initialization]
    · exact updatePoll_no_skip env c

/-! ## Lemmas on the error counter -/

theorem pollStep_errors (k : Nat) (env : TickEnv) (c : C1001Component) :
    (pollStep k env c).2.1.consecutive_errors_ = c.consecutive_errors_ := by
  unfold pollStep
  split <;>
    simp only [apply_ite Prod.snd, apply_ite Prod.fst, apply_ite C1001Component.consecutive_errors_,
      ite_self]

theorem on_uart_error_errors (c : C1001Component) (h : c.consecutive_errors_ ≤ 19) :
    (on_uart_error c).1.consecutive_errors_
      = (if c.consecutive_errors_ + 1 = 20 then 0 else c.consecutive_errors_ + 1) := by
  have hmod : (c.consecutive_errors_ + 1) % 256 = c.consecutive_errors_ + 1 :=
    Nat.mod_eq_of_lt (by omega)
  unfold on_uart_error
  simp only [hmod, MAX_CONSECUTIVE_ERRORS, reset_initialization]
  by_cases h20 : c.consecutive_errors_ + 1 = 20
  · rw [if_pos (by omega), if_pos h20]
  · rw [if_neg (by omega), if_neg h20]

theorem updateInit_errors_le (env : TickEnv) (c : C1001Component)
    (h : c.consecutive_errors_ ≤ 19) : (updateInit env c).1.consecutive_errors_ ≤ 19 := by
  unfold updateInit
  dsimp only
  repeat' split
  all_goals first | exact h | exact Nat.zero_le _

theorem updatePoll_errors_le (env : TickEnv) (c : C1001Component)
    (h : c.consecutive_errors_ ≤ 19) : (updatePoll env c).1.consecutive_errors_ ≤ 19 := by
  unfold updatePoll
  dsimp only
  split
  · exact Nat.zero_le _
  · split
    · exact Nat.zero_le _
    · rename_i hlt
      rw [pollStep_errors] at hlt ⊢
      have hmod : (c.consecutive_errors_ + 1) % 256 = c.consecutive_errors_ + 1 :=
        Nat.mod_eq_of_lt (by omega)
      show (c.consecutive_errors_ + 1) % 256 ≤ 19
      have hlt2 : ¬ (c.consecutive_errors_ + 1) % 256 ≥ 20 := hlt
      omega

theorem update_errors_le (env : TickEnv) (c : C1001Component)
    (h : c.consecutive_errors_ ≤ 19) : (update env c).1.consecutive_errors_ ≤ 19 := by
  unfold update
  split
  · exact updateInit_errors_le env c h
  · split
    · exact h
    · split
      · exact Nat.zero_le _
      · exact updatePoll_errors_le env c h

theorem applyAction_errors_le (c : C1001Component) (a : Action)
    (h : c.consecutive_errors_ ≤ 19) : (applyAction c a).consecutive_errors_ ≤ 19 := by
  cases a with
  | update env => exact update_errors_le env c h
  | on_uart_error =>
    show (on_uart_error c).1.consecutive_errors_ ≤ 19
    rw [on_uart_error_errors c h]
    split <;> omega
  | reset_initialization => exact Nat.zero_le _

theorem foldl_applyAction_errors_le (actions : List Action) (c : C1001Component)
    (h : c.consecutive_errors_ ≤ 19) :
    (actions.foldl applyAction c).consecutive_errors_ ≤ 19 := by
  induction actions generalizing c with
  | nil => exact h
  | cons a rest ih => exact ih (applyAction c a) (applyAction_errors_le c a h)

theorem reached_errors_le (now : Nat) (actions : List Action) :
    (reached now actions).consecutive_errors_ ≤ 19 := by
  unfold reached
  apply foldl_applyAction_errors_le
  exact Nat.zero_le _

theorem uart_errors_replicate (k : Nat) :
    ∀ c : C1001Component, c.consecutive_errors_ + k ≤ 19 →
      ((List.replicate k Action.on_uart_error).foldl applyAction c).consecutive_errors_
        = c.consecutive_errors_ + k := by
  induction k with
  | zero => intro c _; rfl
  | succ k ih =>
    intro c h
    rw [List.replicate_succ, List.foldl_cons]
    have h1 : (applyAction c Action.on_uart_error).consecutive_errors_
        = c.consecutive_errors_ + 1 := by
      show (on_uart_error c).1.consecutive_errors_ = c.consecutive_errors_ + 1
      rw [on_uart_error_errors c (by omega), if_neg (by omega)]
    rw [ih _ (by omega), h1]
    omega

/-! ## Lemmas on the scheduler statics during initialization -/

theorem updateInit_statics (env : TickEnv) (c : C1001Component) :
    (updateInit env c).1.vital_count = c.vital_count
    ∧ (updateInit env c).1.read_step = c.read_step := by
  unfold updateInit
  dsimp only
  repeat' split
  all_goals exact ⟨rfl, rfl⟩

theorem update_init_statics (env : TickEnv) (c : C1001Component)
    (h : c.init_state_ ≠ INIT_COMPLETE) :
    (update env c).1.vital_count = c.vital_count
    ∧ (update env c).1.read_step = c.read_step := by
  unfold update
  rw [if_pos h]
  exact updateInit_statics env c

theorem run_init_statics (envs : List TickEnv) :
    ∀ c : C1001Component,
      (∀ k, k < envs.length → (run (envs.take k) c).init_state_ ≠ INIT_COMPLETE) →
      (run envs c).vital_count = c.vital_count ∧ (run envs c).read_step = c.read_step := by
  induction envs with
  | nil => intro c _; exact ⟨rfl, rfl⟩
  | cons env rest ih =>
    intro c h
    have h0 : c.init_state_ ≠ INIT_COMPLETE := h 0 (Nat.succ_pos _)
    obtain ⟨hv, hr⟩ := update_init_statics env c h0
    rw [run_cons]
    obtain ⟨hv2, hr2⟩ := ih (update env c).1 (by
      intro k hk
      have := h (k + 1) (Nat.succ_lt_succ hk)
      rw [List.take_succ_cons, run_cons] at this
      exact this)
    exact ⟨hv2.trans hv, hr2.trans hr⟩

theorem run_flag (envs : List TickEnv) :
    ∀ c : C1001Component,
      (c.sensor_initialized_ = true ↔ c.init_state_ = INIT_COMPLETE) →
      ((run envs c).sensor_initialized_ = true ↔ (run envs c).init_state_ = INIT_COMPLETE) := by
  induction envs with
  | nil => intro c h; exact h
  | cons env rest ih =>
    intro c h
    rw [run_cons]
    exact ih _ (update_flag env c h)

/-! ## Lemmas on the log strings -/

theorem hex_length (b : Nat) : (hex b).length = 3 := rfl

theorem foldl_hex_length (f : Nat → Nat) (l : List Nat) :
    ∀ s : List Char, (l.foldl (fun s i => s ++ hex (f i)) s).length = s.length + 3 * l.length := by
  induction l with
  | nil => intro s; rfl
  | cons a rest ih =>
    intro s
    rw [List.foldl_cons, ih, List.length_append, hex_length, List.length_cons]
    omega

theorem debug_str_length (con cmd data_len : Nat) (data : Option (List Nat)) :
    (debug_str con cmd data_len data).length = 9 + 3 * cmd_len data_len := by
  unfold debug_str
  rw [foldl_hex_length (fun i => (cmd_buffer con cmd data_len data).getD i 0), List.length_range]
  rfl

theorem resp_str_length (st : RecvState) : (resp_str st).length = 10 + 3 * st.recv_pos := by
  unfold resp_str
  rw [foldl_hex_length (fun i => st.recv_buffer.getD i 0), List.length_range]
  rfl

theorem resp_str_timeout_length (st : RecvState) :
    (resp_str_timeout st).length = 18 + 3 * st.recv_pos := by
  unfold resp_str_timeout
  rw [foldl_hex_length (fun i => st.recv_buffer.getD i 0), List.length_range]
  rfl

/-- The "Sending" string fits `debug_str[64]` exactly for payload lengths up to 9. -/
theorem debug_str_fits_iff (con cmd n : Nat) (data : Option (List Nat)) (hn : n ≤ 11) :
    debug_str_fits con cmd n data = true ↔ n ≤ 9 := by
  unfold debug_str_fits
  rw [decide_eq_true_iff, debug_str_length]
  unfold cmd_len
  omega

theorem debug_str_needs (con cmd n : Nat) (data : Option (List Nat)) (hn : n ≤ 11) :
    (debug_str con cmd n data).length + 1 = 37 + 3 * n := by
  rw [debug_str_length]
  unfold cmd_len
  omega

/-- On a stream of at most 63 bytes that the receive loop accepts, the
"Received" string fits `resp_str[128]` exactly when at most 39 bytes were
captured. -/
theorem resp_str_fits_accept (rx cap : List Nat) (hlen : rx.length ≤ 63)
    (h : receive rx = some cap) : resp_str_fits rx = true ↔ cap.length ≤ 39 := by
  unfold receive at h
  cases hr : recvLoop recvInit rx with
  | none => rw [hr] at h; exact absurd h (by simp)
  | some st =>
    rw [hr] at h
    have hcap : captured st = cap := by simpa using h
    obtain ⟨k, _, hT, _, _⟩ := recvLoop_spec rx st hlen hr
    have hc2 := captured_of_tracks st _ hT
    have hpos : st.recv_pos = cap.length := by rw [hT.1, ← hcap, hc2]
    unfold resp_str_fits
    rw [hr]
    simp only [decide_eq_true_iff, resp_str_length, hpos]
    omega

/-- On a stream of at most 63 bytes on which the receive loop times out, the
"Partial response" string fits `resp_str[128]` exactly when at most 36 bytes
arrived. -/
theorem resp_str_fits_timeout (rx : List Nat) (hlen : rx.length ≤ 63)
    (h : receive rx = none) : resp_str_fits rx = true ↔ rx.length ≤ 36 := by
  unfold receive at h
  cases hr : recvLoop recvInit rx with
  | some st => rw [hr] at h; exact absurd h (by simp)
  | none =>
    have hT := tracks_recvAfter rx hlen
    have hpos : (rx.foldl recvStep recvInit).recv_pos = rx.length := hT.1
    unfold resp_str_fits
    rw [hr]
    simp only [hpos, resp_str_timeout_length]
    by_cases h0 : rx.length > 0
    · rw [if_pos h0, decide_eq_true_iff]
      omega
    · rw [if_neg h0]
      simp only [true_iff]
      omega

/-- Every stream of at most 36 bytes leaves `resp_str[128]` within bounds. -/
theorem resp_str_fits_short (rx : List Nat) (hlen : rx.length ≤ 36) :
    resp_str_fits rx = true := by
  cases hr : receive rx with
  | none => exact (resp_str_fits_timeout rx (by omega) hr).mpr hlen
  | some cap =>
    obtain ⟨k, hk, hk2, _, _⟩ := receive_spec rx cap (by omega) hr
    refine (resp_str_fits_accept rx cap (by omega) hr).mpr ?_
    rw [hk2, List.length_take]
    omega

theorem send_command_strings_fit (con cmd n : Nat) (d rb : Option (List Nat)) (rx : List Nat) :
    (send_command con cmd n d rb rx).strings_fit
      = (debug_str_fits con cmd n d && resp_str_fits rx) := by
  unfold send_command
  dsimp only
  split <;> rfl

/-! ## The claims -/

/-- C1, as stated, fails: for control 0x01, command 0x83 and the payload
0x54 0x43 0x07 the receive side fed the 12 bytes of the frame stops at the pair
0x54 0x43 inside the payload and captures 8 bytes only; the third payload byte
(offset 8) never reaches the response buffer. -/
theorem C1_round_trip_counterexample :
    receive (encode 0x01 0x83 [0x54, 0x43, 0x07]) ≠ some (encode 0x01 0x83 [0x54, 0x43, 0x07])
    ∧ receive (encode 0x01 0x83 [0x54, 0x43, 0x07])
        = some [0x53, 0x59, 0x01, 0x83, 0x00, 0x03, 0x54, 0x43]
    ∧ (responseOf (send_command 0x01 0x83 3 (some [0x54, 0x43, 0x07]) (some response0)
          (encode 0x01 0x83 [0x54, 0x43, 0x07]))).getD 8 0 ≠ 0x07 := by
  decide

/-- C1, amended: for every control byte, command byte and payload of length
n ≤ 9 (the payloads for which the log string of the frame fits
`debug_str[64]`), when the transport delivers exactly the bytes of the frame
built for them, the call stays within its log buffers, the receive side
reports success, and the captured response is the whole 9+n byte frame exactly
when the frame holds no adjacent pair 0x54 0x43 before its last byte; the
frame has control at offset 2, command at offset 3 and the payload at offsets
6 .. 6+n-1. -/
theorem C1_round_trip (con cmd : Nat) (payload : List Nat) (hn : payload.length ≤ 9) :
    (send_command con cmd payload.length (some payload) (some response0)
        (encode con cmd payload)).strings_fit = true
    ∧ (send_command con cmd payload.length (some payload) (some response0)
        (encode con cmd payload)).ok = true
    ∧ (receive (encode con cmd payload) = some (encode con cmd payload)
        ↔ ¬ [0x54, 0x43] <:+: (encode con cmd payload).dropLast)
    ∧ (encode con cmd payload).length = 9 + payload.length
    ∧ (encode con cmd payload).getD 2 0 = con
    ∧ (encode con cmd payload).getD 3 0 = cmd
    ∧ ((encode con cmd payload).drop 6).take payload.length = payload := by
  have hn11 : payload.length ≤ 11 := by omega
  have hfit : (send_command con cmd payload.length (some payload) (some response0)
      (encode con cmd payload)).strings_fit = true := by
    rw [send_command_strings_fit, Bool.and_eq_true]
    refine ⟨(debug_str_fits_iff con cmd _ _ hn11).mpr hn, resp_str_fits_short _ ?_⟩
    rw [encode_eq con cmd payload hn11, frameOf_length]
    omega
  refine ⟨hfit, ?_⟩
  rw [encode_eq con cmd payload hn11]
  have hlen : (frameOf con cmd payload).length ≤ 63 := by
    rw [frameOf_length]
    omega
  have hc := frameOf_complete con cmd payload
  refine ⟨?_, ?_, frameOf_length con cmd payload, ?_, ?_, ?_⟩
  · rw [send_command_ok]
    obtain ⟨cap, hcap⟩ := receive_isSome_of_complete _ hlen hc
    rw [hcap]
    rfl
  · rw [receive_whole_iff _ hlen hc, not_complete_iff_no_pair]
  · simp [frameOf]
  · simp [frameOf]
  · simp [frameOf]

/-- Witness of C1 at control 0x01, command 0x83, payload 0x0F. -/
theorem C1_round_trip_witness :
    [0x0F].length ≤ 9
    ∧ ((send_command 0x01 0x83 [0x0F].length (some [0x0F]) (some response0)
          (encode 0x01 0x83 [0x0F])).strings_fit = true
      ∧ (send_command 0x01 0x83 [0x0F].length (some [0x0F]) (some response0)
          (encode 0x01 0x83 [0x0F])).ok = true
      ∧ (receive (encode 0x01 0x83 [0x0F]) = some (encode 0x01 0x83 [0x0F])
          ↔ ¬ [0x54, 0x43] <:+: (encode 0x01 0x83 [0x0F]).dropLast)
      ∧ (encode 0x01 0x83 [0x0F]).length = 9 + [0x0F].length
      ∧ (encode 0x01 0x83 [0x0F]).getD 2 0 = 0x01
      ∧ (encode 0x01 0x83 [0x0F]).getD 3 0 = 0x83
      ∧ ((encode 0x01 0x83 [0x0F]).drop 6).take [0x0F].length = [0x0F]) :=
  ⟨by decide, C1_round_trip 0x01 0x83 [0x0F] (by decide)⟩

/-- C2, as stated, fails: in the frame for control 0x01, command 0x83, payload
0x0F, flipping bit 0 of the control byte (offset 2) gives bytes whose checksum
no longer matches, and the receive side fed them still reports success. -/
theorem C2_checksum_sensitivity_counterexample :
    corrupt (encode 0x01 0x83 [0x0F]) 2 0
        = [0x53, 0x59, 0x00, 0x83, 0x00, 0x01, 0x0F, 0x40, 0x54, 0x43]
    ∧ calculate_checksum 7 (corrupt (encode 0x01 0x83 [0x0F]) 2 0) ≠ 0x40
    ∧ (send_command 0x01 0x83 1 (some [0x0F]) (some response0)
          (corrupt (encode 0x01 0x83 [0x0F]) 2 0)).ok = true := by
  decide

/-- C2, amended: for every frame `send_command` can build within its log
buffer (payload length n ≤ 9) and every single-bit flip applied to a byte of
it other than the two start-marker and two end-marker bytes, the receive side
fed the corrupted bytes stays within its log buffer and still reports success:
the scan looks only for a byte 0x53 and the pair 0x54 0x43 and never checks
the checksum. -/
theorem C2_bit_flip_accepted (con cmd : Nat) (payload : List Nat) (i k : Nat)
    (rb : Option (List Nat)) (hn : payload.length ≤ 9) (hi : 2 ≤ i)
    (hi2 : i < 7 + payload.length) (_hk : k < 8) :
    (send_command con cmd payload.length (some payload) rb
        (corrupt (encode con cmd payload) i k)).strings_fit = true
    ∧ (send_command con cmd payload.length (some payload) rb
        (corrupt (encode con cmd payload) i k)).ok = true := by
  have hn11 : payload.length ≤ 11 := by omega
  have hlen18 : (corrupt (frameOf con cmd payload) i k).length = 9 + payload.length := by
    unfold corrupt
    rw [List.length_set, frameOf_length]
  constructor
  · rw [send_command_strings_fit, Bool.and_eq_true]
    refine ⟨(debug_str_fits_iff con cmd _ _ hn11).mpr hn, resp_str_fits_short _ ?_⟩
    rw [encode_eq con cmd payload hn11, hlen18]
    omega
  · rw [encode_eq con cmd payload hn11, send_command_ok]
    obtain ⟨cap, hcap⟩ :=
      receive_isSome_of_complete _ (by omega) (corrupt_complete con cmd payload i k hi hi2)
    rw [hcap]
    rfl

/-- Witness of C2 at control 0x01, command 0x83, payload 0x0F, bit 7 of the
checksum byte (offset 7). -/
theorem C2_bit_flip_accepted_witness :
    [0x0F].length ≤ 9 ∧ 2 ≤ 7 ∧ 7 < 7 + [0x0F].length ∧ 7 < 8
    ∧ (send_command 0x01 0x83 [0x0F].length (some [0x0F]) (some response0)
        (corrupt (encode 0x01 0x83 [0x0F]) 7 7)).strings_fit = true
    ∧ (send_command 0x01 0x83 [0x0F].length (some [0x0F]) (some response0)
        (corrupt (encode 0x01 0x83 [0x0F]) 7 7)).ok = true :=
  ⟨by decide, by decide, by decide, by decide,
   C2_bit_flip_accepted 0x01 0x83 [0x0F] 7 7 (some response0) (by decide) (by decide)
     (by decide) (by decide)⟩

/-- C4 for payload lengths up to 9, and its failure at 10 and 11. For every
control byte, command byte and payload length n ≤ 9 the log string of the
frame fits `debug_str[64]` and the bytes `send_command` writes are exactly 9+n
bytes: 0x53, 0x59, control, command, the high byte of n, the low byte of n,
then the n payload bytes in order (the caller's data when supplied, n copies
of 0x0F when no data is supplied), then one checksum byte, then 0x54, 0x43.
For n = 10 and n = 11, which `cmd_buffer[20]` holds, the log string built
before the write needs 67 and 70 bytes of the 64-byte `debug_str`. -/
theorem C4_frame_layout (con cmd n : Nat) (data : List Nat) (hlen : data.length = n)
    (hn : n ≤ 9) (rb : Option (List Nat)) (rx : List Nat) :
    debug_str_fits con cmd n (some data) = true
    ∧ debug_str_fits con cmd n none = true
    ∧ (∃ ck, ck < 256
      ∧ (send_command con cmd n (some data) rb rx).written
          = [0x53, 0x59, con, cmd, n / 256 % 256, n % 256] ++ data ++ [ck, 0x54, 0x43])
    ∧ ((send_command con cmd n (some data) rb rx).written).length = 9 + n
    ∧ (∃ ck, ck < 256
      ∧ (send_command con cmd n none rb rx).written
          = [0x53, 0x59, con, cmd, n / 256 % 256, n % 256] ++ List.replicate n 0x0F
              ++ [ck, 0x54, 0x43])
    ∧ ((send_command con cmd n none rb rx).written).length = 9 + n
    ∧ (∀ d : Option (List Nat), (debug_str con cmd 10 d).length + 1 = 67
        ∧ debug_str_fits con cmd 10 d = false)
    ∧ (∀ d : Option (List Nat), (debug_str con cmd 11 d).length + 1 = 70
        ∧ debug_str_fits con cmd 11 d = false) := by
  have hn11 : n ≤ 11 := by omega
  refine ⟨(debug_str_fits_iff con cmd n _ hn11).mpr hn,
    (debug_str_fits_iff con cmd n _ hn11).mpr hn, ?_⟩
  subst hlen
  have hhi : data.length / 256 % 256 = 0 := by omega
  have hlo : data.length % 256 = data.length := by omega
  rw [send_command_written, send_command_written, sentFrame_some con cmd data hn11,
    sentFrame_none con cmd data.length hn11, hhi, hlo]
  refine ⟨⟨(0x53 + 0x59 + con + cmd + 0 + data.length + data.sum) % 256,
      Nat.mod_lt _ (by decide), rfl⟩, frameOf_length _ _ _,
    ⟨(0x53 + 0x59 + con + cmd + 0 + (List.replicate data.length 0x0F).length
        + (List.replicate data.length 0x0F).sum) % 256, Nat.mod_lt _ (by decide), ?_⟩, ?_, ?_, ?_⟩
  · simp [frameOf]
  · rw [frameOf_length]
    simp
  · intro d
    refine ⟨debug_str_needs con cmd 10 d (by decide), Bool.eq_false_iff.mpr ?_⟩
    intro h
    exact absurd ((debug_str_fits_iff con cmd 10 d (by decide)).mp h) (by decide)
  · intro d
    refine ⟨debug_str_needs con cmd 11 d (by decide), Bool.eq_false_iff.mpr ?_⟩
    intro h
    exact absurd ((debug_str_fits_iff con cmd 11 d (by decide)).mp h) (by decide)

/-- Witness of C4 at control 0x01, command 0x83, n = 1, data 0x0F. -/
theorem C4_frame_layout_witness :
    [0x0F].length = 1 ∧ 1 ≤ 9
    ∧ (∃ ck, ck < 256
        ∧ (send_command 0x01 0x83 1 (some [0x0F]) none []).written
            = [0x53, 0x59, 0x01, 0x83, 1 / 256 % 256, 1 % 256] ++ [0x0F] ++ [ck, 0x54, 0x43])
    ∧ ((send_command 0x01 0x83 1 (some [0x0F]) none []).written).length = 9 + 1
    ∧ debug_str_fits 0x01 0x83 10 none = false :=
  ⟨by decide, by decide,
   (C4_frame_layout 0x01 0x83 1 [0x0F] (by decide) (by decide) none []).2.2.1,
   (C4_frame_layout 0x01 0x83 1 [0x0F] (by decide) (by decide) none []).2.2.2.1,
   ((C4_frame_layout 0x01 0x83 1 [0x0F] (by decide) (by decide) none []).2.2.2.2.2.2.1
      none).2⟩

/-- C5, as stated, fails: in the frame for control 0x01, command 0x83, payload
0x0F the checksum byte (offset 7) is 0x40, while the low 8 bits of the sum of
control, command, the two length bytes and the payload are 0x94. -/
theorem C5_checksum_counterexample :
    (encode 0x01 0x83 [0x0F]).getD 7 0 = 0x40
    ∧ (0x01 + 0x83 + (encode 0x01 0x83 [0x0F]).getD 4 0 + (encode 0x01 0x83 [0x0F]).getD 5 0
        + [0x0F].sum) % 256 = 0x94
    ∧ (encode 0x01 0x83 [0x0F]).getD 7 0
        ≠ (0x01 + 0x83 + (encode 0x01 0x83 [0x0F]).getD 4 0 + (encode 0x01 0x83 [0x0F]).getD 5 0
            + [0x0F].sum) % 256 := by
  decide

/-- C5, amended: for every frame `send_command` builds within its log buffer
(payload length n ≤ 9), the checksum byte at offset 6+n equals the low 8 bits
of the sum of all the bytes preceding it, the two start-marker bytes 0x53 and
0x59 included: start marker, control, command, the two length bytes and the
payload. -/
theorem C5_checksum_with_markers (con cmd : Nat) (payload : List Nat)
    (hn : payload.length ≤ 9) :
    debug_str_fits con cmd payload.length (some payload) = true
    ∧ (encode con cmd payload).getD (6 + payload.length) 0
      = (0x53 + 0x59 + con + cmd + (encode con cmd payload).getD 4 0
          + (encode con cmd payload).getD 5 0 + payload.sum) % 256
    ∧ (encode con cmd payload).getD (6 + payload.length) 0
      = ((encode con cmd payload).take (6 + payload.length)).sum % 256 := by
  have hn11 : payload.length ≤ 11 := by omega
  refine ⟨(debug_str_fits_iff con cmd _ _ hn11).mpr hn, ?_⟩
  rw [encode_eq con cmd payload hn11]
  have h6 : (frameOf con cmd payload).getD (6 + payload.length) 0
      = (0x53 + 0x59 + con + cmd + 0 + payload.length + payload.sum) % 256 := by
    unfold frameOf
    rw [List.getD_eq_getElem?_getD, List.getElem?_append_right (by simp; omega)]
    have h0 : 6 + payload.length
        - ([0x53, 0x59, con, cmd, 0, payload.length] ++ payload).length = 0 := by
      simp
      omega
    rw [h0]
    rfl
  have ht : (frameOf con cmd payload).take (6 + payload.length)
      = [0x53, 0x59, con, cmd, 0, payload.length] ++ payload := by
    unfold frameOf
    rw [List.take_append_of_le_length (by simp; omega), List.take_of_length_le (by simp; omega)]
  refine ⟨?_, ?_⟩
  · rw [h6]
    simp [frameOf]
  · rw [h6, ht]
    simp
    omega

/-- Witness of C5 at control 0x01, command 0x83, payload 0x0F. -/
theorem C5_checksum_with_markers_witness :
    [0x0F].length ≤ 9
    ∧ (debug_str_fits 0x01 0x83 [0x0F].length (some [0x0F]) = true
      ∧ (encode 0x01 0x83 [0x0F]).getD (6 + [0x0F].length) 0
        = (0x53 + 0x59 + 0x01 + 0x83 + (encode 0x01 0x83 [0x0F]).getD 4 0
            + (encode 0x01 0x83 [0x0F]).getD 5 0 + [0x0F].sum) % 256
      ∧ (encode 0x01 0x83 [0x0F]).getD (6 + [0x0F].length) 0
        = ((encode 0x01 0x83 [0x0F]).take (6 + [0x0F].length)).sum % 256) :=
  ⟨by decide, C5_checksum_with_markers 0x01 0x83 [0x0F] (by decide)⟩

/-- C6 at the scheduler state `vital_count = 0`, `read_step = 2`, which is the
state after 6 scheduler ticks: in three consecutive successful ticks the
driver stays initialized and queries respiration, heart rate and heart rate
again, so all three metrics queried are vital signs and none is a non-vital
round-robin metric. -/
theorem C6_three_vital_queries :
    schedAfter 6 = (polling2.vital_count, polling2.read_step)
    ∧ queried (update (replyEnv 1000 0x81 0x82 16) polling2).2
        = [(REG_BREATH, CMD_GET_BREATHING)]
    ∧ queried (update (replyEnv 2000 0x85 0x82 70)
          (update (replyEnv 1000 0x81 0x82 16) polling2).1).2
        = [(REG_HEART, CMD_GET_HEART_RATE)]
    ∧ queried (update (replyEnv 3000 0x85 0x82 70)
          (update (replyEnv 2000 0x85 0x82 70)
            (update (replyEnv 1000 0x81 0x82 16) polling2).1).1).2
        = [(REG_HEART, CMD_GET_HEART_RATE)]
    ∧ (queried (runTrace [replyEnv 1000 0x81 0x82 16, replyEnv 2000 0x85 0x82 70,
          replyEnv 3000 0x85 0x82 70] polling2)).all isVitalQuery = true
    ∧ allOk (runTrace [replyEnv 1000 0x81 0x82 16, replyEnv 2000 0x85 0x82 70,
          replyEnv 3000 0x85 0x82 70] polling2) = true
    ∧ (run [replyEnv 1000 0x81 0x82 16, replyEnv 2000 0x85 0x82 70, replyEnv 3000 0x85 0x82 70]
          polling2).init_state_ = INIT_COMPLETE
    ∧ (run [replyEnv 1000 0x81 0x82 16, replyEnv 2000 0x85 0x82 70, replyEnv 3000 0x85 0x82 70]
          polling2).consecutive_errors_ = 0 := by
  decide

/-- C7: starting from `vital_count = 0` and `read_step = 0`, for every k the
(3k+1)-th scheduler tick selects respiration (step 2), the (3k+2)-th heart
rate (step 3), and the (3k+3)-th takes the round-robin branch with index
i = k mod 14 and selects slot g(i), with g(2) = 3, g(3) = 4 and g(i) = i
otherwise; after that tick `vital_count` is 0 and `read_step` is (i+1) mod 14;
the selection sequence has period 42. A tick of `update` on an initialized,
non-stale driver whose statics are those after m scheduler ticks sends exactly
the query of the step selected for tick m+1 and leaves the statics of m+1
ticks. -/
theorem C7_schedule_closed_form (k : Nat) :
    stepAt (3 * k) = 2
    ∧ stepAt (3 * k + 1) = 3
    ∧ (schedAfter (3 * k + 2)).1 = 2
    ∧ (schedAfter (3 * k + 2)).2 = k % 14
    ∧ stepAt (3 * k + 2) = g (k % 14)
    ∧ schedAfter (3 * k + 3) = (0, (k % 14 + 1) % 14)
    ∧ g 2 = 3 ∧ g 3 = 4 ∧ (∀ i, i ≠ 2 → i ≠ 3 → g i = i)
    ∧ (∀ m, stepAt (m + 42) = stepAt m)
    ∧ (∀ m, schedAfter (m + 42) = schedAfter m)
    ∧ stepQuery 2 = (REG_BREATH, CMD_GET_BREATHING)
    ∧ stepQuery 3 = (REG_HEART, CMD_GET_HEART_RATE)
    ∧ (∀ (m : Nat) (env : TickEnv) (c : C1001Component),
        c.init_state_ = INIT_COMPLETE → c.sensor_initialized_ = true →
        sub32 env.now c.last_successful_read_ ≤ SENSOR_TIMEOUT_MS →
        (c.vital_count, c.read_step) = schedAfter m →
        queried (update env c).2 = [stepQuery (stepAt m)]
        ∧ ((update env c).1.vital_count, (update env c).1.read_step) = schedAfter (m + 1)) := by
  have e0 : (3 * k) % 3 = 0 := by omega
  have e1 : (3 * k + 1) % 3 = 1 := by omega
  have e2 : (3 * k + 2) % 3 = 2 := by omega
  have d2 : (3 * k + 2) / 3 = k := by omega
  have d3 : (3 * k + 3) / 3 = k + 1 := by omega
  have e3 : (3 * k + 3) % 3 = 0 := by omega
  refine ⟨?_, ?_, ?_, ?_, ?_, ?_, by decide, by decide, ?_, ?_, ?_, rfl, rfl, ?_⟩
  · rw [stepAt_eq, e0]; rfl
  · rw [stepAt_eq, e1]; rfl
  · rw [schedAfter_eq, e2]
  · rw [schedAfter_eq, d2]
  · rw [stepAt_eq, e2, d2]; rfl
  · rw [schedAfter_eq, e3, d3]
    refine Prod.ext rfl ?_
    simp
  · intro i h2 h3
    simp [g, h2, h3]
  · intro m
    have a : (m + 42) % 3 = m % 3 := by omega
    have b : ((m + 42) / 3) % 14 = (m / 3) % 14 := by omega
    rw [stepAt_eq, stepAt_eq, a, b]
  · intro m
    have a : (m + 42) % 3 = m % 3 := by omega
    have b : ((m + 42) / 3) % 14 = (m / 3) % 14 := by omega
    rw [schedAfter_eq, schedAfter_eq, a, b]
  · intro m env c hi hs ht hst
    have hv : c.vital_count = (schedAfter m).1 := congrArg Prod.fst hst
    have hrs : c.read_step = (schedAfter m).2 := congrArg Prod.snd hst
    have hr : c.read_step < 14 := by
      rw [hrs, schedAfter_eq]
      exact Nat.mod_lt _ (by decide)
    obtain ⟨hq, h1, h2⟩ := update_scheduler_tick env c hi hs ht hr
    rw [hq, h1, h2, hv, hrs]
    exact ⟨rfl, rfl⟩

/-- C8: starting from phase CREATED, if every transaction succeeds, successive
ticks leave the phase at PROBED (INIT_BEGIN_DONE), LOW_POWER_SET
(INIT_SLEEP_MODE_DONE), INDICATOR_SET (INIT_LED_DONE) and COMPLETE, one phase
per tick: COMPLETE is reached after exactly 4 ticks and not earlier, and in
those 4 ticks no metric register is queried and nothing is published. -/
theorem C8_initialization_order (c : C1001Component) (e1 e2 e3 e4 : TickEnv)
    (hc : c.init_state_ = INIT_CREATED) (hok : allOk (runTrace [e1, e2, e3, e4] c) = true) :
    (run [e1] c).init_state_ = INIT_BEGIN_DONE
    ∧ (run [e1, e2] c).init_state_ = INIT_SLEEP_MODE_DONE
    ∧ (run [e1, e2, e3] c).init_state_ = INIT_LED_DONE
    ∧ (run [e1, e2, e3, e4] c).init_state_ = INIT_COMPLETE
    ∧ (run [] c).init_state_ ≠ INIT_COMPLETE
    ∧ (run [e1] c).init_state_ ≠ INIT_COMPLETE
    ∧ (run [e1, e2] c).init_state_ ≠ INIT_COMPLETE
    ∧ (run [e1, e2, e3] c).init_state_ ≠ INIT_COMPLETE
    ∧ (∀ q ∈ queried (runTrace [e1, e2, e3, e4] c), isMetricQuery q = false)
    ∧ (∀ e ∈ runTrace [e1, e2, e3, e4] c, isPublish e = false) := by
  simp only [runTrace, allOk_append, Bool.and_eq_true, List.append_nil] at hok
  obtain ⟨hok1, hok2, hok3, hok4⟩ := hok
  simp only [run, List.foldl_cons, List.foldl_nil]
  obtain ⟨s1, q1, p1⟩ := init_tick_ok e1 c (Or.inl hc) hok1
  rw [hc] at s1 q1
  have s1b : (update e1 c).1.init_state_ = INIT_BEGIN_DONE := by rw [s1]; rfl
  obtain ⟨s2, q2, p2⟩ := init_tick_ok e2 _ (Or.inr (Or.inl s1b)) hok2
  rw [s1b] at s2 q2
  have s2b : (update e2 (update e1 c).1).1.init_state_ = INIT_SLEEP_MODE_DONE := by rw [s2]; rfl
  obtain ⟨s3, q3, p3⟩ := init_tick_ok e3 _ (Or.inr (Or.inr (Or.inl s2b))) hok3
  rw [s2b] at s3 q3
  have s3b : (update e3 (update e2 (update e1 c).1).1).1.init_state_ = INIT_LED_DONE := by
    rw [s3]; rfl
  obtain ⟨s4, q4, p4⟩ := init_tick_ok e4 _ (Or.inr (Or.inr (Or.inr s3b))) hok4
  rw [s3b] at s4 q4
  have s4b : (update e4 (update e3 (update e2 (update e1 c).1).1).1).1.init_state_
      = INIT_COMPLETE := by rw [s4]; rfl
  refine ⟨s1b, s2b, s3b, s4b, ?_, ?_, ?_, ?_, ?_, ?_⟩
  · rw [hc]; decide
  · rw [s1b]; decide
  · rw [s2b]; decide
  · rw [s3b]; decide
  · intro q hq
    simp only [runTrace, queried_append, List.append_nil, List.mem_append, queried_nil] at hq
    rcases hq with hq | hq | hq | hq
    · rw [q1 q hq]; exact phaseCommand_not_metric _
    · rw [q2 q hq]; exact phaseCommand_not_metric _
    · rw [q3 q hq]; exact phaseCommand_not_metric _
    · rw [q4 q hq]; exact phaseCommand_not_metric _
  · intro e he
    simp only [runTrace, List.append_nil, List.mem_append] at he
    rcases he with he | he | he | he
    · exact p1 e he
    · exact p2 e he
    · exact p3 e he
    · exact p4 e he

/-- Witness of C8: from the fresh driver in phase CREATED, four ticks in which
the device answers every command with a well-formed frame (the work-mode
query with mode 0x02). -/
theorem C8_initialization_order_witness :
    created.init_state_ = INIT_CREATED
    ∧ allOk (runTrace [replyEnv 100 0x01 0x83 0x01, replyEnv 200 0x02 0xA8 0x02,
        replyEnv 300 0x01 0x03 0x01, replyEnv 400 0x01 0x02 0x0F] created) = true
    ∧ (run [replyEnv 100 0x01 0x83 0x01, replyEnv 200 0x02 0xA8 0x02,
        replyEnv 300 0x01 0x03 0x01, replyEnv 400 0x01 0x02 0x0F] created).init_state_
        = INIT_COMPLETE :=
  ⟨by decide, by decide,
   (C8_initialization_order created (replyEnv 100 0x01 0x83 0x01) (replyEnv 200 0x02 0xA8 0x02)
      (replyEnv 300 0x01 0x03 0x01) (replyEnv 400 0x01 0x02 0x0F) (by decide)
      (by decide)).2.2.2.1⟩

/-- C9: for each of the four initialization phases and every tick in which a
transaction issued by that phase fails, `init_state_`, `sensor_initialized_`,
`consecutive_errors_` and `last_successful_read_` have the same values after
the tick as before it, nothing is published, and every command sent in that
tick is the command of the current phase, which no other phase issues. -/
theorem C9_failed_init_tick_atomic (env : TickEnv) (c : C1001Component)
    (hphase : c.init_state_ = INIT_CREATED ∨ c.init_state_ = INIT_BEGIN_DONE
      ∨ c.init_state_ = INIT_SLEEP_MODE_DONE ∨ c.init_state_ = INIT_LED_DONE)
    (hfail : someFailed (update env c).2 = true) :
    (update env c).1.init_state_ = c.init_state_
    ∧ (update env c).1.sensor_initialized_ = c.sensor_initialized_
    ∧ (update env c).1.consecutive_errors_ = c.consecutive_errors_
    ∧ (update env c).1.last_successful_read_ = c.last_successful_read_
    ∧ (∀ q ∈ queried (update env c).2, q = phaseCommand c.init_state_)
    ∧ (∀ p, (p = INIT_CREATED ∨ p = INIT_BEGIN_DONE ∨ p = INIT_SLEEP_MODE_DONE ∨ p = INIT_LED_DONE)
        → p ≠ c.init_state_ → phaseCommand p ≠ phaseCommand c.init_state_)
    ∧ (∀ e ∈ (update env c).2, isPublish e = false) := by
  have hdistinct : ∀ p, (p = INIT_CREATED ∨ p = INIT_BEGIN_DONE ∨ p = INIT_SLEEP_MODE_DONE
      ∨ p = INIT_LED_DONE) → p ≠ c.init_state_ → phaseCommand p ≠ phaseCommand c.init_state_ := by
    intro p hp hne
    rcases hp with hp | hp | hp | hp <;> rcases hphase with h | h | h | h <;>
      first
      | (exfalso; apply hne; rw [hp, h]; done)
      | (rw [hp, h]; decide)
  have hmain : (update env c).1.init_state_ = c.init_state_
      ∧ (update env c).1.sensor_initialized_ = c.sensor_initialized_
      ∧ (update env c).1.consecutive_errors_ = c.consecutive_errors_
      ∧ (update env c).1.last_successful_read_ = c.last_successful_read_
      ∧ (∀ q ∈ queried (update env c).2, q = phaseCommand c.init_state_)
      ∧ (∀ e ∈ (update env c).2, isPublish e = false) := by
    rcases hphase with h | h | h | h
    · rw [update_created env c h] at hfail ⊢
      split at hfail
      · simp [someFailed] at hfail
      · rw [if_neg (by assumption)]
        simp [h, queried_transaction, queried_log, queried_nil, encode_control_get,
          encode_command_get, phaseCommand, isPublish]
    · rw [update_begin_done env c h] at hfail ⊢
      split at hfail
      · rw [if_pos (by assumption)]
        split at hfail
        · rw [if_pos (by assumption)]
          split at hfail
          · simp [someFailed] at hfail
          · rw [if_neg (by assumption)]
            simp [h, queried_transaction, queried_log, queried_nil, encode_control_get,
              encode_command_get, phaseCommand, isPublish, INIT_CREATED, INIT_BEGIN_DONE,
              CMD_GET_WORK_MODE, CMD_SET_WORK_MODE]
        · simp [someFailed] at hfail
      · rw [if_neg (by assumption)]
        simp [h, queried_transaction, queried_log, queried_nil, encode_control_get,
          encode_command_get, phaseCommand, isPublish, INIT_CREATED, INIT_BEGIN_DONE]
    · rw [update_sleep_mode_done env c h] at hfail ⊢
      split at hfail
      · simp [someFailed] at hfail
      · rw [if_neg (by assumption)]
        simp [h, queried_transaction, queried_log, queried_nil, encode_control_get,
          encode_command_get, phaseCommand, isPublish, INIT_CREATED, INIT_BEGIN_DONE,
          INIT_SLEEP_MODE_DONE]
    · rw [update_led_done env c h] at hfail ⊢
      split at hfail
      · simp [someFailed] at hfail
      · rw [if_neg (by assumption)]
        simp [h, queried_transaction, queried_log, queried_nil, encode_control_get,
          encode_command_get, phaseCommand, isPublish, INIT_CREATED, INIT_BEGIN_DONE,
          INIT_SLEEP_MODE_DONE, INIT_LED_DONE]
  obtain ⟨a1, a2, a3, a4, a5, a6⟩ := hmain
  exact ⟨a1, a2, a3, a4, a5, hdistinct, a6⟩

/-- Witness of C9: the fresh driver in phase CREATED and a tick in which the
device stays silent. -/
theorem C9_failed_init_tick_atomic_witness :
    (created.init_state_ = INIT_CREATED ∨ created.init_state_ = INIT_BEGIN_DONE
      ∨ created.init_state_ = INIT_SLEEP_MODE_DONE ∨ created.init_state_ = INIT_LED_DONE)
    ∧ someFailed (update silentEnv created).2 = true
    ∧ (update silentEnv created).1.init_state_ = created.init_state_ :=
  ⟨by decide, by decide,
   (C9_failed_init_tick_atomic silentEnv created (by decide) (by decide)).1⟩

/-- C10: in phase PROBED (`INIT_BEGIN_DONE`) a tick first queries the work
mode. When that query succeeds and the mode byte `response[6]` is the sleep
mode 0x02, no set command is sent and the phase becomes LOW_POWER_SET
(`INIT_SLEEP_MODE_DONE`); when the byte is any other value, exactly one
set-work-mode command with payload 0x02 is sent and the phase becomes
LOW_POWER_SET if and only if that command succeeds. -/
theorem C10_probed_tick (env : TickEnv) (c : C1001Component)
    (h : c.init_state_ = INIT_BEGIN_DONE) :
    (update env c).2.head?
        = some (Event.transaction (encode REG_WORK_MODE CMD_GET_WORK_MODE [dummy_byte])
            (send_command REG_WORK_MODE CMD_GET_WORK_MODE 1 (some [dummy_byte]) (some response0)
              (env.rx.getD 0 [])).ok)
    ∧ ((send_command REG_WORK_MODE CMD_GET_WORK_MODE 1 (some [dummy_byte]) (some response0)
            (env.rx.getD 0 [])).ok = true →
        (responseOf (send_command REG_WORK_MODE CMD_GET_WORK_MODE 1 (some [dummy_byte])
            (some response0) (env.rx.getD 0 []))).getD 6 0 = 0x02 →
        (update env c).2
            = [Event.transaction (encode REG_WORK_MODE CMD_GET_WORK_MODE [dummy_byte]) true]
          ∧ (update env c).1.init_state_ = INIT_SLEEP_MODE_DONE)
    ∧ ((send_command REG_WORK_MODE CMD_GET_WORK_MODE 1 (some [dummy_byte]) (some response0)
            (env.rx.getD 0 [])).ok = true →
        (responseOf (send_command REG_WORK_MODE CMD_GET_WORK_MODE 1 (some [dummy_byte])
            (some response0) (env.rx.getD 0 []))).getD 6 0 ≠ 0x02 →
        ∃ ok2 rest,
          (update env c).2
            = Event.transaction (encode REG_WORK_MODE CMD_GET_WORK_MODE [dummy_byte]) true
              :: Event.transaction (encode REG_WORK_MODE CMD_SET_WORK_MODE [0x02]) ok2 :: rest
          ∧ queried rest = []
          ∧ ok2 = (send_command REG_WORK_MODE CMD_SET_WORK_MODE 1 (some [0x02])
              (some (responseOf (send_command REG_WORK_MODE CMD_GET_WORK_MODE 1
                (some [dummy_byte]) (some response0) (env.rx.getD 0 []))))
              (env.rx.getD 1 [])).ok
          ∧ ((update env c).1.init_state_ = INIT_SLEEP_MODE_DONE ↔ ok2 = true)) := by
  rw [update_begin_done env c h]
  refine ⟨?_, ?_, ?_⟩
  · by_cases hok : (send_command REG_WORK_MODE CMD_GET_WORK_MODE 1 (some [dummy_byte])
        (some response0) (env.rx.getD 0 [])).ok = true
    · rw [if_pos hok, hok]
      split
      · split <;> rfl
      · rfl
    · rw [if_neg hok, (Bool.not_eq_true _).mp hok]
      rfl
  · intro hok hmode
    have hm : ¬ (responseOf (send_command REG_WORK_MODE CMD_GET_WORK_MODE 1 (some [dummy_byte])
        (some response0) (env.rx.getD 0 []))).getD 6 0 ≠ MODE_SLEEP := by
      rw [hmode]
      decide
    rw [if_pos hok, if_neg hm]
    exact ⟨rfl, rfl⟩
  · intro hok hmode
    have hm : (responseOf (send_command REG_WORK_MODE CMD_GET_WORK_MODE 1 (some [dummy_byte])
        (some response0) (env.rx.getD 0 []))).getD 6 0 ≠ MODE_SLEEP := hmode
    rw [if_pos hok, if_pos hm]
    split
    · rename_i h2
      exact ⟨true, [], rfl, rfl, h2.symm, by simp⟩
    · rename_i h2
      refine ⟨false, [Event.log Warning.sleep_mode_command_failed], rfl, rfl, ?_, ?_⟩
      · simpa using h2
      · simp [h]
        decide

/-- Witness of C10: a driver in phase PROBED and a tick in which the device
reports work mode 0x01 and does not answer the set command. -/
theorem C10_probed_tick_witness :
    probed.init_state_ = INIT_BEGIN_DONE
    ∧ (update (replyEnv 200 0x02 0xA8 0x01) probed).2.head?
        = some (Event.transaction (encode REG_WORK_MODE CMD_GET_WORK_MODE [dummy_byte])
            (send_command REG_WORK_MODE CMD_GET_WORK_MODE 1 (some [dummy_byte]) (some response0)
              ((replyEnv 200 0x02 0xA8 0x01).rx.getD 0 [])).ok) :=
  ⟨by decide, (C10_probed_tick (replyEnv 200 0x02 0xA8 0x01) probed (by decide)).1⟩

/-- C11: a tick in phase INDICATOR_SET (`INIT_LED_DONE`) whose soft-reset
transaction succeeds ends with `init_state_ = INIT_COMPLETE`,
`sensor_initialized_ = true`, `consecutive_errors_ = 0` and
`last_successful_read_` equal to the time read after the transaction; the only
command sent is the reset command, no metric register is queried and nothing
is published. -/
theorem C11_indicator_set_tick (env : TickEnv) (c : C1001Component)
    (h : c.init_state_ = INIT_LED_DONE)
    (hok : (send_command REG_CONFIG CMD_RESET 1 (some [dummy_byte]) (some response0)
      (env.rx.getD 0 [])).ok = true) :
    (update env c).1.init_state_ = INIT_COMPLETE
    ∧ (update env c).1.sensor_initialized_ = true
    ∧ (update env c).1.consecutive_errors_ = 0
    ∧ (update env c).1.last_successful_read_ = env.done
    ∧ queried (update env c).2 = [(REG_CONFIG, CMD_RESET)]
    ∧ (∀ q ∈ queried (update env c).2, isMetricQuery q = false)
    ∧ (∀ e ∈ (update env c).2, isPublish e = false) := by
  rw [update_led_done env c h, if_pos hok]
  refine ⟨rfl, rfl, rfl, rfl, ?_, ?_, ?_⟩
  · rw [queried_transaction, queried_nil, encode_control, encode_command]
  · intro q hq
    rw [queried_transaction, queried_nil, encode_control, encode_command] at hq
    rw [List.mem_singleton] at hq
    rw [hq]
    decide
  · intro e he
    rw [List.mem_singleton] at he
    rw [he]
    rfl

/-- Witness of C11: a driver in phase INDICATOR_SET and a tick at time 400 in
which the device acknowledges the reset command. -/
theorem C11_indicator_set_tick_witness :
    indicatorSet.init_state_ = INIT_LED_DONE
    ∧ (send_command REG_CONFIG CMD_RESET 1 (some [dummy_byte]) (some response0)
        ((replyEnv 400 0x01 0x02 0x0F).rx.getD 0 [])).ok = true
    ∧ (update (replyEnv 400 0x01 0x02 0x0F) indicatorSet).1.init_state_ = INIT_COMPLETE
    ∧ (update (replyEnv 400 0x01 0x02 0x0F) indicatorSet).1.last_successful_read_ = 401 :=
  ⟨by decide, by decide,
   (C11_indicator_set_tick (replyEnv 400 0x01 0x02 0x0F) indicatorSet (by decide) (by decide)).1,
   (C11_indicator_set_tick (replyEnv 400 0x01 0x02 0x0F) indicatorSet (by decide)
      (by decide)).2.2.2.1⟩

/-- C12: starting from an initialized driver with `consecutive_errors_ = 0`,
with no staleness timeout during the run, after k consecutive scheduler ticks
whose transaction fails, k < 20, the driver is still initialized
(`init_state_ = INIT_COMPLETE`) with `consecutive_errors_ = k`; after exactly
20 such ticks `init_state_ = INIT_CREATED`, `sensor_initialized_ = false` and
`consecutive_errors_ = 0`. -/
theorem C12_failure_escalation (c : C1001Component) (envs : List TickEnv)
    (hi : c.init_state_ = INIT_COMPLETE) (hs : c.sensor_initialized_ = true)
    (he : c.consecutive_errors_ = 0)
    (hfail : ∀ env ∈ envs, receive (env.rx.getD 0 []) = none)
    (hfresh : ∀ env ∈ envs, sub32 env.now c.last_successful_read_ ≤ SENSOR_TIMEOUT_MS) :
    (envs.length < 20 →
      (run envs c).init_state_ = INIT_COMPLETE
      ∧ (run envs c).sensor_initialized_ = true
      ∧ (run envs c).consecutive_errors_ = envs.length)
    ∧ (envs.length = 20 →
      (run envs c).init_state_ = INIT_CREATED
      ∧ (run envs c).sensor_initialized_ = false
      ∧ (run envs c).consecutive_errors_ = 0) := by
  constructor
  · intro hlen
    obtain ⟨h1, h2, h3, _⟩ := failed_run_below envs c hi hs (by omega) hfail hfresh
    exact ⟨h1, h2, by rw [h3, he, Nat.zero_add]⟩
  · intro hlen
    have hne : envs ≠ [] := by
      intro h0
      rw [h0] at hlen
      simp at hlen
    exact failed_run_reset envs c hi hs (by omega) hne hfail hfresh

/-- Witness of C12: the initialized driver `polling2` and 20 ticks in which
the device stays silent. -/
theorem C12_failure_escalation_witness :
    polling2.init_state_ = INIT_COMPLETE ∧ polling2.sensor_initialized_ = true
    ∧ polling2.consecutive_errors_ = 0
    ∧ (∀ env ∈ List.replicate 20 silentEnv, receive (env.rx.getD 0 []) = none)
    ∧ (∀ env ∈ List.replicate 20 silentEnv,
        sub32 env.now polling2.last_successful_read_ ≤ SENSOR_TIMEOUT_MS)
    ∧ (run (List.replicate 20 silentEnv) polling2).init_state_ = INIT_CREATED
    ∧ (run (List.replicate 20 silentEnv) polling2).sensor_initialized_ = false
    ∧ (run (List.replicate 20 silentEnv) polling2).consecutive_errors_ = 0 :=
  ⟨by decide, by decide, by decide,
   fun env he => by rw [List.eq_of_mem_replicate he]; decide,
   fun env he => by rw [List.eq_of_mem_replicate he]; decide,
   (C12_failure_escalation polling2 (List.replicate 20 silentEnv) (by decide) (by decide)
      (by decide) (fun env he => by rw [List.eq_of_mem_replicate he]; decide)
      (fun env he => by rw [List.eq_of_mem_replicate he]; decide)).2 (by simp)⟩

/-- C13: for every initialized driver and every tick at time `now`, if the
32-bit difference `now - last_successful_read_` exceeds 120000 ms the tick
issues no transaction, publishes nothing and ends with
`init_state_ = INIT_CREATED`, `sensor_initialized_ = false`,
`consecutive_errors_ = 0`; if the difference is at most 120000 (exactly 120000
included) the tick is not aborted: it runs the polling part and queries the
metric of the selected step. The 32-bit difference is the plain difference
when `last_successful_read_ ≤ now < 2^32`. -/
theorem C13_staleness_escalation (env : TickEnv) (c : C1001Component)
    (hi : c.init_state_ = INIT_COMPLETE) (hs : c.sensor_initialized_ = true) :
    (sub32 env.now c.last_successful_read_ > 120000 →
      (∀ e ∈ (update env c).2, ∀ f ok, e ≠ Event.transaction f ok)
      ∧ queried (update env c).2 = []
      ∧ (∀ e ∈ (update env c).2, isPublish e = false)
      ∧ (update env c).1.init_state_ = INIT_CREATED
      ∧ (update env c).1.sensor_initialized_ = false
      ∧ (update env c).1.consecutive_errors_ = 0)
    ∧ (sub32 env.now c.last_successful_read_ ≤ 120000 →
      update env c = updatePoll env c
      ∧ (c.read_step < 14 →
          queried (update env c).2 = [stepQuery (selectStep c.vital_count c.read_step).1]))
    ∧ (c.last_successful_read_ ≤ env.now → env.now < 4294967296 →
        sub32 env.now c.last_successful_read_ = env.now - c.last_successful_read_)
    ∧ SENSOR_TIMEOUT_MS = 120000 := by
  refine ⟨?_, ?_, ?_, rfl⟩
  · intro hstale
    have hu : update env c
        = ((reset_initialization c).1,
           Event.log Warning.sensor_timeout :: (reset_initialization c).2) := by
      unfold update
      have hstale2 : sub32 env.now c.last_successful_read_ > SENSOR_TIMEOUT_MS := hstale
      rw [if_neg (not_not.mpr hi), hs, if_neg (by simp), if_pos hstale2]
    rw [hu]
    refine ⟨?_, rfl, ?_, rfl, rfl, rfl⟩
    · intro e he f ok
      simp only [reset_initialization, List.mem_cons, List.mem_singleton, List.not_mem_nil,
        or_false] at he
      rcases he with he | he <;> rw [he] <;> exact fun h => Event.noConfusion h
    · intro e he
      simp only [reset_initialization, List.mem_cons, List.mem_singleton, List.not_mem_nil,
        or_false] at he
      rcases he with he | he <;> rw [he] <;> rfl
  · intro hfresh
    have hfresh2 : sub32 env.now c.last_successful_read_ ≤ SENSOR_TIMEOUT_MS := hfresh
    refine ⟨update_polling env c hi hs hfresh2, ?_⟩
    intro hr
    exact (update_scheduler_tick env c hi hs hfresh2 hr).1
  · intro h1 h2
    unfold sub32
    omega

/-- Witness of C13: the initialized driver `polling2`, last success at time 0,
and a silent tick at time 120001. -/
theorem C13_staleness_escalation_witness :
    polling2.init_state_ = INIT_COMPLETE ∧ polling2.sensor_initialized_ = true
    ∧ sub32 120001 polling2.last_successful_read_ > 120000
    ∧ (update { rx := [], now := 120001, done := 120001 } polling2).1.init_state_
        = INIT_CREATED :=
  ⟨by decide, by decide, by decide,
   ((C13_staleness_escalation { rx := [], now := 120001, done := 120001 } polling2 (by decide)
      (by decide)).1 (by decide)).2.2.2.1⟩

/-- C14: for every raw byte r the respiration value computed from r, in exact
arithmetic, is 10 + (r/10)*5 if r < 8, 10 + ((r-25)/75)*15 if 25 < r < 100,
10 + (r/255)*15 if r ≥ 100, and r itself otherwise (8 ≤ r ≤ 25). -/
theorem C14_respiration_map (r : Nat) :
    (r < 8 → breathing r = 10 + ((r : ℚ) / 10) * 5)
    ∧ (25 < r → r < 100 → breathing r = 10 + (((r : ℚ) - 25) / 75) * 15)
    ∧ (100 ≤ r → breathing r = 10 + ((r : ℚ) / 255) * 15)
    ∧ (8 ≤ r → r ≤ 25 → breathing r = (r : ℚ)) := by
  refine ⟨?_, ?_, ?_, ?_⟩
  · intro h
    unfold breathing
    rw [if_pos h]
  · intro h1 h2
    unfold breathing
    rw [if_neg (by omega), if_pos ⟨h1, h2⟩]
    push_cast
    rfl
  · intro h
    unfold breathing
    rw [if_neg (by omega), if_neg (by omega), if_pos h]
  · intro h1 h2
    unfold breathing
    rw [if_neg (by omega), if_neg (by omega), if_neg (by omega)]

/-- C15: for every raw byte r the heart-rate value computed from r, in exact
arithmetic, is 60 + (r/30)*15 if r < 30, 60 + ((r-30)/120)*40 if
100 < r < 150, 60 + (r/255)*40 if r ≥ 150, 60 - (60-r)*0.5 if 30 ≤ r < 60, and
r itself otherwise (60 ≤ r ≤ 100). -/
theorem C15_heart_rate_map (r : Nat) :
    (r < 30 → heart r = 60 + ((r : ℚ) / 30) * 15)
    ∧ (100 < r → r < 150 → heart r = 60 + (((r : ℚ) - 30) / 120) * 40)
    ∧ (150 ≤ r → heart r = 60 + ((r : ℚ) / 255) * 40)
    ∧ (30 ≤ r → r < 60 → heart r = 60 - (60 - (r : ℚ)) * (1 / 2))
    ∧ (60 ≤ r → r ≤ 100 → heart r = (r : ℚ)) := by
  refine ⟨?_, ?_, ?_, ?_, ?_⟩
  · intro h
    unfold heart
    rw [if_pos h]
  · intro h1 h2
    unfold heart
    rw [if_neg (by omega), if_pos ⟨h1, h2⟩]
    push_cast
    rfl
  · intro h
    unfold heart
    rw [if_neg (by omega), if_neg (by omega), if_pos h]
  · intro h1 h2
    unfold heart
    rw [if_neg (by omega), if_neg (by omega), if_neg (by omega), if_pos ⟨h1, h2⟩]
  · intro h1 h2
    unfold heart
    rw [if_neg (by omega), if_neg (by omega), if_neg (by omega), if_neg (by omega)]

/-- C16: on a successful respiration read with a respiration sink attached,
the mapped value is published exactly once if it lies in [8,30] and not at all
otherwise (never twice in one tick), and the range warning is logged exactly
when the mapped value lies outside [10,25]; no other warning is logged. -/
theorem C16_respiration_publish_gate (env : TickEnv) (c : C1001Component)
    (hi : c.init_state_ = INIT_COMPLETE) (hs : c.sensor_initialized_ = true)
    (ht : sub32 env.now c.last_successful_read_ ≤ SENSOR_TIMEOUT_MS)
    (hv : c.vital_count = 0) (hok : (query REG_BREATH CMD_GET_BREATHING env).ok = true)
    (hsink : c.respiration_sensor_ = true) :
    publishes Sink.respiration_sensor_ (update env c).2
        = (if 8 ≤ respirationOf env ∧ respirationOf env ≤ 30 then [respirationOf env] else [])
    ∧ warnings (update env c).2
        = (if 10 ≤ respirationOf env ∧ respirationOf env ≤ 25 then []
           else [Warning.respiration_outside_range]) := by
  rw [respiration_tick env c hi hs ht hv hok]
  unfold respirationOf
  generalize breathing ((responseTo REG_BREATH CMD_GET_BREATHING env).getD 6 0) = b
  simp only [hsink, and_true, ge_iff_le]
  by_cases h1 : 10 ≤ b ∧ b ≤ 25
  · have h2 : 8 ≤ b ∧ b ≤ 30 := ⟨by linarith [h1.1], by linarith [h1.2]⟩
    rw [if_pos h1, if_pos h2, if_pos h1]
    exact ⟨rfl, rfl⟩
  · rw [if_neg h1, if_neg h1]
    by_cases h2 : 8 ≤ b ∧ b ≤ 30
    · rw [if_pos h2, if_pos h2]
      exact ⟨rfl, rfl⟩
    · rw [if_neg h2, if_neg h2]
      exact ⟨rfl, rfl⟩

/-- Witness of C16: the initialized driver `respirationReady` and a tick at
time 1000 in which the device answers with the payload byte 9. -/
theorem C16_respiration_publish_gate_witness :
    respirationReady.init_state_ = INIT_COMPLETE
    ∧ respirationReady.sensor_initialized_ = true
    ∧ sub32 (replyEnv 1000 0x81 0x82 9).now respirationReady.last_successful_read_
        ≤ SENSOR_TIMEOUT_MS
    ∧ respirationReady.vital_count = 0
    ∧ (query REG_BREATH CMD_GET_BREATHING (replyEnv 1000 0x81 0x82 9)).ok = true
    ∧ respirationReady.respiration_sensor_ = true
    ∧ (publishes Sink.respiration_sensor_ (update (replyEnv 1000 0x81 0x82 9) respirationReady).2
          = (if 8 ≤ respirationOf (replyEnv 1000 0x81 0x82 9)
                ∧ respirationOf (replyEnv 1000 0x81 0x82 9) ≤ 30 then
              [respirationOf (replyEnv 1000 0x81 0x82 9)] else [])
      ∧ warnings (update (replyEnv 1000 0x81 0x82 9) respirationReady).2
          = (if 10 ≤ respirationOf (replyEnv 1000 0x81 0x82 9)
                ∧ respirationOf (replyEnv 1000 0x81 0x82 9) ≤ 25 then []
             else [Warning.respiration_outside_range])) :=
  ⟨by decide, by decide, by decide, by decide, by decide, by decide,
   C16_respiration_publish_gate (replyEnv 1000 0x81 0x82 9) respirationReady (by decide)
     (by decide) (by decide) (by decide) (by decide) (by decide)⟩

/-- C17, as stated, fails: at raw = 8 the respiration map takes the direct
branch and gives 8, the formula of the branch raw < 8 that meets it there
gives 14, and the two differ by 6 BPM, more than 0.5. -/
theorem C17_continuity_counterexample :
    breathing 8 = 8 ∧ breathing_low 8 = 14
    ∧ ¬ (|breathing_low 8 - breathing 8| ≤ 1 / 2) := by
  have h1 : breathing 8 = 8 := by norm_num [breathing]
  have h2 : breathing_low 8 = 14 := by norm_num [breathing_low]
  refine ⟨h1, h2, ?_⟩
  rw [h1, h2]
  have h3 : |(14 : ℚ) - 8| = 6 := by
    rw [abs_of_pos (by norm_num)]
    norm_num
  rw [h3]
  norm_num

/-- C17, amended: the respiration map uses the formulas `breathing_low` below
8, the raw value on 8..25, `breathing_mid` on 26..99 and `breathing_high` from
100; the heart-rate map uses `heart_low` below 30, `heart_below` on 30..59, the
raw value on 60..100, `heart_mid` on 101..149 and `heart_high` from 150. At
the respiration boundaries raw = 8, 25, 100 and the heart-rate boundaries
raw = 30, 100, 150 the two formulas that meet differ by 6, 15, 155/17, 30,
50/3 and 280/17 BPM, each more than 0.5 BPM. -/
theorem C17_branch_gaps :
    (∀ r : Nat, r < 8 → breathing r = breathing_low r)
    ∧ (∀ r : Nat, 8 ≤ r → r ≤ 25 → breathing r = r)
    ∧ (∀ r : Nat, 25 < r → r < 100 → breathing r = breathing_mid r)
    ∧ (∀ r : Nat, 100 ≤ r → breathing r = breathing_high r)
    ∧ (∀ r : Nat, r < 30 → heart r = heart_low r)
    ∧ (∀ r : Nat, 30 ≤ r → r < 60 → heart r = heart_below r)
    ∧ (∀ r : Nat, 60 ≤ r → r ≤ 100 → heart r = r)
    ∧ (∀ r : Nat, 100 < r → r < 150 → heart r = heart_mid r)
    ∧ (∀ r : Nat, 150 ≤ r → heart r = heart_high r)
    ∧ breathing_low 8 - 8 = 6
    ∧ 25 - breathing_mid 25 = 15
    ∧ breathing_mid 100 - breathing_high 100 = 155 / 17
    ∧ heart_low 30 - heart_below 30 = 30
    ∧ 100 - heart_mid 100 = 50 / 3
    ∧ heart_mid 150 - heart_high 150 = 280 / 17
    ∧ (1 / 2 : ℚ) < 6 ∧ (1 / 2 : ℚ) < 15 ∧ (1 / 2 : ℚ) < 155 / 17 ∧ (1 / 2 : ℚ) < 30
    ∧ (1 / 2 : ℚ) < 50 / 3 ∧ (1 / 2 : ℚ) < 280 / 17 := by
  refine ⟨?_, ?_, ?_, ?_, ?_, ?_, ?_, ?_, ?_, ?_, ?_, ?_, ?_, ?_, ?_, ?_, ?_, ?_, ?_, ?_, ?_⟩
  · intro r h
    unfold breathing breathing_low
    rw [if_pos h]
  · intro r h1 h2
    unfold breathing
    rw [if_neg (by omega), if_neg (by omega), if_neg (by omega)]
  · intro r h1 h2
    unfold breathing breathing_mid
    rw [if_neg (by omega), if_pos ⟨h1, h2⟩]
    push_cast
    rfl
  · intro r h
    unfold breathing breathing_high
    rw [if_neg (by omega), if_neg (by omega), if_pos h]
  · intro r h
    unfold heart heart_low
    rw [if_pos h]
  · intro r h1 h2
    unfold heart heart_below
    rw [if_neg (by omega), if_neg (by omega), if_neg (by omega), if_pos ⟨h1, h2⟩]
  · intro r h1 h2
    unfold heart
    rw [if_neg (by omega), if_neg (by omega), if_neg (by omega), if_neg (by omega)]
  · intro r h1 h2
    unfold heart heart_mid
    rw [if_neg (by omega), if_pos ⟨h1, h2⟩]
    push_cast
    rfl
  · intro r h
    unfold heart heart_high
    rw [if_neg (by omega), if_neg (by omega), if_pos h]
  · norm_num [breathing_low]
  · norm_num [breathing_mid]
  · norm_num [breathing_mid, breathing_high]
  · norm_num [heart_low, heart_below]
  · norm_num [heart_mid]
  · norm_num [heart_mid, heart_high]
  · norm_num
  · norm_num
  · norm_num
  · norm_num
  · norm_num
  · norm_num

/-- C18, as stated, fails: in the scenario (respiration sink attached, reply
to the respiration query a frame with the single payload byte 0x1E and the
correct checksum) the tick logs no range warning: the mapped value 11 lies
within [10,25]. -/
theorem C18_scenario_counterexample :
    Event.log Warning.respiration_outside_range
        ∉ (update (replyEnv 1000 0x81 0x82 0x1E) respirationReady).2
    ∧ respirationOf (replyEnv 1000 0x81 0x82 0x1E) = 11 := by
  have hraw : (responseTo REG_BREATH CMD_GET_BREATHING (replyEnv 1000 0x81 0x82 0x1E)).getD 6 0
      = 30 := by decide
  have hb : breathing 30 = 11 := by norm_num [breathing]
  have hc : (11 : ℚ) ≥ 10 ∧ (11 : ℚ) ≤ 25 ∧ respirationReady.respiration_sensor_ = true :=
    ⟨by norm_num, by norm_num, rfl⟩
  constructor
  · rw [respiration_tick (replyEnv 1000 0x81 0x82 0x1E) respirationReady (by decide) (by decide)
      (by decide) (by decide) (by decide), hraw, hb, if_pos hc]
    intro h
    simp only [List.mem_cons, List.mem_singleton, List.not_mem_nil, or_false, txEvent] at h
    rcases h with h | h <;> exact Event.noConfusion h
  · unfold respirationOf
    rw [hraw, hb]

/-- C18, amended: when the reply to the respiration query (control 0x81,
command 0x82) is a frame with the single payload byte 0x1E and a correct
checksum, the transaction succeeds, the raw value read at `response[6]` is 30,
and the tick publishes 11.0 BPM to the respiration sink, once, with no range
warning logged. -/
theorem C18_scenario :
    (replyEnv 1000 0x81 0x82 0x1E).rx = [[0x53, 0x59, 0x81, 0x82, 0x00, 0x01, 0x1E, 0xCE, 0x54, 0x43]]
    ∧ calculate_checksum 7 [0x53, 0x59, 0x81, 0x82, 0x00, 0x01, 0x1E] = 0xCE
    ∧ (query REG_BREATH CMD_GET_BREATHING (replyEnv 1000 0x81 0x82 0x1E)).ok = true
    ∧ (responseTo REG_BREATH CMD_GET_BREATHING (replyEnv 1000 0x81 0x82 0x1E)).getD 6 0 = 30
    ∧ (update (replyEnv 1000 0x81 0x82 0x1E) respirationReady).2
        = [Event.transaction (encode REG_BREATH CMD_GET_BREATHING [dummy_byte]) true,
           Event.publish_state Sink.respiration_sensor_ 11]
    ∧ publishes Sink.respiration_sensor_ (update (replyEnv 1000 0x81 0x82 0x1E) respirationReady).2
        = [11]
    ∧ warnings (update (replyEnv 1000 0x81 0x82 0x1E) respirationReady).2 = [] := by
  have hraw : (responseTo REG_BREATH CMD_GET_BREATHING (replyEnv 1000 0x81 0x82 0x1E)).getD 6 0
      = 30 := by decide
  have hb : breathing 30 = 11 := by norm_num [breathing]
  have hc : (11 : ℚ) ≥ 10 ∧ (11 : ℚ) ≤ 25 ∧ respirationReady.respiration_sensor_ = true :=
    ⟨by norm_num, by norm_num, rfl⟩
  have htx : txEvent (query REG_BREATH CMD_GET_BREATHING (replyEnv 1000 0x81 0x82 0x1E))
      = Event.transaction (encode REG_BREATH CMD_GET_BREATHING [dummy_byte]) true := by decide
  have htr : (update (replyEnv 1000 0x81 0x82 0x1E) respirationReady).2
      = [Event.transaction (encode REG_BREATH CMD_GET_BREATHING [dummy_byte]) true,
         Event.publish_state Sink.respiration_sensor_ 11] := by
    rw [respiration_tick (replyEnv 1000 0x81 0x82 0x1E) respirationReady (by decide) (by decide)
      (by decide) (by decide) (by decide), hraw, hb, if_pos hc, htx]
  refine ⟨by decide, by decide, by decide, hraw, htr, ?_, ?_⟩
  · rw [htr]
    rfl
  · rw [htr]
    rfl

/-- C19: on a successful presence read, for every raw byte r = `response[6]`
the boolean published to the person-detected sink is true exactly when
r < 50 (10 gives true, 90 gives false, 50 gives false), and the raw value r
itself is published unchanged to the presence sink; each sink receives one
value when attached and none otherwise. -/
theorem C19_presence_polarity (env : TickEnv) (c : C1001Component)
    (hi : c.init_state_ = INIT_COMPLETE) (hs : c.sensor_initialized_ = true)
    (ht : sub32 env.now c.last_successful_read_ ≤ SENSOR_TIMEOUT_MS)
    (hv : 2 ≤ c.vital_count) (hr : c.read_step = 0)
    (hok : (query REG_BASIC_HUMAN CMD_GET_PRESENCE env).ok = true) :
    publishesBool Sink.person_detected_ (update env c).2
        = (if c.person_detected_ = true then
             [decide ((responseTo REG_BASIC_HUMAN CMD_GET_PRESENCE env).getD 6 0 < 50)]
           else [])
    ∧ publishes Sink.presence_sensor_ (update env c).2
        = (if c.presence_sensor_ = true then
             [(((responseTo REG_BASIC_HUMAN CMD_GET_PRESENCE env).getD 6 0 : Nat) : ℚ)]
           else [])
    ∧ decide ((10 : Nat) < 50) = true ∧ decide ((90 : Nat) < 50) = false
    ∧ decide ((50 : Nat) < 50) = false := by
  rw [presence_tick env c hi hs ht hv hr hok]
  generalize (responseTo REG_BASIC_HUMAN CMD_GET_PRESENCE env).getD 6 0 = raw
  refine ⟨?_, ?_, rfl, rfl, rfl⟩
  · cases c.presence_sensor_ <;> cases c.person_detected_ <;> rfl
  · cases c.presence_sensor_ <;> cases c.person_detected_ <;> rfl

/-- Witness of C19: the initialized driver `presenceReady` and a tick at time
1000 in which the device answers the presence query with the raw byte 10. -/
theorem C19_presence_polarity_witness :
    presenceReady.init_state_ = INIT_COMPLETE ∧ presenceReady.sensor_initialized_ = true
    ∧ sub32 (replyEnv 1000 0x80 0x81 10).now presenceReady.last_successful_read_
        ≤ SENSOR_TIMEOUT_MS
    ∧ 2 ≤ presenceReady.vital_count ∧ presenceReady.read_step = 0
    ∧ (query REG_BASIC_HUMAN CMD_GET_PRESENCE (replyEnv 1000 0x80 0x81 10)).ok = true
    ∧ publishesBool Sink.person_detected_ (update (replyEnv 1000 0x80 0x81 10) presenceReady).2
        = (if presenceReady.person_detected_ = true then
             [decide ((responseTo REG_BASIC_HUMAN CMD_GET_PRESENCE
                (replyEnv 1000 0x80 0x81 10)).getD 6 0 < 50)]
           else []) :=
  ⟨by decide, by decide, by decide, by decide, by decide, by decide,
   (C19_presence_polarity (replyEnv 1000 0x80 0x81 10) presenceReady (by decide) (by decide)
      (by decide) (by decide) (by decide) (by decide)).1⟩

/-- C20: on a successful sleep-composite read the six sub-metrics are taken
from payload bytes 2..7 of the reply, that is `response[8]` (average
respiration raw), `response[9]` (average heart-rate raw), `response[10]`
(turnovers), `response[11]` (large-movement %), `response[12]`
(minor-movement %) and `response[13]` (apnea events), and the cached fields
are updated from them whatever sinks are attached: the four counters hold the
bytes themselves, the two averages hold the scaled raw bytes. -/
theorem C20_sleep_composite_layout (env : TickEnv) (c : C1001Component)
    (hi : c.init_state_ = INIT_COMPLETE) (hs : c.sensor_initialized_ = true)
    (ht : sub32 env.now c.last_successful_read_ ≤ SENSOR_TIMEOUT_MS)
    (hv : 2 ≤ c.vital_count) (hr : c.read_step = 9)
    (hok : (query REG_SLEEP CMD_GET_SLEEP_COMPOSITE env).ok = true) :
    (update env c).1.average_respiration_
        = average_respiration ((responseTo REG_SLEEP CMD_GET_SLEEP_COMPOSITE env).getD 8 0)
    ∧ (update env c).1.average_heartbeat_
        = average_heartbeat ((responseTo REG_SLEEP CMD_GET_SLEEP_COMPOSITE env).getD 9 0)
    ∧ (update env c).1.turnover_count_
        = (responseTo REG_SLEEP CMD_GET_SLEEP_COMPOSITE env).getD 10 0
    ∧ (update env c).1.large_body_movement_
        = (responseTo REG_SLEEP CMD_GET_SLEEP_COMPOSITE env).getD 11 0
    ∧ (update env c).1.minor_body_movement_
        = (responseTo REG_SLEEP CMD_GET_SLEEP_COMPOSITE env).getD 12 0
    ∧ (update env c).1.apnea_events_
        = (responseTo REG_SLEEP CMD_GET_SLEEP_COMPOSITE env).getD 13 0 := by
  rw [composite_tick env c hi hs ht hv hr hok]
  exact ⟨rfl, rfl, rfl, rfl, rfl, rfl⟩

/-- Witness of C20: the initialized driver `compositeReady`, with no sink
attached, and a tick at time 1000 in which the device answers the composite
query with the 8-byte payload 1 2 16 70 5 6 7 8. -/
theorem C20_sleep_composite_layout_witness :
    compositeReady.init_state_ = INIT_COMPLETE ∧ compositeReady.sensor_initialized_ = true
    ∧ sub32 (replyEnvN 1000 0x84 0x8D [1, 2, 16, 70, 5, 6, 7, 8]).now
        compositeReady.last_successful_read_ ≤ SENSOR_TIMEOUT_MS
    ∧ 2 ≤ compositeReady.vital_count ∧ compositeReady.read_step = 9
    ∧ (query REG_SLEEP CMD_GET_SLEEP_COMPOSITE
        (replyEnvN 1000 0x84 0x8D [1, 2, 16, 70, 5, 6, 7, 8])).ok = true
    ∧ (responseTo REG_SLEEP CMD_GET_SLEEP_COMPOSITE
        (replyEnvN 1000 0x84 0x8D [1, 2, 16, 70, 5, 6, 7, 8])).getD 10 0 = 5
    ∧ (update (replyEnvN 1000 0x84 0x8D [1, 2, 16, 70, 5, 6, 7, 8]) compositeReady).1.turnover_count_
        = (responseTo REG_SLEEP CMD_GET_SLEEP_COMPOSITE
            (replyEnvN 1000 0x84 0x8D [1, 2, 16, 70, 5, 6, 7, 8])).getD 10 0 :=
  ⟨by decide, by decide, by decide, by decide, by decide, by decide, by decide,
   (C20_sleep_composite_layout (replyEnvN 1000 0x84 0x8D [1, 2, 16, 70, 5, 6, 7, 8])
      compositeReady (by decide) (by decide) (by decide) (by decide) (by decide)
      (by decide)).2.2.1⟩

/-- C21, as stated, fails: the constructed driver has `init_state_ = 0`, which
is `INIT_NONE`, not `INIT_CREATED`. -/
theorem C21_constructed_counterexample :
    constructed.init_state_ = INIT_NONE ∧ constructed.init_state_ ≠ INIT_CREATED := by
  decide

/-- C21, amended: immediately after construction, before `setup` or any tick
has run, the init phase is `INIT_NONE` (0) and `sensor_initialized_` is false;
the phase is CREATED after `setup`, and a tick run on the constructed driver
sends nothing, logs the unknown-state warning and leaves the phase CREATED. -/
theorem C21_constructed_phase :
    constructed.init_state_ = INIT_NONE
    ∧ constructed.sensor_initialized_ = false
    ∧ (∀ now, (setup now constructed).init_state_ = INIT_CREATED)
    ∧ (∀ env, (update env constructed).1.init_state_ = INIT_CREATED
        ∧ (update env constructed).2 = [Event.log Warning.unknown_initialization_state]) :=
  ⟨rfl, rfl, fun _ => rfl, fun _ => ⟨rfl, rfl⟩⟩

/-- C23 at `read_step = 2`: the scheduler statics `vital_count = 2`,
`read_step = 2` are those after 8 scheduler ticks; the tick takes the
round-robin branch, selects step 3 and queries heart rate (0x85, 0x82). For
every other `read_step` below 14 the round-robin branch queries a metric that
is neither respiration nor heart rate. -/
theorem C23_round_robin_queries_heart_rate :
    schedAfter 8 = (roundRobin2.vital_count, roundRobin2.read_step)
    ∧ ¬ (roundRobin2.vital_count < 2)
    ∧ selectStep roundRobin2.vital_count roundRobin2.read_step = (3, 0, 3)
    ∧ queried (update (replyEnv 3000 0x85 0x82 70) roundRobin2).2
        = [(REG_HEART, CMD_GET_HEART_RATE)]
    ∧ isVitalQuery (REG_HEART, CMD_GET_HEART_RATE) = true
    ∧ (∀ rs, rs < 14 → rs ≠ 2 → isVitalQuery (stepQuery (selectStep 2 rs).1) = false) := by
  refine ⟨by decide, by decide, by decide, by decide, by decide, ?_⟩
  intro rs h1 h2
  interval_cases rs <;> first | (exact absurd rfl h2) | decide

/-- C24 within the log buffers, and its failure beyond them. For every byte
stream s of at most 63 bytes on which the call stays within its log buffers,
`send_command` returns true if and only if there is an index i of s such that
some s[j] with j ≤ i is 0x53 and some k with 1 ≤ k ≤ i has s[k-1] = 0x54 and
s[k] = 0x43 (in either order relative to the 0x53); on success the captured
response is exactly the prefix s[0..i] for the least such i, which is below
39. No other byte of the stream enters the criterion. On the 40-byte stream
`longAcceptStream` the loop returns true with 40 bytes captured and the log
string of the capture needs 131 bytes of `resp_str[128]`; on the 37-byte
stream `longTimeoutStream` the loop times out and the log string of the
partial response needs 130 bytes. -/
theorem C24_acceptance_criterion (con cmd n : Nat) (d rb : Option (List Nat)) (s : List Nat)
    (hlen : s.length ≤ 63) (hfit : (send_command con cmd n d rb s).strings_fit = true) :
    ((send_command con cmd n d rb s).ok = true ↔ ∃ i, i < s.length ∧ AcceptAt s i)
    ∧ (∀ cap, receive s = some cap →
        ∃ i, i < s.length ∧ i < 39 ∧ AcceptAt s i ∧ (∀ j, j < i → ¬ AcceptAt s j)
          ∧ cap = s.take (i + 1))
    ∧ longAcceptStream.length = 40
    ∧ receive longAcceptStream = some longAcceptStream
    ∧ (recvLoop recvInit longAcceptStream).map (fun st => (resp_str st).length + 1) = some 131
    ∧ resp_str_fits longAcceptStream = false
    ∧ longTimeoutStream.length = 37
    ∧ receive longTimeoutStream = none
    ∧ (resp_str_timeout (recvAfter longTimeoutStream)).length + 1 = 130
    ∧ resp_str_fits longTimeoutStream = false := by
  rw [send_command_strings_fit, Bool.and_eq_true] at hfit
  have hsound : ∀ cap, receive s = some cap →
      ∃ i, i < s.length ∧ i < 39 ∧ AcceptAt s i ∧ (∀ j, j < i → ¬ AcceptAt s j)
        ∧ cap = s.take (i + 1) := by
    intro cap hcap
    obtain ⟨k, hk, hk2, hC, hmin⟩ := receive_spec s cap hlen hcap
    have h39 := (resp_str_fits_accept s cap hlen hcap).mp hfit.2
    rw [hk2, List.length_take] at h39
    refine ⟨k, hk, by omega, ?_, ?_, hk2⟩
    · rw [← complete_take_iff, ← hk2]
      exact hC
    · intro j hj hA
      exact hmin j hj ((complete_take_iff s j).mpr hA)
  have hacc : receive longAcceptStream = some longAcceptStream := by decide
  have htime : receive longTimeoutStream = none := by decide
  refine ⟨?_, hsound, by decide, hacc, ?_, ?_, by decide, htime, ?_, ?_⟩
  · rw [send_command_ok]
    constructor
    · intro hok
      cases hr : receive s with
      | none => simp [hr] at hok
      | some cap =>
        obtain ⟨i, hi, _, hA, _, _⟩ := hsound cap hr
        exact ⟨i, hi, hA⟩
    · rintro ⟨i, hi, hA⟩
      obtain ⟨st1, hst⟩ := recvLoop_complete s recvInit [] tracks_init (by simpa using hlen)
        ⟨i, hi, by simpa using (complete_take_iff s i).mpr hA⟩
      simp [receive, hst]
  · simp only [resp_str_length]
    decide
  · refine Bool.eq_false_iff.mpr ?_
    intro h
    exact absurd ((resp_str_fits_accept longAcceptStream longAcceptStream (by decide) hacc).mp h)
      (by decide)
  · rw [resp_str_timeout_length]
    decide
  · refine Bool.eq_false_iff.mpr ?_
    intro h
    exact absurd ((resp_str_fits_timeout longTimeoutStream (by decide) htime).mp h) (by decide)

/-- Witness of C24 on the stream 0x54 0x43 0x00 0x53 0x07, where the end pair
comes before the 0x53: accepted at index 3. -/
theorem C24_acceptance_criterion_witness :
    [0x54, 0x43, 0x00, 0x53, 0x07].length ≤ 63
    ∧ (send_command 0x81 0x82 1 none (some response0)
        [0x54, 0x43, 0x00, 0x53, 0x07]).strings_fit = true
    ∧ receive [0x54, 0x43, 0x00, 0x53, 0x07] = some [0x54, 0x43, 0x00, 0x53]
    ∧ ((send_command 0x81 0x82 1 none (some response0) [0x54, 0x43, 0x00, 0x53, 0x07]).ok = true
        ↔ ∃ i, i < [0x54, 0x43, 0x00, 0x53, 0x07].length
            ∧ AcceptAt [0x54, 0x43, 0x00, 0x53, 0x07] i) :=
  ⟨by decide, by decide, by decide,
   (C24_acceptance_criterion 0x81 0x82 1 none (some response0) [0x54, 0x43, 0x00, 0x53, 0x07]
      (by decide) (by decide)).1⟩

set_option maxRecDepth 20000 in
/-- C25 on two 64-byte streams. In `staleEndStream` the byte at index 63 is
0x43 and the byte received immediately before it is 0x00, yet the scan sets
`found_end` at that byte and `send_command` returns true: the test reads
`recv_buffer[61]`, which holds 0x54. In `lateEndStream` the bytes at indices
62 and 63 are 0x54 0x43, yet `found_end` stays false and `send_command`
returns false. On streams of at most 63 bytes `found_end` is set exactly when
some byte 0x43 directly follows a byte 0x54. -/
theorem C25_end_marker_past_buffer :
    staleEndStream.length = 64
    ∧ staleEndStream.getD 63 0 = 0x43 ∧ staleEndStream.getD 62 0 = 0x00
    ∧ (recvAfter (staleEndStream.take 63)).found_end = false
    ∧ (recvAfter staleEndStream).found_end = true
    ∧ (recvAfter staleEndStream).recv_buffer.getD 61 0 = 0x54
    ∧ (send_command 0x81 0x82 1 none (some response0) staleEndStream).ok = true
    ∧ lateEndStream.length = 64
    ∧ lateEndStream.getD 62 0 = 0x54 ∧ lateEndStream.getD 63 0 = 0x43
    ∧ (recvAfter lateEndStream).found_end = false
    ∧ (send_command 0x81 0x82 1 none (some response0) lateEndStream).ok = false
    ∧ (∀ rx : List Nat, rx.length ≤ 63 →
        ((recvAfter rx).found_end = true
          ↔ ∃ k, 1 ≤ k ∧ rx.getD (k - 1) 0 = 0x54 ∧ rx.getD k 0 = 0x43)) := by
  refine ⟨by decide, by decide, by decide, by decide, by decide, by decide, by decide,
    by decide, by decide, by decide, by decide, by decide, ?_⟩
  intro rx hlen
  rw [(tracks_recvAfter rx hlen).2.2.2, pair_infix_iff]

/-- C26 on the 22-byte stream `overlongStream`: `send_command` reports success
with `recv_pos = 22` and copies 22 bytes into the 20-byte `response` buffer of
`update`; the buffer after the copy holds 22 bytes. For every stream the
number of bytes copied on success is at most 63. -/
theorem C26_response_copy_overflow :
    overlongStream.length = 22
    ∧ response0.length = 20
    ∧ (send_command REG_BREATH CMD_GET_BREATHING 1 (some [dummy_byte]) (some response0)
          overlongStream).ok = true
    ∧ (recvLoop recvInit overlongStream).map (fun st => st.recv_pos) = some 22
    ∧ (send_command REG_BREATH CMD_GET_BREATHING 1 (some [dummy_byte]) (some response0)
          overlongStream).response_buffer = some overlongStream
    ∧ (∀ (rx : List Nat) (st1 : RecvState), recvLoop recvInit rx = some st1 →
        st1.recv_pos ≤ 63) := by
  refine ⟨by decide, by decide, by decide, by decide, by decide, ?_⟩
  intro rx st1 h
  exact recvLoop_pos_le rx recvInit st1 (by decide) h

/-- C27: for every raw byte r in 0..255 the mapped respiration value, in exact
arithmetic, lies in [8, 25]; hence, with a sink attached, a successful
respiration tick always publishes the value (the gate [8,30] never withholds
it) and logs the range warning only for r = 8 and r = 9, and a successful
sleep-composite tick always publishes the average respiration (the gate
[0,40] never withholds it). -/
theorem C27_respiration_range (r : Nat) (hr : r < 256) :
    (8 ≤ breathing r ∧ breathing r ≤ 25)
    ∧ (∀ (env : TickEnv) (c : C1001Component),
        c.init_state_ = INIT_COMPLETE → c.sensor_initialized_ = true →
        sub32 env.now c.last_successful_read_ ≤ SENSOR_TIMEOUT_MS →
        c.vital_count = 0 → (query REG_BREATH CMD_GET_BREATHING env).ok = true →
        c.respiration_sensor_ = true →
        (responseTo REG_BREATH CMD_GET_BREATHING env).getD 6 0 = r →
        publishes Sink.respiration_sensor_ (update env c).2 = [breathing r]
        ∧ warnings (update env c).2
            = (if r = 8 ∨ r = 9 then [Warning.respiration_outside_range] else []))
    ∧ (∀ (env : TickEnv) (c : C1001Component),
        c.init_state_ = INIT_COMPLETE → c.sensor_initialized_ = true →
        sub32 env.now c.last_successful_read_ ≤ SENSOR_TIMEOUT_MS →
        2 ≤ c.vital_count → c.read_step = 9 →
        (query REG_SLEEP CMD_GET_SLEEP_COMPOSITE env).ok = true →
        c.average_respiration_sensor_ = true →
        (responseTo REG_SLEEP CMD_GET_SLEEP_COMPOSITE env).getD 8 0 = r →
        publishes Sink.average_respiration_sensor_ (update env c).2
          = [average_respiration r]) := by
  obtain ⟨hlo, hhi⟩ := breathing_range r hr
  refine ⟨⟨hlo, hhi⟩, ?_, ?_⟩
  · intro env c hi hs ht hv hok hsink hraw
    rw [respiration_tick env c hi hs ht hv hok, hraw]
    by_cases hin : 10 ≤ breathing r ∧ breathing r ≤ 25
    · have hnot : ¬ (r = 8 ∨ r = 9) := fun h => (breathing_warn_iff r hr).mpr h hin
      rw [if_pos ⟨hin.1, hin.2, hsink⟩, if_neg hnot]
      exact ⟨by rw [publishes_tx, publishes_state, if_pos rfl, publishes_nil], rfl⟩
    · have hwarn : r = 8 ∨ r = 9 := (breathing_warn_iff r hr).mp hin
      have hgate : breathing r ≥ 8 ∧ breathing r ≤ 30 ∧ c.respiration_sensor_ = true :=
        ⟨hlo, by linarith, hsink⟩
      rw [if_neg (fun h => hin ⟨h.1, h.2.1⟩), if_pos hgate, if_pos hwarn]
      exact ⟨by rw [publishes_tx, publishes_log, publishes_state, if_pos rfl, publishes_nil],
        rfl⟩
  · intro env c hi hs ht hv hrs hok hsink hraw
    have hgate : average_respiration r ≥ 0 ∧ average_respiration r ≤ 40 := by
      have h1 : average_respiration r = breathing r := rfl
      rw [h1]
      exact ⟨by linarith, by linarith⟩
    rw [(composite_publishes env c hi hs ht hv hrs hok).1, hraw, if_pos hsink, if_pos hgate]

/-- Witness of C27 at the raw byte 9. -/
theorem C27_respiration_range_witness :
    9 < 256 ∧ (8 ≤ breathing 9 ∧ breathing 9 ≤ 25) :=
  ⟨by decide, (C27_respiration_range 9 (by decide)).1⟩


/-- C28: for every raw byte r in 0..255 the mapped heart-rate value, in exact
arithmetic, lies in [45, 100]; hence, with a sink attached, a successful
heart-rate tick always publishes the value (the gate [40,120] never withholds
it) and logs the range warning exactly when 30 <= r < 60, and a successful
sleep-composite tick always publishes the average heart rate (the gate
[40,150] never withholds it). -/
theorem C28_heart_rate_range (r : Nat) (hr : r < 256) :
    (45 ≤ heart r ∧ heart r ≤ 100)
    ∧ (∀ (env : TickEnv) (c : C1001Component),
        c.init_state_ = INIT_COMPLETE → c.sensor_initialized_ = true →
        sub32 env.now c.last_successful_read_ ≤ SENSOR_TIMEOUT_MS →
        c.vital_count = 1 → (query REG_HEART CMD_GET_HEART_RATE env).ok = true →
        c.heart_rate_sensor_ = true →
        (responseTo REG_HEART CMD_GET_HEART_RATE env).getD 6 0 = r →
        publishes Sink.heart_rate_sensor_ (update env c).2 = [heart r]
        ∧ warnings (update env c).2
            = (if 30 ≤ r ∧ r < 60 then [Warning.heart_rate_outside_range] else []))
    ∧ (∀ (env : TickEnv) (c : C1001Component),
        c.init_state_ = INIT_COMPLETE → c.sensor_initialized_ = true →
        sub32 env.now c.last_successful_read_ ≤ SENSOR_TIMEOUT_MS →
        2 ≤ c.vital_count → c.read_step = 9 →
        (query REG_SLEEP CMD_GET_SLEEP_COMPOSITE env).ok = true →
        c.average_heart_rate_sensor_ = true →
        (responseTo REG_SLEEP CMD_GET_SLEEP_COMPOSITE env).getD 9 0 = r →
        publishes Sink.average_heart_rate_sensor_ (update env c).2
          = [average_heartbeat r]) := by
  obtain ⟨hlo, hhi⟩ := heart_range r hr
  refine ⟨⟨hlo, hhi⟩, ?_, ?_⟩
  · intro env c hi hs ht hv hok hsink hraw
    rw [heart_tick env c hi hs ht hv hok, hraw]
    by_cases hin : 60 ≤ heart r ∧ heart r ≤ 100
    · have hnot : ¬ (30 ≤ r ∧ r < 60) := fun h => (heart_warn_iff r hr).mpr h hin
      rw [if_pos ⟨hin.1, hin.2, hsink⟩, if_neg hnot]
      exact ⟨by rw [publishes_tx, publishes_state, if_pos rfl, publishes_nil], rfl⟩
    · have hwarn : 30 ≤ r ∧ r < 60 := (heart_warn_iff r hr).mp hin
      have hgate : heart r ≥ 40 ∧ heart r ≤ 120 ∧ c.heart_rate_sensor_ = true :=
        ⟨by linarith, by linarith, hsink⟩
      rw [if_neg (fun h => hin ⟨h.1, h.2.1⟩), if_pos hgate, if_pos hwarn]
      exact ⟨by rw [publishes_tx, publishes_log, publishes_state, if_pos rfl, publishes_nil],
        rfl⟩
  · intro env c hi hs ht hv hrs hok hsink hraw
    have hgate : average_heartbeat r ≥ 40 ∧ average_heartbeat r ≤ 150 := by
      have h1 : average_heartbeat r = heart r := rfl
      rw [h1]
      exact ⟨by linarith, by linarith⟩
    rw [(composite_publishes env c hi hs ht hv hrs hok).2, hraw, if_pos hsink, if_pos hgate]

/-- Witness of C28 at the raw byte 45, which maps below 60. -/
theorem C28_heart_rate_range_witness :
    45 < 256 ∧ (45 ≤ heart 45 ∧ heart 45 ≤ 100) :=
  ⟨by decide, (C28_heart_rate_range 45 (by decide)).1⟩

/-- C29: the sleep-composite decoder applies the same maps as the live
readings: for every raw byte r the average respiration of the composite case
equals the value the respiration case computes from r, and the average heart
rate of the composite case equals the value the heart-rate case computes from
r. -/
theorem C29_composite_maps (r : Nat) :
    average_respiration r = breathing r ∧ average_heartbeat r = heart r :=
  ⟨rfl, rfl⟩


/-- C30: in every state reached from a constructed driver by one setup
followed by any sequence of update, on_uart_error and reset_initialization
calls, with arbitrary transaction outcomes and times, sensor_initialized_ is
true exactly when init_state_ is INIT_COMPLETE; consequently the guard of the
"Sensor not initialized, skipping update" branch of update (init_state_ is
INIT_COMPLETE and sensor_initialized_ is false) never holds there, and no
update from such a state logs that warning. -/
theorem C30_initialized_iff_complete (now : Nat) (actions : List Action) :
    ((reached now actions).sensor_initialized_ = true
      ↔ (reached now actions).init_state_ = INIT_COMPLETE)
    ∧ ¬ ((reached now actions).init_state_ = INIT_COMPLETE
          ∧ (reached now actions).sensor_initialized_ = false)
    ∧ ∀ env : TickEnv,
        Event.log Warning.sensor_not_initialized ∉ (update env (reached now actions)).2 := by
  have h := reached_flag now actions
  refine ⟨h, ?_, fun env => update_no_skip env _ h⟩
  rintro ⟨hc, hs⟩
  rw [h.mpr hc] at hs
  exact Bool.noConfusion hs


/-- C31: in every state reached after setup by any sequence of update,
on_uart_error and reset_initialization calls, consecutive_errors_ is at most
19, so incrementing the 8-bit counter never wraps; on_uart_error and a failed
scheduler tick leave the counter one higher while that stays below 20, and
reset the initialization (counter back to 0) on the first call that would make
it 20. The bound 19 is attained after 19 on_uart_error calls. -/
theorem C31_error_counter_bound (now : Nat) (actions : List Action) :
    (reached now actions).consecutive_errors_ ≤ 19
    ∧ ((reached now actions).consecutive_errors_ + 1) % 256
        = (reached now actions).consecutive_errors_ + 1
    ∧ ((reached now actions).consecutive_errors_ + 1 < 20 →
        on_uart_error (reached now actions)
          = ({ reached now actions with
                consecutive_errors_ := (reached now actions).consecutive_errors_ + 1 },
             [Event.log Warning.uart_error_detected]))
    ∧ ((reached now actions).consecutive_errors_ + 1 = 20 →
        on_uart_error (reached now actions)
          = ({ reached now actions with
                init_state_ := INIT_CREATED, sensor_initialized_ := false,
                consecutive_errors_ := 0 },
             [Event.log Warning.uart_error_detected,
              Event.log Warning.too_many_consecutive_uart_errors,
              Event.log Warning.resetting_initialization]))
    ∧ (∀ env : TickEnv, (reached now actions).init_state_ = INIT_COMPLETE →
        sub32 env.now (reached now actions).last_successful_read_ ≤ SENSOR_TIMEOUT_MS →
        receive (env.rx.getD 0 []) = none →
        ((reached now actions).consecutive_errors_ + 1 < 20 →
          (update env (reached now actions)).1.init_state_ = INIT_COMPLETE
          ∧ (update env (reached now actions)).1.consecutive_errors_
              = (reached now actions).consecutive_errors_ + 1)
        ∧ ((reached now actions).consecutive_errors_ + 1 = 20 →
          (update env (reached now actions)).1.init_state_ = INIT_CREATED
          ∧ (update env (reached now actions)).1.sensor_initialized_ = false
          ∧ (update env (reached now actions)).1.consecutive_errors_ = 0))
    ∧ (reached now (List.replicate 19 Action.on_uart_error)).consecutive_errors_ = 19 := by
  have hle := reached_errors_le now actions
  have hmod : ((reached now actions).consecutive_errors_ + 1) % 256
      = (reached now actions).consecutive_errors_ + 1 := Nat.mod_eq_of_lt (by omega)
  refine ⟨hle, hmod, ?_, ?_, ?_, ?_⟩
  rotate_right
  · unfold reached
    rw [uart_errors_replicate 19 _ (Nat.le_refl 19)]
    rfl
  · intro hlt
    unfold on_uart_error
    simp only [hmod, MAX_CONSECUTIVE_ERRORS]
    rw [if_neg (by omega)]
  · intro h20
    unfold on_uart_error
    simp only [hmod, MAX_CONSECUTIVE_ERRORS, reset_initialization]
    rw [if_pos (by omega)]
  · intro env hi ht hfail
    have hs := (reached_flag now actions).mpr hi
    obtain ⟨h1, h2⟩ := failed_tick env (reached now actions) hi hs ht hfail (by omega)
    exact ⟨fun h => ⟨(h1 h).1, (h1 h).2.2.1⟩, h2⟩


/-- C32: the staleness test is correct across the wrap-around of millis():
for every value L of last_successful_read_ and every true elapsed time
e < 2^32 ms, with now = (L + e) mod 2^32 the 32-bit test now - L > 120000
holds if and only if e > 120000; accordingly a tick of an initialized driver
at that time resets the initialization when e > 120000 and runs the polling
part when e ≤ 120000. -/
theorem C32_staleness_wraparound (L e : Nat) (he : e < 4294967296) :
    (sub32 ((L + e) % 4294967296) L > SENSOR_TIMEOUT_MS ↔ e > 120000)
    ∧ sub32 ((L + e) % 4294967296) L = e
    ∧ (∀ (env : TickEnv) (c : C1001Component),
        c.init_state_ = INIT_COMPLETE → c.sensor_initialized_ = true →
        c.last_successful_read_ = L → env.now = (L + e) % 4294967296 →
        (e > 120000 →
          update env c = ((reset_initialization c).1,
            Event.log Warning.sensor_timeout :: (reset_initialization c).2))
        ∧ (e ≤ 120000 → update env c = updatePoll env c)) := by
  have hsub : sub32 ((L + e) % 4294967296) L = e := by
    unfold sub32
    omega
  refine ⟨?_, hsub, ?_⟩
  · rw [hsub]
    exact Iff.rfl
  · intro env c hi hs hL hnow
    constructor
    · intro hgt
      have hstale : sub32 env.now c.last_successful_read_ > SENSOR_TIMEOUT_MS := by
        rw [hnow, hL, hsub]
        exact hgt
      unfold update
      rw [if_neg (not_not.mpr hi), hs, if_neg (by simp), if_pos hstale]
    · intro hle
      have hfresh : sub32 env.now c.last_successful_read_ ≤ SENSOR_TIMEOUT_MS := by
        rw [hnow, hL, hsub]
        exact hle
      exact update_polling env c hi hs hfresh

/-- Witness of C32 across the wrap: last success at 4294967000, 200000 ms
elapsed, so that millis() reads 199704. -/
theorem C32_staleness_wraparound_witness :
    200000 < 4294967296 ∧ (4294967000 + 200000) % 4294967296 = 199704
    ∧ (sub32 ((4294967000 + 200000) % 4294967296) 4294967000 > SENSOR_TIMEOUT_MS
        ↔ 200000 > 120000) :=
  ⟨by decide, by decide, (C32_staleness_wraparound 4294967000 200000 (by decide)).1⟩


/-- C33: reset_initialization sets init_state_ = INIT_CREATED,
sensor_initialized_ = false and consecutive_errors_ = 0 and changes no other
field: last_successful_read_, the scheduler counters vital_count and
read_step, and the cached metric fields keep their values. The ticks of the
re-initialization that follows, however many it takes, leave vital_count and
read_step untouched, so the first scheduler tick after it queries the metric
selected from the counters as they were before the reset. -/
theorem C33_reset_frame (c : C1001Component) (envs : List TickEnv) (env : TickEnv)
    (hinit : ∀ k, k < envs.length →
      (run (envs.take k) (reset_initialization c).1).init_state_ ≠ INIT_COMPLETE)
    (hdone : (run envs (reset_initialization c).1).init_state_ = INIT_COMPLETE)
    (hfresh : sub32 env.now (run envs (reset_initialization c).1).last_successful_read_
      ≤ SENSOR_TIMEOUT_MS)
    (hr : c.read_step < 14) :
    (reset_initialization c).1
        = { c with init_state_ := INIT_CREATED, sensor_initialized_ := false,
                   consecutive_errors_ := 0 }
    ∧ (reset_initialization c).1.init_state_ = INIT_CREATED
    ∧ (reset_initialization c).1.sensor_initialized_ = false
    ∧ (reset_initialization c).1.consecutive_errors_ = 0
    ∧ (reset_initialization c).1.last_successful_read_ = c.last_successful_read_
    ∧ (reset_initialization c).1.vital_count = c.vital_count
    ∧ (reset_initialization c).1.read_step = c.read_step
    ∧ (reset_initialization c).1.retry_count = c.retry_count
    ∧ (reset_initialization c).1.sleep_state_ = c.sleep_state_
    ∧ (reset_initialization c).1.in_bed_ = c.in_bed_
    ∧ (reset_initialization c).1.average_respiration_ = c.average_respiration_
    ∧ (reset_initialization c).1.average_heartbeat_ = c.average_heartbeat_
    ∧ (reset_initialization c).1.turnover_count_ = c.turnover_count_
    ∧ (reset_initialization c).1.large_body_movement_ = c.large_body_movement_
    ∧ (reset_initialization c).1.minor_body_movement_ = c.minor_body_movement_
    ∧ (reset_initialization c).1.apnea_events_ = c.apnea_events_
    ∧ (reset_initialization c).1.sleep_quality_score_ = c.sleep_quality_score_
    ∧ (reset_initialization c).1.sleep_quality_rating_ = c.sleep_quality_rating_
    ∧ (run envs (reset_initialization c).1).vital_count = c.vital_count
    ∧ (run envs (reset_initialization c).1).read_step = c.read_step
    ∧ queried (update env (run envs (reset_initialization c).1)).2
        = [stepQuery (selectStep c.vital_count c.read_step).1]
    ∧ (update env (run envs (reset_initialization c).1)).1.vital_count
        = (selectStep c.vital_count c.read_step).2.1
    ∧ (update env (run envs (reset_initialization c).1)).1.read_step
        = (selectStep c.vital_count c.read_step).2.2 := by
  obtain ⟨hv, hrs⟩ := run_init_statics envs (reset_initialization c).1 hinit
  have hv2 : (run envs (reset_initialization c).1).vital_count = c.vital_count := hv
  have hrs2 : (run envs (reset_initialization c).1).read_step = c.read_step := hrs
  have hs : (run envs (reset_initialization c).1).sensor_initialized_ = true :=
    (run_flag envs _ (reset_initialization_flag c)).mpr hdone
  obtain ⟨hq, h1, h2⟩ := update_scheduler_tick env (run envs (reset_initialization c).1)
    hdone hs hfresh (by rw [hrs2]; exact hr)
  rw [hv2, hrs2] at hq h1 h2
  exact ⟨rfl, rfl, rfl, rfl, rfl, rfl, rfl, rfl, rfl, rfl, rfl, rfl, rfl, rfl, rfl, rfl, rfl, rfl,
    hv2, hrs2, hq, h1, h2⟩

/-- Witness of C33: the initialized driver `polling2` (vital_count = 0,
read_step = 2) is reset, re-initialized by four ticks in which the device
answers every command, and then polled: the tick queries respiration. -/
theorem C33_reset_frame_witness :
    (∀ k, k < [replyEnv 100 0x01 0x83 0x01, replyEnv 200 0x02 0xA8 0x02,
        replyEnv 300 0x01 0x03 0x01, replyEnv 400 0x01 0x02 0x0F].length →
      (run ([replyEnv 100 0x01 0x83 0x01, replyEnv 200 0x02 0xA8 0x02,
        replyEnv 300 0x01 0x03 0x01, replyEnv 400 0x01 0x02 0x0F].take k)
        (reset_initialization polling2).1).init_state_ ≠ INIT_COMPLETE)
    ∧ (run [replyEnv 100 0x01 0x83 0x01, replyEnv 200 0x02 0xA8 0x02,
        replyEnv 300 0x01 0x03 0x01, replyEnv 400 0x01 0x02 0x0F]
        (reset_initialization polling2).1).init_state_ = INIT_COMPLETE
    ∧ polling2.read_step < 14
    ∧ queried (update (replyEnv 500 0x81 0x82 16)
        (run [replyEnv 100 0x01 0x83 0x01, replyEnv 200 0x02 0xA8 0x02,
          replyEnv 300 0x01 0x03 0x01, replyEnv 400 0x01 0x02 0x0F]
          (reset_initialization polling2).1)).2
        = [stepQuery (selectStep polling2.vital_count polling2.read_step).1] :=
  ⟨by decide, by decide, by decide,
   (C33_reset_frame polling2 [replyEnv 100 0x01 0x83 0x01, replyEnv 200 0x02 0xA8 0x02,
      replyEnv 300 0x01 0x03 0x01, replyEnv 400 0x01 0x02 0x0F] (replyEnv 500 0x81 0x82 16)
      (by decide) (by decide) (by decide) (by decide)).2.2.2.2.2.2.2.2.2.2.2.2.2.2.2.2.2.2.2.2.1⟩

end C1001
